import Mathlib

/-!
The edbr engine: cascaded shadow maps, the N-buffer upload ring, the skybox pass, the
cubemap loader, the entity factory, the scene cache and the collision layers.

A shallow embedding of `CSMPipeline::draw` (edbr/src/Graphics/Pipelines/CSMPipeline.cpp),
`NBuffer` (src/Graphics/Vulkan/NBuffer.cpp), `SkyboxPipeline::draw`
(edbr/src/Graphics/Pipelines/SkyboxPipeline.cpp), `graphics::loadCubemap`
(src/Graphics/Cubemap.cpp), `EntityFactory` (edbr/src/ECS/EntityFactory.cpp),
`SceneCache::loadScene` (edbr/src/SceneCache.cpp) and the layer filters of
games/mtp/src/PhysicsSystem.h.

Conventions of the embedding:
* `float` values are rationals and arithmetic is exact, with two exceptions: the radius
  of a bounding sphere is a `FloatValue`, which can be an infinity or NaN, and lines
  110-111 of CSMPipeline.cpp also have a version whose products are rounded to binary32;
* Vulkan handles (`VkImage`, `VkBuffer`, `VkPipeline`, ...) are natural numbers;
* a command buffer is the list of the commands recorded into it, oldest first;
  every `vkCmd*` call appends one command;
* `std::array<T, NUM_SHADOW_CASCADES>` is a function `Fin N → T`, the constant
  `NUM_SHADOW_CASCADES` (declared in a header that is not part of the sources) being
  the parameter `N`;
* an `assert` that fails stops the function; the result records which assertion failed
  together with the state reached so far; a thrown exception is recorded in the same way;
* `std::unordered_map<std::string, T>` is a function from keys to optional values.
-/

namespace Edbr

/-! ## Data model -/

/-- The type glm::vec3. -/
structure Vec3 where
  x : ℚ
  y : ℚ
  z : ℚ
  deriving DecidableEq

/-- The type glm::quat. -/
structure Quat where
  w : ℚ
  x : ℚ
  y : ℚ
  z : ℚ
  deriving DecidableEq

/-- The type glm::mat4. -/
abbrev Mat4 := Matrix (Fin 4) (Fin 4) ℚ

/-- The part of `Camera` that `CSMPipeline::draw` reads and writes: position, heading and
the four arguments of `Camera::init`. -/
structure Camera where
  position : Vec3
  heading : Quat
  fovX : ℚ
  zNear : ℚ
  zFar : ℚ
  aspectRatio : ℚ
  deriving DecidableEq

/-- A default-constructed camera, before `setPosition`, `setHeading` and `init`. -/
def Camera.default : Camera :=
  { position := ⟨0, 0, 0⟩, heading := ⟨1, 0, 0, 0⟩, fovX := 0, zNear := 0, zFar := 0,
    aspectRatio := 0 }

/-- The method Camera::setPosition. -/
def Camera.setPosition (c : Camera) (p : Vec3) : Camera := { c with position := p }

/-- The method Camera::setHeading. -/
def Camera.setHeading (c : Camera) (h : Quat) : Camera := { c with heading := h }

/-- The method Camera::init(fovX, zNear, zFar, aspectRatio). -/
def Camera.init (c : Camera) (fovX zNear zFar aspectRatio : ℚ) : Camera :=
  { c with fovX := fovX, zNear := zNear, zFar := zFar, aspectRatio := aspectRatio }

/-- A C++ `float` with its special values, for the one comparison of the sources whose
outcome on NaN matters (`radius < 2.f`): a number, an infinity, or NaN. -/
inductive FloatValue where
  | finite (value : ℚ)
  | posInf
  | negInf
  | nan
  deriving DecidableEq

/-- The operator `<` on floats: false as soon as an operand is NaN. -/
def FloatValue.lt : FloatValue → FloatValue → Bool
  | FloatValue.finite a, FloatValue.finite b => decide (a < b)
  | FloatValue.finite _, FloatValue.posInf => true
  | FloatValue.negInf, FloatValue.finite _ => true
  | FloatValue.negInf, FloatValue.posInf => true
  | _, _ => false

/-- The operator `>=` on floats: false as soon as an operand is NaN. -/
def FloatValue.ge : FloatValue → FloatValue → Bool
  | FloatValue.finite a, FloatValue.finite b => decide (b ≤ a)
  | FloatValue.finite _, FloatValue.negInf => true
  | FloatValue.posInf, FloatValue.finite _ => true
  | FloatValue.posInf, FloatValue.posInf => true
  | FloatValue.posInf, FloatValue.negInf => true
  | FloatValue.negInf, FloatValue.negInf => true
  | _, _ => false

/-- Whether a float is NaN (`std::isnan`). -/
def FloatValue.isNaN : FloatValue → Bool
  | FloatValue.nan => true
  | _ => false

/-- A bounding sphere (`math::Sphere`). -/
structure Sphere where
  center : Vec3
  radius : FloatValue
  deriving DecidableEq

/-- A buffer handle with its device address (`GPUBuffer`). -/
structure GPUBuffer where
  buffer : Nat
  address : Nat
  deriving DecidableEq

/-- The mesh data `CSMPipeline::draw` reads from `renderer.getMesh`. -/
structure GPUMesh where
  vertexBuffer : GPUBuffer
  indexBuffer : GPUBuffer
  numIndices : Nat
  deriving DecidableEq

/-- The skinned mesh referenced by a draw command. -/
structure SkinnedMesh where
  skinnedVertexBuffer : GPUBuffer
  deriving DecidableEq

/-- One entry of the draw-command list; `skinnedMesh` is a nullable pointer. -/
structure MeshDrawCommand where
  meshId : Nat
  transformMatrix : Mat4
  worldBoundingSphere : Sphere
  castShadow : Bool
  skinnedMesh : Option SkinnedMesh

/-- The constant NULL_MESH_ID of IdTypes.h: the largest `std::size_t`. -/
def NULL_MESH_ID : Nat := 2 ^ 64 - 1

/-- Image layouts named by the pipeline. -/
inductive ImageLayout where
  | undefined
  | depthAttachmentOptimal
  | depthReadOnlyOptimal
  deriving DecidableEq

/-- Pipeline stages named by `NBuffer::uploadNewData`. -/
inductive PipelineStage where
  | allCommands
  | transfer
  | copy
  deriving DecidableEq

/-- A `VkBufferMemoryBarrier2`; access masks are the pair (reads, writes), `size` is
`none` for `VK_WHOLE_SIZE`. -/
structure BufferMemoryBarrier where
  srcStageMask : PipelineStage
  srcAccessRead : Bool
  srcAccessWrite : Bool
  dstStageMask : PipelineStage
  dstAccessRead : Bool
  dstAccessWrite : Bool
  buffer : Nat
  offset : Nat
  size : Option Nat
  deriving DecidableEq

/-- The commands recorded by the functions of this development. -/
inductive Command where
  | transitionImage (image : Nat) (oldLayout newLayout : ImageLayout)
  | beginRendering (renderWidth renderHeight : Nat) (depthImageView : Nat)
      (depthImageClearValue : ℚ)
  | bindPipeline (pipeline : Nat)
  | setViewport (x y width height minDepth maxDepth : ℚ)
  | setScissor (offsetX offsetY : Int) (width height : Nat)
  | bindIndexBuffer (buffer : Nat) (offset : Nat)
  | pushConstants (layout : Nat) (mvp : Mat4) (vertexBuffer : Nat)
  | drawIndexed (indexCount instanceCount firstIndex : Nat) (vertexOffset : Int)
      (firstInstance : Nat)
  | endRendering
  | pipelineBarrier2 (barrier : BufferMemoryBarrier)
  | copyBuffer2 (srcBuffer dstBuffer srcOffset dstOffset size : Nat)
  | bindBindlessDescSet (layout : Nat)
  | pushSkyboxConstants (layout : Nat) (invViewProj : Mat4) (cameraPos : ℚ × ℚ × ℚ × ℚ)
      (skyboxTextureId : Nat)
  | draw (vertexCount instanceCount firstVertex firstInstance : Nat)

/-- The conversion `(std::uint32_t)x` of a non-negative float: truncation, modulo 2^32. -/
def toUInt32 (x : ℚ) : Nat := (Rat.floor x).toNat % 2 ^ 32

/-! ## CSMPipeline -/

/-- The functions `CSMPipeline::draw` calls and that live outside the sources:
frustum geometry, the light camera fit, the renderer's mesh table and the device's
image table. -/
structure Collaborators where
  Frustum : Type
  calculateFrustumCornersWorldSpace : Camera → Fin 8 → Vec3
  calculateCSMCamera : (Fin 8 → Vec3) → Vec3 → ℚ → Camera
  getViewProj : Camera → Mat4
  createFrustumFromCamera : Camera → Frustum
  isInFrustum : Frustum → Sphere → Bool
  getMesh : Nat → GPUMesh
  getImage : Nat → Nat

/-- The members of `CSMPipeline` with `N = NUM_SHADOW_CASCADES`. -/
structure CSMPipeline (N : Nat) where
  percents : Fin N → ℚ
  pipelineLayout : Nat
  pipeline : Nat
  csmShadowMapID : Nat
  csmShadowMapViews : Fin N → Nat
  shadowMapTextureSize : ℚ
  cascadeFarPlaneZs : Fin N → ℚ
  csmLightSpaceTMs : Fin N → Mat4

/-- Line 110: `i == 0 ? camera.getZNear() : camera.getZNear() * percents[i - 1]`. -/
def cascadeZNear {N : Nat} (camera : Camera) (percents : Fin N → ℚ) (i : Fin N) : ℚ :=
  if i.val = 0 then camera.zNear
  else camera.zNear * percents ⟨i.val - 1, by omega⟩

/-- Line 111: `camera.getZFar() * percents[i]`. -/
def cascadeZFar {N : Nat} (camera : Camera) (percents : Fin N → ℚ) (i : Fin N) : ℚ :=
  camera.zFar * percents i

/-- Lines 116-119: the sub-frustum camera of cascade `i`. -/
def subFrustumCamera (camera : Camera) (zNear zFar : ℚ) : Camera :=
  ((Camera.default.setPosition camera.position).setHeading camera.heading).init
    camera.fovX zNear zFar 1

/-- The state of the loop over the draw commands: the command buffer and
`prevMeshId`. -/
structure MeshLoopState where
  cmd : List Command
  prevMeshId : Nat

/-- Lines 155-186: the body of the loop over `meshDrawCommands` in cascade `i`. -/
def drawMeshCommand {N : Nat} (env : Collaborators) (self : CSMPipeline N) (i : Fin N)
    (frustum : env.Frustum) (shadowsEnabled : Bool) (st : MeshLoopState)
    (dc : MeshDrawCommand) : MeshLoopState :=
  if !shadowsEnabled || !dc.castShadow then st
  else if !env.isInFrustum frustum dc.worldBoundingSphere
      && dc.worldBoundingSphere.radius.lt (FloatValue.finite 2) then st
  else
    let mesh := env.getMesh dc.meshId
    let st1 : MeshLoopState :=
      if dc.meshId ≠ st.prevMeshId then
        { cmd := st.cmd ++ [Command.bindIndexBuffer mesh.indexBuffer.buffer 0],
          prevMeshId := dc.meshId }
      else st
    let vertexBuffer := match dc.skinnedMesh with
      | some sm => sm.skinnedVertexBuffer.address
      | none => mesh.vertexBuffer.address
    let mvp : Mat4 := self.csmLightSpaceTMs i * dc.transformMatrix
    { st1 with
      cmd := st1.cmd ++ [Command.pushConstants self.pipelineLayout mvp vertexBuffer,
        Command.drawIndexed mesh.numIndices 1 0 0 0] }

/-- Lines 110-189: the body of the loop over the cascades. -/
def drawCascade {N : Nat} (env : Collaborators) (camera : Camera)
    (sunlightDirection : Vec3) (meshDrawCommands : List MeshDrawCommand)
    (shadowsEnabled : Bool) (st : CSMPipeline N × List Command) (i : Fin N) :
    CSMPipeline N × List Command :=
  let self := st.1
  let zNear := cascadeZNear camera self.percents i
  let zFar := cascadeZFar camera self.percents i
  let self1 : CSMPipeline N :=
    { self with cascadeFarPlaneZs := Function.update self.cascadeFarPlaneZs i zFar }
  let corners := env.calculateFrustumCornersWorldSpace (subFrustumCamera camera zNear zFar)
  let csmCamera := env.calculateCSMCamera corners sunlightDirection self1.shadowMapTextureSize
  let self2 : CSMPipeline N :=
    { self1 with
      csmLightSpaceTMs := Function.update self1.csmLightSpaceTMs i (env.getViewProj csmCamera) }
  let size := toUInt32 self2.shadowMapTextureSize
  let cmd1 := st.2 ++ [Command.beginRendering size size (self2.csmShadowMapViews i) 0]
  let cmd2 := cmd1 ++ [Command.bindPipeline self2.pipeline]
  let cmd3 := cmd2 ++ [Command.setViewport 0 0 self2.shadowMapTextureSize
    self2.shadowMapTextureSize 0 1]
  let cmd4 := cmd3 ++ [Command.setScissor 0 0 size size]
  let frustum := env.createFrustumFromCamera csmCamera
  let loop := meshDrawCommands.foldl (drawMeshCommand env self2 i frustum shadowsEnabled)
    { cmd := cmd4, prevMeshId := NULL_MESH_ID }
  (self2, loop.cmd ++ [Command.endRendering])

/-- The method CSMPipeline::draw: returns the pipeline members and the command buffer
after the call. -/
def CSMPipeline.draw {N : Nat} (self : CSMPipeline N) (cmd : List Command)
    (env : Collaborators) (camera : Camera) (sunlightDirection : Vec3)
    (meshDrawCommands : List MeshDrawCommand) (shadowsEnabled : Bool) :
    CSMPipeline N × List Command :=
  let csmShadowMap := env.getImage self.csmShadowMapID
  let cmd0 := cmd ++ [Command.transitionImage csmShadowMap ImageLayout.undefined
    ImageLayout.depthAttachmentOptimal]
  let st := (List.finRange N).foldl
    (drawCascade env camera sunlightDirection meshDrawCommands shadowsEnabled) (self, cmd0)
  (st.1, st.2 ++ [Command.transitionImage csmShadowMap ImageLayout.depthAttachmentOptimal
    ImageLayout.depthReadOnlyOptimal])

/-! ## Reading a recorded command stream -/

/-- Whether a command is `vkCmdBeginRendering`. -/
def Command.isBeginRendering : Command → Bool
  | .beginRendering _ _ _ _ => true
  | _ => false

/-- Whether a command is `vkCmdEndRendering`. -/
def Command.isEndRendering : Command → Bool
  | .endRendering => true
  | _ => false

/-- Whether a command is `vkCmdDrawIndexed`. -/
def Command.isDrawIndexed : Command → Bool
  | .drawIndexed _ _ _ _ _ => true
  | _ => false

/-- Whether a command is an image layout transition. -/
def Command.isTransitionImage : Command → Bool
  | .transitionImage _ _ _ => true
  | _ => false

/-- The layout of `image` after the GPU has gone through `cmds`, starting from layout
`current`: every transition of that image installs its new layout. -/
def layoutAfter (image : Nat) (current : ImageLayout) : List Command → ImageLayout
  | [] => current
  | .transitionImage img _ newLayout :: rest =>
      layoutAfter image (if img = image then newLayout else current) rest
  | _ :: rest => layoutAfter image current rest

/-- The light camera fitted to cascade `i` (lines 110-122). -/
def cascadeCSMCamera {N : Nat} (env : Collaborators) (self : CSMPipeline N) (camera : Camera)
    (sunlightDirection : Vec3) (i : Fin N) : Camera :=
  env.calculateCSMCamera
    (env.calculateFrustumCornersWorldSpace
      (subFrustumCamera camera (cascadeZNear camera self.percents i)
        (cascadeZFar camera self.percents i)))
    sunlightDirection self.shadowMapTextureSize

/-- The commands the two `continue` statements of the draw loop (lines 156-163) let
through: shadows are enabled, the command casts a shadow, and its bounding sphere is
inside the frustum or its radius is not below 2. -/
def passesShadowFilter (env : Collaborators) (frustum : env.Frustum) (shadowsEnabled : Bool)
    (dc : MeshDrawCommand) : Bool :=
  shadowsEnabled && dc.castShadow &&
    (env.isInFrustum frustum dc.worldBoundingSphere
      || !dc.worldBoundingSphere.radius.lt (FloatValue.finite 2))

/-! ## NBuffer -/

/-- A byte of buffer memory. -/
abbrev Byte := Fin 256

/-- Buffer memory, host-mapped or device-local: the bytes of every live buffer, by handle. -/
abbrev Memory := Nat → Option (List Byte)

/-- The state behind a `VmaAllocator`: buffer memory, the next free handle, the bytes an
allocation holds before its first write, and the device address given to a handle. -/
structure Allocator where
  memory : Memory
  nextHandle : Nat
  uninitialised : Nat → Byte
  deviceAddress : Nat → Nat

/-- The flag VK_BUFFER_USAGE_TRANSFER_SRC_BIT. -/
def VK_BUFFER_USAGE_TRANSFER_SRC_BIT : Nat := 1

/-- The flag VK_BUFFER_USAGE_TRANSFER_DST_BIT. -/
def VK_BUFFER_USAGE_TRANSFER_DST_BIT : Nat := 2

/-- Memory placement hints of the allocator. -/
inductive MemoryUsage where
  | autoPreferDevice
  | autoPreferHost
  deriving DecidableEq

/-- Modelled from the spec: `vkutil::createBuffer`, whose body is not part of the sources.
It allocates a buffer of the requested size under a fresh handle; the contents are
undefined until the first write. The usage flags and the placement hint do not affect
the contents. -/
def createBuffer (allocator : Allocator) (size : Nat) (_usage : Nat)
    (_memoryUsage : MemoryUsage) : GPUBuffer × Allocator :=
  let handle := allocator.nextHandle
  ({ buffer := handle, address := allocator.deviceAddress handle },
   { allocator with
     memory := Function.update allocator.memory handle
       (some ((List.range size).map allocator.uninitialised)),
     nextHandle := handle + 1 })

/-- Modelled from the spec: `vkutil::destroyBuffer`, which releases the allocation and
the handle. -/
def destroyBuffer (allocator : Allocator) (buffer : GPUBuffer) : Allocator :=
  { allocator with memory := Function.update allocator.memory buffer.buffer none }

/-- The members of `NBuffer`. -/
structure NBuffer where
  framesInFlight : Nat
  gpuBufferSize : Nat
  stagingBuffers : List GPUBuffer
  gpuBuffer : GPUBuffer
  initialized : Bool
  deriving DecidableEq

/-- Modelled from the spec: the Uninitialized state of a default-constructed `NBuffer`
(the member initialisers are in NBuffer.h, which is not part of the sources). -/
def NBuffer.default : NBuffer :=
  { framesInFlight := 0, gpuBufferSize := 0, stagingBuffers := [],
    gpuBuffer := { buffer := 0, address := 0 }, initialized := false }

/-- The ways a call stops early: one constructor per `assert` of NBuffer.cpp, and
`outOfBounds` for an access outside a container or a buffer (undefined behaviour in the
source). -/
inductive Failure where
  | assertNumFramesInFlight
  | assertDataSizePositive
  | assertInitialized
  | assertFrameIndex
  | assertDataSize
  | outOfBounds
  deriving DecidableEq

/-- The result of `NBuffer::init`: the failed assertion if any, and the state reached. -/
structure InitResult where
  failure : Option Failure
  self : NBuffer
  allocator : Allocator

/-- Lines 31-37: the loop pushing one staging buffer per frame in flight. -/
def createStagingBuffers (usage dataSize : Nat) :
    Nat → List GPUBuffer × Allocator → List GPUBuffer × Allocator
  | 0, st => st
  | n + 1, st =>
      let r := createBuffer st.2 dataSize (usage ||| VK_BUFFER_USAGE_TRANSFER_SRC_BIT)
        MemoryUsage.autoPreferHost
      createStagingBuffers usage dataSize n (st.1 ++ [r.1], r.2)

/-- The method NBuffer::init. -/
def NBuffer.init (self : NBuffer) (allocator : Allocator) (usage dataSize
    numFramesInFlight : Nat) : InitResult :=
  if ¬ (numFramesInFlight > 0) then
    { failure := some Failure.assertNumFramesInFlight, self := self, allocator := allocator }
  else if ¬ (dataSize > 0) then
    { failure := some Failure.assertDataSizePositive, self := self, allocator := allocator }
  else
    let self1 := { self with framesInFlight := numFramesInFlight, gpuBufferSize := dataSize }
    let g := createBuffer allocator dataSize (usage ||| VK_BUFFER_USAGE_TRANSFER_DST_BIT)
      MemoryUsage.autoPreferDevice
    let self2 := { self1 with gpuBuffer := g.1 }
    let s := createStagingBuffers usage dataSize numFramesInFlight (self2.stagingBuffers, g.2)
    { failure := none, self := { self2 with stagingBuffers := s.1, initialized := true },
      allocator := s.2 }

/-- The method NBuffer::cleanup. -/
def NBuffer.cleanup (self : NBuffer) (allocator : Allocator) : NBuffer × Allocator :=
  let a1 := self.stagingBuffers.foldl destroyBuffer allocator
  let self1 := { self with stagingBuffers := [] }
  let a2 := destroyBuffer a1 self1.gpuBuffer
  ({ self1 with initialized := false }, a2)

/-- The call `memcpy(dst mapped memory, src, n)`: the first `n` bytes of `src` replace
the first `n` bytes of buffer `dst`; `none` when the buffer is not live or either side is
shorter than `n`. -/
def memcpy (memory : Memory) (dst : Nat) (src : List Byte) (n : Nat) : Option Memory :=
  match memory dst with
  | none => none
  | some old =>
      if n ≤ old.length ∧ n ≤ src.length then
        some (Function.update memory dst (some (src.take n ++ old.drop n)))
      else none

/-- The result of `NBuffer::uploadNewData`: the failed assertion if any, and the object,
the buffer memory and the command buffer as they are when the call stops. -/
structure UploadResult where
  failure : Option Failure
  self : NBuffer
  memory : Memory
  cmd : List Command

/-- The method NBuffer::uploadNewData. -/
def NBuffer.uploadNewData (self : NBuffer) (memory : Memory) (cmd : List Command)
    (frameIndex : Nat) (newData : List Byte) (dataSize : Nat) : UploadResult :=
  if ¬ (self.initialized = true) then
    { failure := some Failure.assertInitialized, self := self, memory := memory, cmd := cmd }
  else if ¬ (frameIndex < self.framesInFlight) then
    { failure := some Failure.assertFrameIndex, self := self, memory := memory, cmd := cmd }
  else if ¬ (dataSize ≤ self.gpuBufferSize) then
    { failure := some Failure.assertDataSize, self := self, memory := memory, cmd := cmd }
  else
    let bufferBarrier : BufferMemoryBarrier :=
      { srcStageMask := PipelineStage.allCommands, srcAccessRead := true,
        srcAccessWrite := false, dstStageMask := PipelineStage.transfer,
        dstAccessRead := false, dstAccessWrite := true,
        buffer := self.gpuBuffer.buffer, offset := 0, size := none }
    let cmd1 := cmd ++ [Command.pipelineBarrier2 bufferBarrier]
    match self.stagingBuffers[frameIndex]? with
    | none => { failure := some Failure.outOfBounds, self := self, memory := memory, cmd := cmd1 }
    | some staging =>
      match memcpy memory staging.buffer newData dataSize with
      | none =>
          { failure := some Failure.outOfBounds, self := self, memory := memory, cmd := cmd1 }
      | some memory1 =>
        let cmd2 := cmd1 ++ [Command.copyBuffer2 staging.buffer self.gpuBuffer.buffer 0 0 dataSize]
        let syncWrite : BufferMemoryBarrier :=
          { srcStageMask := PipelineStage.copy, srcAccessRead := false,
            srcAccessWrite := true, dstStageMask := PipelineStage.allCommands,
            dstAccessRead := true, dstAccessWrite := true,
            buffer := self.gpuBuffer.buffer, offset := 0, size := none }
        { failure := none, self := self, memory := memory1,
          cmd := cmd2 ++ [Command.pipelineBarrier2 syncWrite] }

/-- What executing one recorded command does to buffer memory: a buffer copy moves
`size` bytes from the source range to the destination range (`none` when a range is
outside its buffer); no other command of this development writes buffer memory. -/
def executeCommand (memory : Memory) : Command → Option Memory
  | .copyBuffer2 srcBuffer dstBuffer srcOffset dstOffset size =>
      match memory srcBuffer, memory dstBuffer with
      | some src, some dst =>
          if srcOffset + size ≤ src.length ∧ dstOffset + size ≤ dst.length then
            some (Function.update memory dstBuffer
              (some (dst.take dstOffset ++ (src.drop srcOffset).take size
                ++ dst.drop (dstOffset + size))))
          else none
      | _, _ => none
  | _ => some memory

/-- Executing a recorded command stream in order. -/
def executeCommands (memory : Memory) : List Command → Option Memory
  | [] => some memory
  | c :: rest =>
      match executeCommand memory c with
      | none => none
      | some memory1 => executeCommands memory1 rest

/-- The state `NBuffer::init` establishes: the object is initialised, has one staging
buffer per frame in flight, and the GPU buffer and every staging buffer are live with
`gpuBufferSize` bytes. -/
def NBuffer.Initialised (self : NBuffer) (memory : Memory) : Prop :=
  self.initialized = true ∧
  self.stagingBuffers.length = self.framesInFlight ∧
  (∃ bytes, memory self.gpuBuffer.buffer = some bytes ∧ bytes.length = self.gpuBufferSize) ∧
  ∀ b ∈ self.stagingBuffers,
    ∃ bytes, memory b.buffer = some bytes ∧ bytes.length = self.gpuBufferSize

/-! ## The passes of one draw call -/

/-- Whether a command is a transition of an image into the depth-read-only layout. -/
def Command.isTransitionToReadOnly : Command → Bool
  | .transitionImage _ _ ImageLayout.depthReadOnlyOptimal => true
  | _ => false

/-- The light frustum of cascade `i` (line 151). -/
def cascadeFrustum {N : Nat} (env : Collaborators) (self : CSMPipeline N) (camera : Camera)
    (sunlightDirection : Vec3) (i : Fin N) : env.Frustum :=
  env.createFrustumFromCamera (cascadeCSMCamera env self camera sunlightDirection i)

/-- The commands the loop over the draw commands records in cascade `i` (lines 152-187),
on their own: the loop run on an empty command buffer with the light-space matrix of
cascade `i` in place. -/
def cascadeBody {N : Nat} (env : Collaborators) (self : CSMPipeline N) (camera : Camera)
    (sunlightDirection : Vec3) (meshDrawCommands : List MeshDrawCommand)
    (shadowsEnabled : Bool) (i : Fin N) : List Command :=
  (meshDrawCommands.foldl
    (drawMeshCommand env
      { self with
        csmLightSpaceTMs := Function.update self.csmLightSpaceTMs i
          (env.getViewProj (cascadeCSMCamera env self camera sunlightDirection i)) }
      i (cascadeFrustum env self camera sunlightDirection i) shadowsEnabled)
    { cmd := [], prevMeshId := NULL_MESH_ID }).cmd

/-- The four commands opening the render pass of cascade `i` (lines 125-149). -/
def cascadePassHeader {N : Nat} (self : CSMPipeline N) (i : Fin N) : List Command :=
  [Command.beginRendering (toUInt32 self.shadowMapTextureSize)
      (toUInt32 self.shadowMapTextureSize) (self.csmShadowMapViews i) 0,
    Command.bindPipeline self.pipeline,
    Command.setViewport 0 0 self.shadowMapTextureSize self.shadowMapTextureSize 0 1,
    Command.setScissor 0 0 (toUInt32 self.shadowMapTextureSize)
      (toUInt32 self.shadowMapTextureSize)]

/-! ## Concrete inputs used by the examples -/

/-- A camera with `zNear = 0.1` and `zFar = 100`. -/
def scenarioCamera : Camera :=
  { position := ⟨0, 0, 0⟩, heading := ⟨1, 0, 0, 0⟩, fovX := 1, zNear := 1 / 10, zFar := 100,
    aspectRatio := 1 }

/-- The split percentages `[0.1, 0.3, 0.6, 1.0]`. -/
def scenarioPercents : Fin 4 → ℚ := ![1 / 10, 3 / 10, 6 / 10, 1]

/-- Split percentages `[0.1, 0.3, 0.6, 0.9]`: strictly increasing, in (0,1], last one
below 1. -/
def shortPercents : Fin 4 → ℚ := ![1 / 10, 3 / 10, 6 / 10, 9 / 10]

/-- An allocator with no live buffer, handing out handles from 1. -/
def exampleAllocator : Allocator :=
  { memory := fun _ => none, nextHandle := 1, uninitialised := fun _ => 0,
    deviceAddress := fun h => 4096 * h }

/-- An `NBuffer` initialised with capacity 4 and 2 frames in flight. -/
def exampleNBuffer : NBuffer := (NBuffer.default.init exampleAllocator 0 4 2).self

/-- The buffer memory after initialising `exampleNBuffer`. -/
def exampleMemory : Memory := (NBuffer.default.init exampleAllocator 0 4 2).allocator.memory

/-- Collaborators for the examples: the frustum test accepts spheres centred at height 0
or above. -/
def exampleEnv : Collaborators :=
  { Frustum := Unit
    calculateFrustumCornersWorldSpace := fun c _ => c.position
    calculateCSMCamera := fun _ _ _ => Camera.default
    getViewProj := fun _ => 1
    createFrustumFromCamera := fun _ => ()
    isInFrustum := fun _ s => decide (0 ≤ s.center.y)
    getMesh := fun id =>
      { vertexBuffer := ⟨100 + id, 0⟩, indexBuffer := ⟨200 + id, 0⟩, numIndices := 3 * (id + 1) }
    getImage := fun id => 1000 + id }

/-- A pipeline with two cascades and a 4096-texel shadow map. -/
def examplePipeline : CSMPipeline 2 :=
  { percents := ![1 / 2, 1]
    pipelineLayout := 7
    pipeline := 8
    csmShadowMapID := 9
    csmShadowMapViews := ![20, 21]
    shadowMapTextureSize := 4096
    cascadeFarPlaneZs := ![0, 0]
    csmLightSpaceTMs := ![0, 0] }

/-- A shadow caster of radius exactly 2 below height 0, outside the example frustum. -/
def exampleBigCaster : MeshDrawCommand :=
  { meshId := 5, transformMatrix := 1, worldBoundingSphere := ⟨⟨0, -10, 0⟩, FloatValue.finite 2⟩,
    castShadow := true, skinnedMesh := none }

/-! ## Definitions for the batching of index-buffer binds and for buffer exclusivity -/

/-- Whether a command is `vkCmdBindIndexBuffer`. -/
def Command.isBindIndexBuffer : Command → Bool
  | .bindIndexBuffer _ _ => true
  | _ => false

/-- The number of maximal runs of consecutive equal values in a list. -/
def runCount : List Nat → Nat
  | [] => 0
  | [_] => 1
  | a :: b :: rest => (if a = b then 0 else 1) + runCount (b :: rest)

/-- The commands expected for a sequence of drawn commands when the previously bound
mesh is `prev`: for each command an index-buffer bind if its mesh differs from the
previous one, then its push constants and its indexed draw. -/
def drawBatches (env : Collaborators) (pipelineLayout : Nat) (lightSpaceTM : Mat4) :
    Nat → List MeshDrawCommand → List Command
  | _, [] => []
  | prev, dc :: rest =>
      (if dc.meshId ≠ prev then
        [Command.bindIndexBuffer (env.getMesh dc.meshId).indexBuffer.buffer 0] else []) ++
      [Command.pushConstants pipelineLayout (lightSpaceTM * dc.transformMatrix)
          (match dc.skinnedMesh with
            | some sm => sm.skinnedVertexBuffer.address
            | none => (env.getMesh dc.meshId).vertexBuffer.address),
        Command.drawIndexed (env.getMesh dc.meshId).numIndices 1 0 0 0] ++
      drawBatches env pipelineLayout lightSpaceTM dc.meshId rest

/-- The draw commands that are drawn in cascade `i`, in list order. -/
def drawnCommands {N : Nat} (env : Collaborators) (self : CSMPipeline N) (camera : Camera)
    (sunlightDirection : Vec3) (meshDrawCommands : List MeshDrawCommand)
    (shadowsEnabled : Bool) (i : Fin N) : List MeshDrawCommand :=
  meshDrawCommands.filter
    (passesShadowFilter env (cascadeFrustum env self camera sunlightDirection i) shadowsEnabled)

/-- The buffers of an `NBuffer` are pairwise different: no two staging buffers share a
handle, and the GPU buffer is none of them. -/
def NBuffer.ExclusiveHandles (self : NBuffer) : Prop :=
  (self.stagingBuffers.map (fun b => b.buffer)).Nodup ∧
  self.gpuBuffer.buffer ∉ self.stagingBuffers.map (fun b => b.buffer)

/-- A shadow caster below height 0, outside the example frustum, whose radius is NaN. -/
def exampleNaNCaster : MeshDrawCommand :=
  { meshId := 5, transformMatrix := 1, worldBoundingSphere := ⟨⟨0, -10, 0⟩, FloatValue.nan⟩,
    castShadow := true, skinnedMesh := none }

/-- A shadow caster of radius 2 whose mesh ID is `NULL_MESH_ID`. -/
def exampleNullMeshCaster : MeshDrawCommand :=
  { meshId := NULL_MESH_ID, transformMatrix := 1, worldBoundingSphere := ⟨⟨0, 5, 0⟩, FloatValue.finite 2⟩,
    castShadow := true, skinnedMesh := none }

/-- A skinned shadow caster with mesh 5 inside the example frustum. -/
def exampleSkinnedCaster : MeshDrawCommand :=
  { meshId := 5, transformMatrix := 1, worldBoundingSphere := ⟨⟨0, 1, 0⟩, FloatValue.finite 1⟩,
    castShadow := true, skinnedMesh := some { skinnedVertexBuffer := ⟨300, 77⟩ } }

/-- A shadow caster with mesh 6 inside the example frustum. -/
def exampleOtherCaster : MeshDrawCommand :=
  { meshId := 6, transformMatrix := 1, worldBoundingSphere := ⟨⟨0, 1, 0⟩, FloatValue.finite 1⟩,
    castShadow := true, skinnedMesh := none }

/-- A command that casts no shadow, with mesh 9. -/
def exampleNonCaster : MeshDrawCommand :=
  { meshId := 9, transformMatrix := 1, worldBoundingSphere := ⟨⟨0, 1, 0⟩, FloatValue.finite 1⟩,
    castShadow := false, skinnedMesh := none }

/-- A draw list with meshes 5, 9 (skipped), 5, 6. -/
def exampleDrawList : List MeshDrawCommand :=
  [exampleSkinnedCaster, exampleNonCaster, exampleBigCaster, exampleOtherCaster]

/-! ## SkyboxPipeline -/

/-- What `SkyboxPipeline::draw` uses from outside the sources: the sentinel
`NULL_IMAGE_ID` (declared in a header that is not part of the sources), the camera's
view-projection matrix and `glm::inverse`. -/
structure SkyboxCollaborators where
  NULL_IMAGE_ID : Nat
  getViewProj : Camera → Mat4
  inverse : Mat4 → Mat4

/-- The members of `SkyboxPipeline`. -/
structure SkyboxPipeline where
  pipelineLayout : Nat
  pipeline : Nat
  skyboxTextureId : Nat
  deriving DecidableEq

/-- The method SkyboxPipeline::setSkyboxImage. -/
def SkyboxPipeline.setSkyboxImage (self : SkyboxPipeline) (skyboxId : Nat) : SkyboxPipeline :=
  { self with skyboxTextureId := skyboxId }

/-- Modelled from the spec: `GfxDevice::bindBindlessDescSet`, whose body is not part of the
sources. It records a single bind of the global bindless descriptor set with the given
pipeline layout. -/
def bindBindlessDescSet (cmd : List Command) (layout : Nat) : List Command :=
  cmd ++ [Command.bindBindlessDescSet layout]

/-- The method SkyboxPipeline::draw: the command buffer after the call. The push
constants carry `(std::uint32_t)skyboxTextureId`. -/
def SkyboxPipeline.draw (self : SkyboxPipeline) (cmd : List Command)
    (env : SkyboxCollaborators) (camera : Camera) : List Command :=
  if self.skyboxTextureId = env.NULL_IMAGE_ID then cmd
  else
    let cmd1 := cmd ++ [Command.bindPipeline self.pipeline]
    let cmd2 := bindBindlessDescSet cmd1 self.pipelineLayout
    let cmd3 := cmd2 ++ [Command.pushSkyboxConstants self.pipelineLayout
      (env.inverse (env.getViewProj camera))
      (camera.position.x, camera.position.y, camera.position.z, 1)
      (self.skyboxTextureId % 2 ^ 32)]
    cmd3 ++ [Command.draw 3 1 0 0]

/-! ## graphics::loadCubemap -/

/-- A decoded image (`ImageData`): `pixels` is `none` for a null pointer; the sizes are C
`int`s. -/
structure ImageData where
  pixels : Option (List Byte)
  width : Int
  height : Int
  channels : Int

/-- Whether an integer is a value of the C type `int` (32 bits). -/
def isInt32 (x : Int) : Prop := -(2 ^ 31) ≤ x ∧ x < 2 ^ 31

/-- The conversion `(std::uint32_t)x` of an `int`. -/
def int32ToUInt32 (x : Int) : Nat := (x % 2 ^ 32).toNat

/-- The type VkExtent3D. -/
structure Extent3D where
  width : Nat
  height : Nat
  depth : Nat
  deriving DecidableEq

/-- The fields of `vkutil::CreateImageInfo` set by `loadCubemap`. -/
structure CreateImageInfo where
  format : Nat
  usage : Nat
  flags : Nat
  extent : Extent3D
  numLayers : Nat
  isCubemap : Bool
  deriving DecidableEq

/-- An image handle with its metadata (`AllocatedImage`). -/
structure AllocatedImage where
  image : Nat
  format : Nat
  usage : Nat
  extent : Extent3D
  numLayers : Nat
  isCubemap : Bool
  deriving DecidableEq

/-- The format VK_FORMAT_R8G8B8A8_SRGB. -/
def VK_FORMAT_R8G8B8A8_SRGB : Nat := 43

/-- The flag VK_IMAGE_USAGE_TRANSFER_DST_BIT. -/
def VK_IMAGE_USAGE_TRANSFER_DST_BIT : Nat := 2

/-- The flag VK_IMAGE_USAGE_SAMPLED_BIT. -/
def VK_IMAGE_USAGE_SAMPLED_BIT : Nat := 4

/-- The flag VK_IMAGE_CREATE_CUBE_COMPATIBLE_BIT. -/
def VK_IMAGE_CREATE_CUBE_COMPATIBLE_BIT : Nat := 16

/-- The calls `loadCubemap` makes on the renderer and the device. -/
inductive RendererCall where
  | createImage (createInfo : CreateImageInfo) (result : AllocatedImage)
  | uploadImageData (image : AllocatedImage) (pixelData : Option (List Byte)) (layer : Nat)
  | addDebugLabel (image : Nat) (label : String)
  deriving DecidableEq

/-- The renderer as `loadCubemap` sees it: the next free image handle and the calls made
so far, oldest first. -/
structure Renderer where
  nextImage : Nat
  calls : List RendererCall
  deriving DecidableEq

/-- Modelled from the spec: `Renderer::createImage`, whose body is not part of the
sources. It allocates an image matching the descriptor under a fresh handle; a
descriptor with the cubemap flag set and a layer count other than 6 is rejected
(`none`). -/
def Renderer.createImage (self : Renderer) (createInfo : CreateImageInfo) :
    Option AllocatedImage × Renderer :=
  if createInfo.isCubemap = true ∧ createInfo.numLayers ≠ 6 then (none, self)
  else
    let img : AllocatedImage :=
      { image := self.nextImage, format := createInfo.format, usage := createInfo.usage,
        extent := createInfo.extent, numLayers := createInfo.numLayers,
        isCubemap := createInfo.isCubemap }
    (some img,
      { nextImage := self.nextImage + 1,
        calls := self.calls ++ [RendererCall.createImage createInfo img] })

/-- Modelled from the spec: `Renderer::uploadImageData`, whose body is not part of the
sources. It stages the pixel data and copies it into one array layer of the image. -/
def Renderer.uploadImageData (self : Renderer) (image : AllocatedImage)
    (pixelData : Option (List Byte)) (layer : Nat) : Renderer :=
  { self with calls := self.calls ++ [RendererCall.uploadImageData image pixelData layer] }

/-- The ways `loadCubemap` stops early: one constructor per `assert`, and the rejection
of the image descriptor. -/
inductive CubemapFailure where
  | assertChannels
  | assertPixels
  | assertSameSize
  | createImageRejected
  deriving DecidableEq

/-- The local variables of `loadCubemap` and the renderer. -/
structure CubemapState where
  img : AllocatedImage
  face : Nat
  imageCreated : Bool
  renderer : Renderer
  deriving DecidableEq

/-- The six file names, in the order of the array `paths` (line 21). -/
def cubemapPaths : List String :=
  ["right.jpg", "left.jpg", "top.jpg", "bottom.jpg", "front.jpg", "back.jpg"]

/-- The path `imagesDir / p`. -/
def joinPath (imagesDir p : String) : String := imagesDir ++ "/" ++ p

/-- Lines 53-54: the upload of one face and the increment of `face`. -/
def uploadFace (st : CubemapState) (data : ImageData) : CubemapState :=
  { st with
    renderer := st.renderer.uploadImageData st.img data.pixels st.face,
    face := (st.face + 1) % 2 ^ 32 }

/-- Lines 27-54: the body of the loop over `paths`. -/
def loadCubemapFace (loadImage : String → ImageData) (imagesDir : String)
    (st : CubemapState) (p : String) : Option CubemapFailure × CubemapState :=
  let data := loadImage (joinPath imagesDir p)
  if ¬ (data.channels = 4) then (some CubemapFailure.assertChannels, st)
  else if data.pixels = none then (some CubemapFailure.assertPixels, st)
  else if st.imageCreated = false then
    match st.renderer.createImage
        { format := VK_FORMAT_R8G8B8A8_SRGB,
          usage := VK_IMAGE_USAGE_SAMPLED_BIT ||| VK_IMAGE_USAGE_TRANSFER_DST_BIT,
          flags := VK_IMAGE_CREATE_CUBE_COMPATIBLE_BIT,
          extent :=
            { width := int32ToUInt32 data.width, height := int32ToUInt32 data.height,
              depth := 1 },
          numLayers := 6,
          isCubemap := true } with
    | (none, r) => (some CubemapFailure.createImageRejected, { st with renderer := r })
    | (some img, r) =>
        (none, uploadFace { st with img := img, imageCreated := true, renderer := r } data)
  else if ¬ (st.img.extent.width = int32ToUInt32 data.width ∧
      st.img.extent.height = int32ToUInt32 data.height) then
    (some CubemapFailure.assertSameSize, st)
  else (none, uploadFace st data)

/-- The loop over `paths`: it stops at the first failure. -/
def loadCubemapLoop (loadImage : String → ImageData) (imagesDir : String) :
    List String → CubemapState → Option CubemapFailure × CubemapState
  | [], st => (none, st)
  | p :: rest, st =>
      match loadCubemapFace loadImage imagesDir st p with
      | (some e, st1) => (some e, st1)
      | (none, st1) => loadCubemapLoop loadImage imagesDir rest st1

/-- The result of `loadCubemap`: the failure if any, the image and the renderer. -/
structure CubemapResult where
  failure : Option CubemapFailure
  img : AllocatedImage
  renderer : Renderer
  deriving DecidableEq

/-- The value of the local `AllocatedImage img;` before an image is created. -/
def AllocatedImage.default : AllocatedImage :=
  { image := 0, format := 0, usage := 0, extent := ⟨0, 0, 0⟩, numLayers := 0,
    isCubemap := false }

/-- The function graphics::loadCubemap; `loadImage` is `util::loadImage` on the file
system at hand. -/
def loadCubemap (renderer : Renderer) (loadImage : String → ImageData)
    (imagesDir : String) : CubemapResult :=
  let r := loadCubemapLoop loadImage imagesDir cubemapPaths
    { img := AllocatedImage.default, face := 0, imageCreated := false, renderer := renderer }
  match r.1 with
  | some e => { failure := some e, img := r.2.img, renderer := r.2.renderer }
  | none =>
      let cubemapLabel := "cubemap, dir=" ++ imagesDir
      { failure := none, img := r.2.img,
        renderer :=
          { r.2.renderer with
            calls := r.2.renderer.calls
              ++ [RendererCall.addDebugLabel r.2.img.image cubemapLabel] } }

/-- Skybox collaborators for the examples: the sentinel is the largest 32-bit value. -/
def exampleSkyboxEnv : SkyboxCollaborators :=
  { NULL_IMAGE_ID := 2 ^ 32 - 1, getViewProj := fun _ => 1, inverse := fun m => m }

/-- A skybox pipeline whose skybox image is image 12. -/
def exampleSkybox : SkyboxPipeline :=
  { pipelineLayout := 30, pipeline := 31, skyboxTextureId := 12 }

/-- A decoded 4-channel face of the given size. -/
def exampleFace (width height : Int) : ImageData :=
  { pixels := some [0, 0, 0, 255], width := width, height := height, channels := 4 }

/-- A directory whose six faces are 2 by 2. -/
def exampleFaces : String → ImageData := fun _ => exampleFace 2 2

/-- A directory whose faces are 2 by 2, except `top.jpg`, which is 3 wide. -/
def exampleFacesWideTop : String → ImageData :=
  fun path => if path = "sky/top.jpg" then exampleFace 3 2 else exampleFace 2 2

/-- A renderer that has made no call yet. -/
def exampleRenderer : Renderer := { nextImage := 1, calls := [] }

/-- The upload calls expected for a sequence of pixel pointers, into consecutive layers
starting at `face`. -/
def uploadCalls (img : AllocatedImage) : Nat → List (Option (List Byte)) → List RendererCall
  | _, [] => []
  | face, px :: rest =>
      RendererCall.uploadImageData img px face :: uploadCalls img ((face + 1) % 2 ^ 32) rest

/-- The descriptor `loadCubemap` passes to `createImage` for a first face (lines 32-44). -/
def cubemapCreateInfo (data : ImageData) : CreateImageInfo :=
  { format := VK_FORMAT_R8G8B8A8_SRGB,
    usage := VK_IMAGE_USAGE_SAMPLED_BIT ||| VK_IMAGE_USAGE_TRANSFER_DST_BIT,
    flags := VK_IMAGE_CREATE_CUBE_COMPATIBLE_BIT,
    extent :=
      { width := int32ToUInt32 data.width, height := int32ToUInt32 data.height, depth := 1 },
    numLayers := 6,
    isCubemap := true }

/-- The image a renderer returns for the descriptor of a first face. -/
def cubemapImage (renderer : Renderer) (data : ImageData) : AllocatedImage :=
  { image := renderer.nextImage, format := VK_FORMAT_R8G8B8A8_SRGB,
    usage := VK_IMAGE_USAGE_SAMPLED_BIT ||| VK_IMAGE_USAGE_TRANSFER_DST_BIT,
    extent :=
      { width := int32ToUInt32 data.width, height := int32ToUInt32 data.height, depth := 1 },
    numLayers := 6, isCubemap := true }

/-- The state of `loadCubemap` after its first iteration: the image is created from the
first face and that face is uploaded into layer 0. -/
def cubemapStateAfterFirst (renderer : Renderer) (data : ImageData) : CubemapState :=
  { img := cubemapImage renderer data,
    face := 1,
    imageCreated := true,
    renderer :=
      { nextImage := renderer.nextImage + 1,
        calls := renderer.calls ++
          [RendererCall.createImage (cubemapCreateInfo data) (cubemapImage renderer data),
            RendererCall.uploadImageData (cubemapImage renderer data) data.pixels 0] } }

/-- Membership in the C `int` range can be computed. -/
instance isInt32.decidable (x : Int) : Decidable (isInt32 x) := by
  unfold isInt32
  infer_instance

/-! ## EntityFactory -/

/-- A JSON file (`JsonFile`): the document, its path and the `good` flag; the document
type is a parameter. -/
structure JsonFile (Json : Type) where
  data : Json
  path : String
  good : Bool

/-- The method JsonFile::isGood. -/
def JsonFile.isGood {Json : Type} (file : JsonFile Json) : Bool := file.good

/-- What `EntityFactory` uses from outside the sources: JSON documents and their
loaders, the entity registry, the component factory, and the reading of a JSON file. -/
structure EcsCollaborators where
  Json : Type
  Registry : Type
  readJsonFile : String → JsonFile Json
  getLoader : JsonFile Json → Json
  getKeyValueMap : Json → List (String × Json)
  create : Registry → Nat × Registry
  emplaceMetaInfo : Nat → String → Registry → Registry
  setPrefabName : Nat → String → Registry → Registry
  componentRegistered : String → Bool
  makeComponent : String → Nat → Json → Registry → Registry

/-- The members of `EntityFactory`; the two maps are functions from keys to optional
values, the two callbacks are optional functions on the registry. -/
structure EntityFactory (env : EcsCollaborators) where
  loadedPrefabFiles : String → Option (JsonFile env.Json)
  prefabNameMapping : String → Option String
  createDefaultEntityFunc : Option (env.Registry → Nat × env.Registry)
  postInitEntityFunc : Option (Nat → env.Registry → env.Registry)

/-- The runtime errors thrown by `EntityFactory`. The message of
`prefabAlreadyRegistered` formats the name after it was moved from, so its text is not
part of the model. -/
inductive FactoryError where
  | prefabAlreadyRegistered
  | prefabNotRegistered (prefabName : String)
  | mappingAlreadyAdded (fromName toName : String)
  deriving DecidableEq

/-- How a call ends: it returns, throws, or fails an assertion. -/
inductive Outcome where
  | returned
  | threw (error : FactoryError)
  | assertionFailed
  deriving DecidableEq

/-- The result of a mutating method of `EntityFactory`: the outcome and the factory as it
is when the call ends. -/
structure FactoryResult (env : EcsCollaborators) where
  outcome : Outcome
  self : EntityFactory env

/-- The call `map.emplace(key, value)`: the value is stored only if the key is absent;
the second component tells whether it was inserted. -/
def mapEmplace {α : Type} (map : String → Option α) (key : String) (value : α) :
    (String → Option α) × Bool :=
  match map key with
  | some _ => (map, false)
  | none => (Function.update map key (some value), true)

/-- The method EntityFactory::addPrefabFile. -/
def EntityFactory.addPrefabFile {env : EcsCollaborators} (self : EntityFactory env)
    (prefabName : String) (file : JsonFile env.Json) : FactoryResult env :=
  if ¬ (file.isGood = true) then { outcome := Outcome.assertionFailed, self := self }
  else
    let r := mapEmplace self.loadedPrefabFiles prefabName file
    let self1 := { self with loadedPrefabFiles := r.1 }
    if ¬ (r.2 = true) then
      { outcome := Outcome.threw FactoryError.prefabAlreadyRegistered, self := self1 }
    else { outcome := Outcome.returned, self := self1 }

/-- The method EntityFactory::registerPrefab. -/
def EntityFactory.registerPrefab {env : EcsCollaborators} (self : EntityFactory env)
    (prefabName : String) (path : String) : FactoryResult env :=
  let file := env.readJsonFile path
  if ¬ (file.isGood = true) then { outcome := Outcome.assertionFailed, self := self }
  else self.addPrefabFile prefabName file

/-- The method EntityFactory::prefabExists. -/
def EntityFactory.prefabExists {env : EcsCollaborators} (self : EntityFactory env)
    (prefabName : String) : Bool :=
  (self.loadedPrefabFiles prefabName).isSome

/-- The method EntityFactory::getMappedPrefabName. -/
def EntityFactory.getMappedPrefabName {env : EcsCollaborators} (self : EntityFactory env)
    (prefabName : String) : String :=
  match self.prefabNameMapping prefabName with
  | some mapped => mapped
  | none => if self.prefabExists prefabName = true then prefabName else ""

/-- The method EntityFactory::getPrefabDataLoader. -/
def EntityFactory.getPrefabDataLoader {env : EcsCollaborators} (self : EntityFactory env)
    (prefabName : String) : Except FactoryError env.Json :=
  match self.loadedPrefabFiles prefabName with
  | none => Except.error (FactoryError.prefabNotRegistered prefabName)
  | some file => Except.ok (env.getLoader file)

/-- The method EntityFactory::addMappedPrefabName. -/
def EntityFactory.addMappedPrefabName {env : EcsCollaborators} (self : EntityFactory env)
    (fromName toName : String) : FactoryResult env :=
  if fromName = toName then { outcome := Outcome.assertionFailed, self := self }
  else if (self.prefabNameMapping fromName).isSome = true then
    { outcome := Outcome.threw (FactoryError.mappingAlreadyAdded fromName toName),
      self := self }
  else if self.prefabExists toName = true then
    { outcome := Outcome.returned,
      self := { self with
        prefabNameMapping := (mapEmplace self.prefabNameMapping fromName toName).1 } }
  else
    let mapped := self.getMappedPrefabName toName
    if ¬ (mapped = "") then
      { outcome := Outcome.returned,
        self := { self with
          prefabNameMapping := (mapEmplace self.prefabNameMapping fromName mapped).1 } }
    else
      { outcome := Outcome.threw (FactoryError.prefabNotRegistered toName), self := self }

/-- What `createEntity` does that can be observed besides the registry: the calls of
the two callbacks and the message printed for a skipped component. -/
inductive FactoryEvent where
  | createDefaultEntityFuncCalled
  | postInitEntityFuncCalled (entity : Nat)
  | componentSkipped (prefabName componentName : String)
  deriving DecidableEq

/-- The registry together with the events observed so far, oldest first. -/
structure EcsWorld (env : EcsCollaborators) where
  registry : env.Registry
  events : List FactoryEvent

/-- The method EntityFactory::createDefaultEntity. -/
def EntityFactory.createDefaultEntity {env : EcsCollaborators} (self : EntityFactory env)
    (world : EcsWorld env) (sceneNodeName : String) (postInit : Bool) :
    Nat × EcsWorld env :=
  let created : Nat × EcsWorld env :=
    match self.createDefaultEntityFunc with
    | some f =>
        ((f world.registry).1,
          { registry := (f world.registry).2,
            events := world.events ++ [FactoryEvent.createDefaultEntityFuncCalled] })
    | none =>
        ((env.create world.registry).1,
          { world with registry := (env.create world.registry).2 })
  let e := created.1
  let world1 : EcsWorld env :=
    { created.2 with registry := env.emplaceMetaInfo e sceneNodeName created.2.registry }
  match postInit, self.postInitEntityFunc with
  | true, some g =>
      (e, { registry := g e world1.registry,
            events := world1.events ++ [FactoryEvent.postInitEntityFuncCalled e] })
  | _, _ => (e, world1)

/-- The result of `createEntity`: the outcome, the entity if one is returned, and the
registry and events as they are when the call ends. -/
structure CreateEntityResult (env : EcsCollaborators) where
  outcome : Outcome
  entity : Option Nat
  world : EcsWorld env

/-- Lines 63-70: one iteration of the loop over the components of the prefab. -/
def makePrefabComponent (env : EcsCollaborators) (actualPrefabName : String) (e : Nat)
    (world : EcsWorld env) (entry : String × env.Json) : EcsWorld env :=
  if ¬ (env.componentRegistered entry.1 = true) then
    { world with
      events := world.events ++ [FactoryEvent.componentSkipped actualPrefabName entry.1] }
  else { world with registry := env.makeComponent entry.1 e entry.2 world.registry }

/-- The method EntityFactory::createEntity. -/
def EntityFactory.createEntity {env : EcsCollaborators} (self : EntityFactory env)
    (world : EcsWorld env) (prefabName sceneNodeName : String) : CreateEntityResult env :=
  let mappedPrefabName := self.getMappedPrefabName prefabName
  let actualPrefabName := if ¬ (mappedPrefabName = "") then mappedPrefabName else prefabName
  match self.getPrefabDataLoader actualPrefabName with
  | Except.error err => { outcome := Outcome.threw err, entity := none, world := world }
  | Except.ok prefabLoader =>
      let created := self.createDefaultEntity world sceneNodeName false
      let e := created.1
      let world1 := (env.getKeyValueMap prefabLoader).foldl
        (makePrefabComponent env actualPrefabName e) created.2
      let world2 : EcsWorld env :=
        { world1 with registry := env.setPrefabName e actualPrefabName world1.registry }
      let world3 : EcsWorld env :=
        match self.postInitEntityFunc with
        | some g =>
            { registry := g e world2.registry,
              events := world2.events ++ [FactoryEvent.postInitEntityFuncCalled e] }
        | none => world2
      { outcome := Outcome.returned, entity := some e, world := world3 }

/-- ECS collaborators for the examples: documents are strings, the registry is the list
of created entities with their scene node and prefab names. -/
def exampleEcs : EcsCollaborators :=
  { Json := String
    Registry := List (Nat × String × String)
    readJsonFile := fun path => { data := "", path := path, good := true }
    getLoader := fun file => file.data
    getKeyValueMap := fun _ => []
    create := fun r => (r.length, r ++ [(r.length, "", "")])
    emplaceMetaInfo := fun e name r =>
      r.map (fun x => if x.1 = e then (x.1, name, x.2.2) else x)
    setPrefabName := fun e name r =>
      r.map (fun x => if x.1 = e then (x.1, x.2.1, name) else x)
    componentRegistered := fun _ => true
    makeComponent := fun _ _ _ r => r }

/-- The factory with no prefab, no mapping and no callback. -/
def EntityFactory.empty (env : EcsCollaborators) : EntityFactory env :=
  { loadedPrefabFiles := fun _ => none
    prefabNameMapping := fun _ => none
    createDefaultEntityFunc := none
    postInitEntityFunc := none }

/-- A good JSON file of the example collaborators. -/
def exampleFile : JsonFile exampleEcs.Json := { data := "cat", path := "cat.json", good := true }

/-- A JSON file of the example collaborators that is not good (`isGood()` is false). -/
def exampleBadFile : JsonFile exampleEcs.Json :=
  { data := "", path := "missing.json", good := false }

/-- The example factory after registering a prefab under the empty name and mapping the
name `a` to it. -/
def exampleFactory : EntityFactory exampleEcs :=
  (((EntityFactory.empty exampleEcs).addPrefabFile "" exampleFile).self.addMappedPrefabName
    "a" "").self

/-! ## Definitions for the claims on draws, reachable states and resolution -/

/-- Split percentages `[0.0001, 0.3, 0.6, 1.0]`: strictly increasing, in (0,1], with a
very small first entry. -/
def tinyFirstPercents : Fin 4 → ℚ := ![1 / 10000, 3 / 10, 6 / 10, 1]

/-- The index buffer that is bound when each indexed draw of a command list runs, in
order, `bound` being the index buffer bound before the list (`none` when there is
none): a bind replaces the bound buffer, a draw reads it. -/
def boundAtDraws : Option Nat → List Command → List (Option Nat)
  | _, [] => []
  | _, Command.bindIndexBuffer buffer _ :: rest => boundAtDraws (some buffer) rest
  | bound, Command.drawIndexed _ _ _ _ _ :: rest => bound :: boundAtDraws bound rest
  | bound, _ :: rest => boundAtDraws bound rest

/-! ## Collision layers (games/mtp/src/PhysicsSystem.h) -/

/-- The object layer Layers::NON_MOVING. -/
def Layers.NON_MOVING : Nat := 0

/-- The object layer Layers::MOVING. -/
def Layers.MOVING : Nat := 1

/-- The constant Layers::NUM_LAYERS. -/
def Layers.NUM_LAYERS : Nat := 2

/-- The broad-phase layer BroadPhaseLayers::NON_MOVING. -/
def BroadPhaseLayers.NON_MOVING : Nat := 0

/-- The broad-phase layer BroadPhaseLayers::MOVING. -/
def BroadPhaseLayers.MOVING : Nat := 1

/-- The constant BroadPhaseLayers::NUM_LAYERS. -/
def BroadPhaseLayers.NUM_LAYERS : Nat := 2

/-- The method ObjectLayerPairFilterImpl::ShouldCollide; `none` when the `default` branch
with `JPH_ASSERT(false)` is reached. -/
def ObjectLayerPairFilterImpl.ShouldCollide (inObject1 inObject2 : Nat) : Option Bool :=
  if inObject1 = Layers.NON_MOVING then some (decide (inObject2 = Layers.MOVING))
  else if inObject1 = Layers.MOVING then some true
  else none

/-- The member of `BPLayerInterfaceImpl`: the table from object layers to broad-phase
layers. -/
structure BPLayerInterfaceImpl where
  mObjectToBroadPhase : List Nat
  deriving DecidableEq

/-- The constructor of `BPLayerInterfaceImpl`: a table of `NUM_LAYERS` entries with the
entries of the two object layers assigned. -/
def BPLayerInterfaceImpl.construct : BPLayerInterfaceImpl :=
  { mObjectToBroadPhase :=
      ((List.replicate Layers.NUM_LAYERS 0).set Layers.NON_MOVING
        BroadPhaseLayers.NON_MOVING).set Layers.MOVING BroadPhaseLayers.MOVING }

/-- The method BPLayerInterfaceImpl::GetNumBroadPhaseLayers. -/
def BPLayerInterfaceImpl.GetNumBroadPhaseLayers (_self : BPLayerInterfaceImpl) : Nat :=
  BroadPhaseLayers.NUM_LAYERS

/-- The method BPLayerInterfaceImpl::GetBroadPhaseLayer; `none` when
`JPH_ASSERT(inLayer < Layers::NUM_LAYERS)` fails. -/
def BPLayerInterfaceImpl.GetBroadPhaseLayer (self : BPLayerInterfaceImpl) (inLayer : Nat) :
    Option Nat :=
  if ¬ (inLayer < Layers.NUM_LAYERS) then none
  else self.mObjectToBroadPhase[inLayer]?

/-- The method ObjectVsBroadPhaseLayerFilterImpl::ShouldCollide; `none` when the `default`
branch with `JPH_ASSERT(false)` is reached. -/
def ObjectVsBroadPhaseLayerFilterImpl.ShouldCollide (inLayer1 inLayer2 : Nat) : Option Bool :=
  if inLayer1 = Layers.NON_MOVING then some (decide (inLayer2 = BroadPhaseLayers.MOVING))
  else if inLayer1 = Layers.MOVING then some true
  else none

/-! ## Sequences of calls on an EntityFactory -/

/-- A call of one of the two registration methods of `EntityFactory`. -/
inductive FactoryCall (env : EcsCollaborators) where
  | addPrefabFile (prefabName : String) (file : JsonFile env.Json)
  | addMappedPrefabName (fromName toName : String)

/-- The factory after one call, whether the call returns, throws or fails its
assertion. -/
def FactoryCall.run {env : EcsCollaborators} (call : FactoryCall env)
    (self : EntityFactory env) : EntityFactory env :=
  match call with
  | FactoryCall.addPrefabFile prefabName file => (self.addPrefabFile prefabName file).self
  | FactoryCall.addMappedPrefabName fromName toName =>
      (self.addMappedPrefabName fromName toName).self

/-- The factory after a sequence of calls, oldest first. -/
def runFactoryCalls {env : EcsCollaborators} (calls : List (FactoryCall env))
    (self : EntityFactory env) : EntityFactory env :=
  calls.foldl (fun s call => call.run s) self

/-- Lines 58-59 of `createEntity`: the name of the prefab that is instantiated. -/
def EntityFactory.actualPrefabName {env : EcsCollaborators} (self : EntityFactory env)
    (prefabName : String) : String :=
  if ¬ (self.getMappedPrefabName prefabName = "") then self.getMappedPrefabName prefabName
  else prefabName

/-- The example factory after registering `cat` and `dog`, mapping `kitty` to `cat` and
then `cat` to `dog`. -/
def exampleChainFactory : EntityFactory exampleEcs :=
  runFactoryCalls
    [FactoryCall.addPrefabFile "cat" exampleFile,
      FactoryCall.addPrefabFile "dog" exampleFile,
      FactoryCall.addMappedPrefabName "kitty" "cat",
      FactoryCall.addMappedPrefabName "cat" "dog"]
    (EntityFactory.empty exampleEcs)

/-- The factory with no prefab and no mapping, with the given callbacks. -/
def EntityFactory.emptyWith (env : EcsCollaborators)
    (createDefaultEntityFunc : Option (env.Registry → Nat × env.Registry))
    (postInitEntityFunc : Option (Nat → env.Registry → env.Registry)) : EntityFactory env :=
  { loadedPrefabFiles := fun _ => none
    prefabNameMapping := fun _ => none
    createDefaultEntityFunc := createDefaultEntityFunc
    postInitEntityFunc := postInitEntityFunc }

/-! ## Sequences of calls on an NBuffer -/

/-- A call of one of the three methods of `NBuffer`. -/
inductive NBufferCall where
  | init (usage dataSize numFramesInFlight : Nat)
  | cleanup
  | uploadNewData (frameIndex : Nat) (newData : List Byte) (dataSize : Nat)
  deriving DecidableEq

/-- One call on an `NBuffer` and the allocator behind it (the upload records into a
fresh command buffer); `none` when an assertion of the call fails or the call leaves the
bounds of a container or buffer. -/
def NBufferCall.run (call : NBufferCall) (st : NBuffer × Allocator) :
    Option (NBuffer × Allocator) :=
  match call with
  | NBufferCall.init usage dataSize numFramesInFlight =>
      if (st.1.init st.2 usage dataSize numFramesInFlight).failure = none then
        some ((st.1.init st.2 usage dataSize numFramesInFlight).self,
          (st.1.init st.2 usage dataSize numFramesInFlight).allocator)
      else none
  | NBufferCall.cleanup => some (st.1.cleanup st.2)
  | NBufferCall.uploadNewData frameIndex newData dataSize =>
      if (st.1.uploadNewData st.2.memory [] frameIndex newData dataSize).failure = none then
        some ((st.1.uploadNewData st.2.memory [] frameIndex newData dataSize).self,
          { st.2 with
            memory := (st.1.uploadNewData st.2.memory [] frameIndex newData dataSize).memory })
      else none

/-- A sequence of calls, oldest first: the state after the last call, `none` as soon as
one call does not run to its end. -/
def runNBufferCalls : List NBufferCall → NBuffer × Allocator → Option (NBuffer × Allocator)
  | [], st => some st
  | call :: rest, st =>
      match call.run st with
      | none => none
      | some st1 => runNBufferCalls rest st1

/-- Whether a call is `init`. -/
def NBufferCall.isInit : NBufferCall → Bool
  | NBufferCall.init _ _ _ => true
  | _ => false

/-- A sequence of calls in which `init` is only called while `initialized` is false:
`none` also when `init` is called on an initialised object. -/
def runNBufferCallsInitOnce :
    List NBufferCall → NBuffer × Allocator → Option (NBuffer × Allocator)
  | [], st => some st
  | call :: rest, st =>
      if call.isInit = true ∧ st.1.initialized = true then none
      else
        match call.run st with
        | none => none
        | some st1 => runNBufferCallsInitOnce rest st1

/-- The state after `init` with capacity 4 and 2 frames followed, without `cleanup`, by
`init` with capacity 8 and 3 frames. -/
def exampleDoubleInit : NBuffer × Allocator :=
  (((NBuffer.default.init exampleAllocator 0 4 2).self.init
      (NBuffer.default.init exampleAllocator 0 4 2).allocator 0 8 3).self,
    ((NBuffer.default.init exampleAllocator 0 4 2).self.init
      (NBuffer.default.init exampleAllocator 0 4 2).allocator 0 8 3).allocator)

/-- The state after `init` (capacity 4, 2 frames), `cleanup` and `init` (capacity 8,
3 frames). -/
def exampleReinit : NBuffer × Allocator :=
  ((((NBuffer.default.init exampleAllocator 0 4 2).self.cleanup
      (NBuffer.default.init exampleAllocator 0 4 2).allocator).1.init
    ((NBuffer.default.init exampleAllocator 0 4 2).self.cleanup
      (NBuffer.default.init exampleAllocator 0 4 2).allocator).2 0 8 3).self,
   (((NBuffer.default.init exampleAllocator 0 4 2).self.cleanup
      (NBuffer.default.init exampleAllocator 0 4 2).allocator).1.init
    ((NBuffer.default.init exampleAllocator 0 4 2).self.cleanup
      (NBuffer.default.init exampleAllocator 0 4 2).allocator).2 0 8 3).allocator)

/-! ## SceneCache -/

/-- What `SceneCache::loadScene` uses from outside the sources: scenes and their
animations, the renderer, and the glTF loader `util::loadGltfFile`. -/
structure SceneCollaborators where
  Scene : Type
  Animation : Type
  BaseRenderer : Type
  loadGltfFile : BaseRenderer → String → Scene × BaseRenderer
  animations : Scene → List Animation

/-- What `loadScene` does that can be observed besides the cache: the message it
prints, the call of the glTF loader and the call of
`SkeletalAnimationCache::addAnimations`. -/
inductive SceneEvent (env : SceneCollaborators) where
  | printedLoading (path : String)
  | loadGltfFile (path : String)
  | addAnimations (path : String) (animations : List env.Animation)

/-- Whether an event is the call of the glTF loader on the given path string. -/
def SceneEvent.isLoadOf {env : SceneCollaborators} (path : String) :
    SceneEvent env → Bool
  | SceneEvent.loadGltfFile p => decide (p = path)
  | _ => false

/-- The renderer and the events observed so far, oldest first. -/
structure SceneWorld (env : SceneCollaborators) where
  renderer : env.BaseRenderer
  events : List (SceneEvent env)

/-- The member `sceneCache` of `SceneCache`, keyed by path string. -/
structure SceneCache (env : SceneCollaborators) where
  sceneCache : String → Option env.Scene

/-- The result of `loadScene`: whether `assert(inserted)` failed, the scene the returned
reference points to, and the cache and the world when the call ends. -/
structure LoadSceneResult (env : SceneCollaborators) where
  assertionFailed : Bool
  scene : Option env.Scene
  self : SceneCache env
  world : SceneWorld env

/-- The method SceneCache::loadScene. -/
def SceneCache.loadScene {env : SceneCollaborators} (self : SceneCache env)
    (world : SceneWorld env) (path : String) : LoadSceneResult env :=
  match self.sceneCache path with
  | some scene => { assertionFailed := false, scene := some scene, self := self, world := world }
  | none =>
      let world1 : SceneWorld env :=
        { world with events := world.events ++ [SceneEvent.printedLoading path] }
      let loaded := env.loadGltfFile world1.renderer path
      let scene := loaded.1
      let world2 : SceneWorld env :=
        { renderer := loaded.2, events := world1.events ++ [SceneEvent.loadGltfFile path] }
      let world3 : SceneWorld env :=
        if ¬ ((env.animations scene).isEmpty = true) then
          { world2 with
            events := world2.events ++ [SceneEvent.addAnimations path (env.animations scene)] }
        else world2
      let r := mapEmplace self.sceneCache path scene
      if ¬ (r.2 = true) then
        { assertionFailed := true, scene := none, self := { sceneCache := r.1 },
          world := world3 }
      else
        { assertionFailed := false, scene := r.1 path, self := { sceneCache := r.1 },
          world := world3 }

/-- A sequence of `loadScene` calls, oldest first: the cache and the world after the last
call, `none` as soon as a call fails its assertion. -/
def loadScenes {env : SceneCollaborators} :
    List String → SceneCache env × SceneWorld env → Option (SceneCache env × SceneWorld env)
  | [], st => some st
  | path :: rest, st =>
      if (st.1.loadScene st.2 path).assertionFailed = true then none
      else loadScenes rest ((st.1.loadScene st.2 path).self, (st.1.loadScene st.2 path).world)

/-- Scene collaborators for the examples: a scene is its path with one animation when
the path is `walk.gltf`, the renderer counts the loads. -/
def exampleSceneEnv : SceneCollaborators :=
  { Scene := String × List Nat
    Animation := Nat
    BaseRenderer := Nat
    loadGltfFile := fun r path => ((path, if path = "walk.gltf" then [1] else []), r + 1)
    animations := fun scene => scene.2 }

/-! ## Lines 110-111 with the rounding of `float` multiplication -/

/-- Rounding of a rational to the nearest integer, ties to the even one. -/
def roundHalfEven (x : ℚ) : ℤ :=
  if x - ⌊x⌋ < 1 / 2 then ⌊x⌋
  else if 1 / 2 < x - ⌊x⌋ then ⌊x⌋ + 1
  else if ⌊x⌋ % 2 = 0 then ⌊x⌋ else ⌊x⌋ + 1

/-- The exponent of the spacing of the binary32 numbers around `x`: normal numbers with
exponent `e` are 24-bit multiples of `2 ^ (e - 23)`, the smallest exponent is -126, and
below `2 ^ (-126)` the subnormal numbers keep the spacing `2 ^ (-149)`. -/
def binary32Exponent (x : ℚ) : ℤ := max (Int.log 2 |x|) (-126) - 23

/-- The binary32 number nearest to `x`, ties to even, with gradual underflow: what a
`float` multiplication returns for the exact product `x` of its operands. Overflow to
infinity (for `|x|` of `2 ^ 128` and more) is not part of this function. -/
def roundBinary32 (x : ℚ) : ℚ :=
  roundHalfEven (x / 2 ^ binary32Exponent x) * 2 ^ binary32Exponent x

/-- Line 110 in `float` arithmetic: for `i > 0` the product is rounded to binary32. -/
def cascadeZNearBinary32 {N : Nat} (camera : Camera) (percents : Fin N → ℚ) (i : Fin N) :
    ℚ :=
  if i.val = 0 then camera.zNear
  else roundBinary32 (camera.zNear * percents ⟨i.val - 1, by omega⟩)

/-- Line 111 in `float` arithmetic: the product is rounded to binary32. -/
def cascadeZFarBinary32 {N : Nat} (camera : Camera) (percents : Fin N → ℚ) (i : Fin N) :
    ℚ :=
  roundBinary32 (camera.zFar * percents i)

/-- A camera whose planes are the two smallest positive binary32 numbers,
`zNear = 2 ^ (-149)` and `zFar = 2 ^ (-148)`. -/
def subnormalCamera : Camera :=
  { position := ⟨0, 0, 0⟩, heading := ⟨1, 0, 0, 0⟩, fovX := 1, zNear := 1 / 2 ^ 149,
    zFar := 1 / 2 ^ 148, aspectRatio := 1 }

/-- The split percentages `[0.125, 0.25, 0.5, 1.0]`. -/
def binaryPercents : Fin 4 → ℚ := ![1 / 8, 1 / 4, 1 / 2, 1]

/-! ## CSMPipeline::draw: the pipeline members after the call -/

/-- The members written by one cascade iteration. -/
theorem drawCascade_fst {N : Nat} (env : Collaborators) (camera : Camera) (sun : Vec3)
    (dcs : List MeshDrawCommand) (b : Bool) (st : CSMPipeline N × List Command) (i : Fin N) :
    (drawCascade env camera sun dcs b st i).1 =
      { st.1 with
        cascadeFarPlaneZs :=
          Function.update st.1.cascadeFarPlaneZs i (cascadeZFar camera st.1.percents i),
        csmLightSpaceTMs :=
          Function.update st.1.csmLightSpaceTMs i
            (env.getViewProj (cascadeCSMCamera env st.1 camera sun i)) } :=
  rfl

/-- The members after the iterations of a list of cascade indices: the configuration is
untouched, and the two per-cascade arrays hold the new value at every visited index. -/
theorem foldl_drawCascade_fst {N : Nat} (env : Collaborators) (camera : Camera) (sun : Vec3)
    (dcs : List MeshDrawCommand) (b : Bool) (self : CSMPipeline N) (l : List (Fin N)) :
    ∀ (f : Fin N → ℚ) (g : Fin N → Mat4) (cmd : List Command),
      ((l.foldl (drawCascade env camera sun dcs b)
          ({ self with cascadeFarPlaneZs := f, csmLightSpaceTMs := g }, cmd)).1) =
        { self with
          cascadeFarPlaneZs := fun j =>
            if j ∈ l then cascadeZFar camera self.percents j else f j,
          csmLightSpaceTMs := fun j =>
            if j ∈ l then env.getViewProj (cascadeCSMCamera env self camera sun j)
            else g j } := by
  induction l with
  | nil => intro f g cmd; simp
  | cons i l ih =>
    intro f g cmd
    rw [List.foldl_cons]
    have hstep : drawCascade env camera sun dcs b
        ({ self with cascadeFarPlaneZs := f, csmLightSpaceTMs := g }, cmd) i =
        ({ self with
            cascadeFarPlaneZs := Function.update f i (cascadeZFar camera self.percents i),
            csmLightSpaceTMs := Function.update g i
              (env.getViewProj (cascadeCSMCamera env self camera sun i)) },
          (drawCascade env camera sun dcs b
            ({ self with cascadeFarPlaneZs := f, csmLightSpaceTMs := g }, cmd) i).2) := rfl
    rw [hstep, ih]
    congr 1
    · funext j
      by_cases hj : j ∈ l
      · simp [hj]
      · by_cases hji : j = i
        · subst hji; simp [hj]
        · simp [hj, hji, Function.update_noteq hji]
    · funext j
      by_cases hj : j ∈ l
      · simp [hj]
      · by_cases hji : j = i
        · subst hji; simp [hj]
        · simp [hj, hji, Function.update_noteq hji]

/-- The members after `CSMPipeline::draw`. -/
theorem draw_fst {N : Nat} (self : CSMPipeline N) (cmd : List Command) (env : Collaborators)
    (camera : Camera) (sun : Vec3) (dcs : List MeshDrawCommand) (b : Bool) :
    (self.draw cmd env camera sun dcs b).1 =
      { self with
        cascadeFarPlaneZs := fun j => cascadeZFar camera self.percents j,
        csmLightSpaceTMs := fun j =>
          env.getViewProj (cascadeCSMCamera env self camera sun j) } := by
  have h := foldl_drawCascade_fst env camera sun dcs b self (List.finRange N)
    self.cascadeFarPlaneZs self.csmLightSpaceTMs
    (cmd ++ [Command.transitionImage (env.getImage self.csmShadowMapID)
      ImageLayout.undefined ImageLayout.depthAttachmentOptimal])
  simp only [List.mem_finRange, if_true] at h
  exact h

/-- C1: for every camera, percents array, draw-command list and value of shadowsEnabled,
after `CSMPipeline::draw` the entry `cascadeFarPlaneZs[i]` is `camera.zFar * percents[i]`,
and the light-space matrix of cascade `i` is the one fitted to the sub-frustum camera whose
near plane is `camera.zNear` for `i = 0` and `camera.zNear * percents[i-1]` otherwise and
whose far plane is `camera.zFar * percents[i]`; neither depends on shadowsEnabled or on
the draw-command list. -/
theorem C1_cascade_planes {N : Nat} (self : CSMPipeline N) (cmd : List Command)
    (env : Collaborators) (camera : Camera) (sun : Vec3) (dcs : List MeshDrawCommand)
    (shadowsEnabled : Bool) (i : Fin N) :
    (cascadeZNear camera self.percents i =
        if i.val = 0 then camera.zNear
        else camera.zNear * self.percents ⟨i.val - 1, by omega⟩) ∧
    cascadeZFar camera self.percents i = camera.zFar * self.percents i ∧
    (self.draw cmd env camera sun dcs shadowsEnabled).1.cascadeFarPlaneZs i =
      camera.zFar * self.percents i ∧
    (self.draw cmd env camera sun dcs shadowsEnabled).1.csmLightSpaceTMs i =
      env.getViewProj (env.calculateCSMCamera
        (env.calculateFrustumCornersWorldSpace
          { position := camera.position, heading := camera.heading, fovX := camera.fovX,
            zNear := if i.val = 0 then camera.zNear
              else camera.zNear * self.percents ⟨i.val - 1, by omega⟩,
            zFar := camera.zFar * self.percents i, aspectRatio := 1 })
        sun self.shadowMapTextureSize) ∧
    ∀ (dcs2 : List MeshDrawCommand) (shadowsEnabled2 : Bool),
      (self.draw cmd env camera sun dcs2 shadowsEnabled2).1 =
        (self.draw cmd env camera sun dcs shadowsEnabled).1 := by
  refine ⟨rfl, rfl, ?_, ?_, ?_⟩
  · rw [draw_fst]; rfl
  · rw [draw_fst]; rfl
  · intro dcs2 b2
    rw [draw_fst, draw_fst]

/-! ## The cascade depth ranges -/

/-- Every cascade range starts at or before the camera's near plane, when the near
plane is positive and the percentages are in (0,1]. -/
theorem cascadeZNear_le {N : Nat} (camera : Camera) (p : Fin N → ℚ) (h0 : 0 < camera.zNear)
    (hp : ∀ i, 0 < p i ∧ p i ≤ 1) (i : Fin N) :
    cascadeZNear camera p i ≤ camera.zNear := by
  unfold cascadeZNear
  split
  · exact le_refl _
  · have h := (hp ⟨i.val - 1, by omega⟩).2
    nlinarith

/-- The value of the index 3 of a four-element array. -/
theorem fin4_val_three : ((3 : Fin 4) : ℕ) = 3 := rfl

/-- C2, counterexample: for `zNear = 0.1`, `zFar = 100` and the strictly increasing
percentages `[0.1, 0.3, 0.6, 0.9]` in (0,1], the depth 95 lies in `[zNear, zFar)` and in no
cascade range, and the depth 5 lies strictly inside the ranges of both cascade 0 and
cascade 1. -/
theorem C2_counterexample :
    (0 < scenarioCamera.zNear ∧ scenarioCamera.zNear < scenarioCamera.zFar) ∧
    (∀ i j : Fin 4, i < j → shortPercents i < shortPercents j) ∧
    (∀ i : Fin 4, 0 < shortPercents i ∧ shortPercents i ≤ 1) ∧
    (scenarioCamera.zNear ≤ 95 ∧ (95 : ℚ) < scenarioCamera.zFar ∧
      ∀ i : Fin 4, ¬ (cascadeZNear scenarioCamera shortPercents i ≤ 95 ∧
        95 < cascadeZFar scenarioCamera shortPercents i)) ∧
    ((cascadeZNear scenarioCamera shortPercents 0 < 5 ∧
        5 < cascadeZFar scenarioCamera shortPercents 0) ∧
      (cascadeZNear scenarioCamera shortPercents 1 < 5 ∧
        5 < cascadeZFar scenarioCamera shortPercents 1)) := by
  refine ⟨?_, ?_, ?_, ⟨?_, ?_, ?_⟩, ⟨?_, ?_⟩, ⟨?_, ?_⟩⟩
  · norm_num [scenarioCamera]
  · intro i j hij
    fin_cases i <;> fin_cases j <;> simp [shortPercents] at hij ⊢ <;> norm_num
  · intro i
    fin_cases i <;> simp [shortPercents] <;> norm_num
  · norm_num [scenarioCamera]
  · norm_num [scenarioCamera]
  · intro i
    fin_cases i <;> simp [cascadeZNear, cascadeZFar, scenarioCamera, shortPercents] <;> norm_num
  · norm_num [cascadeZNear, scenarioCamera]
  · norm_num [cascadeZFar, scenarioCamera, shortPercents]
  · norm_num [cascadeZNear, scenarioCamera, shortPercents]
  · norm_num [cascadeZFar, scenarioCamera, shortPercents]

/-- C2, amended: for every camera with `0 < zNear < zFar` and strictly increasing
percentages in (0,1], every depth of `[camera.zNear, camera.zFar * percents[N-1])` lies in
a cascade range `[zNear_i, zFar_i)`, which is all of `[camera.zNear, camera.zFar)` when the
last percentage is 1; and for `i < j` the whole range `[camera.zNear, zFar_i)` lies in both
cascade `i` and cascade `j`. -/
theorem C2_cascade_cover {N : Nat} (camera : Camera) (p : Fin N → ℚ) (hN : 0 < N)
    (h0 : 0 < camera.zNear) (h1 : camera.zNear < camera.zFar)
    (hp : ∀ i, 0 < p i ∧ p i ≤ 1) (hmono : ∀ i j : Fin N, i < j → p i < p j) :
    (∀ z, camera.zNear ≤ z → z < camera.zFar * p ⟨N - 1, by omega⟩ →
      ∃ i, cascadeZNear camera p i ≤ z ∧ z < cascadeZFar camera p i) ∧
    (p ⟨N - 1, by omega⟩ = 1 → ∀ z, camera.zNear ≤ z → z < camera.zFar →
      ∃ i, cascadeZNear camera p i ≤ z ∧ z < cascadeZFar camera p i) ∧
    (∀ i j : Fin N, i < j → ∀ z, camera.zNear ≤ z → z < cascadeZFar camera p i →
      (cascadeZNear camera p i ≤ z ∧ z < cascadeZFar camera p i) ∧
      (cascadeZNear camera p j ≤ z ∧ z < cascadeZFar camera p j)) := by
  have hfar : 0 < camera.zFar := lt_trans h0 h1
  refine ⟨?_, ?_, ?_⟩
  · intro z hz hzf
    exact ⟨⟨N - 1, by omega⟩, le_trans (cascadeZNear_le camera p h0 hp _) hz, hzf⟩
  · intro hlast z hz hzf
    refine ⟨⟨N - 1, by omega⟩, le_trans (cascadeZNear_le camera p h0 hp _) hz, ?_⟩
    unfold cascadeZFar
    rw [hlast, mul_one]
    exact hzf
  · intro i j hij z hz hzf
    refine ⟨⟨le_trans (cascadeZNear_le camera p h0 hp _) hz, hzf⟩,
      le_trans (cascadeZNear_le camera p h0 hp _) hz, ?_⟩
    unfold cascadeZFar at hzf ⊢
    have := hmono i j hij
    nlinarith

/-- C2, amended, at `zNear = 0.1`, `zFar = 100`, percentages `[0.1, 0.3, 0.6, 1.0]`. -/
theorem C2_cascade_cover_witness :
    (0 < (4 : Nat)) ∧ 0 < scenarioCamera.zNear ∧ scenarioCamera.zNear < scenarioCamera.zFar ∧
    (∀ z, scenarioCamera.zNear ≤ z → z < scenarioCamera.zFar * scenarioPercents ⟨4 - 1, by omega⟩ →
      ∃ i, cascadeZNear scenarioCamera scenarioPercents i ≤ z ∧
        z < cascadeZFar scenarioCamera scenarioPercents i) :=
  ⟨by decide, by norm_num [scenarioCamera], by norm_num [scenarioCamera],
    (C2_cascade_cover scenarioCamera scenarioPercents (by decide)
      (by norm_num [scenarioCamera]) (by norm_num [scenarioCamera])
      (by intro i; fin_cases i <;> simp [scenarioPercents] <;> norm_num)
      (by intro i j hij
          fin_cases i <;> fin_cases j <;> simp [scenarioPercents] at hij ⊢ <;> norm_num)).1⟩

/-- C3, counterexample: for `zNear = 0.1`, `zFar = 100` and percentages
`[0.1, 0.3, 0.6, 1.0]` the near planes of cascades 1, 2 and 3 are not 1, 3 and 6. -/
theorem C3_counterexample :
    cascadeZNear scenarioCamera scenarioPercents 1 ≠ 1 ∧
    cascadeZNear scenarioCamera scenarioPercents 2 ≠ 3 ∧
    cascadeZNear scenarioCamera scenarioPercents 3 ≠ 6 := by
  refine ⟨?_, ?_, ?_⟩ <;>
    norm_num [cascadeZNear, scenarioCamera, scenarioPercents, fin4_val_three]

/-- C3, amended: for `zNear = 0.1`, `zFar = 100` and percentages `[0.1, 0.3, 0.6, 1.0]` the
(near, far) pairs are cascade 0 = (0.1, 10), cascade 1 = (0.01, 30), cascade 2 = (0.03, 60),
cascade 3 = (0.06, 100), and `CSMPipeline::draw` stores the far planes 10, 30, 60, 100. -/
theorem C3_scenario_planes :
    (cascadeZNear scenarioCamera scenarioPercents 0 = 1 / 10 ∧
      cascadeZFar scenarioCamera scenarioPercents 0 = 10) ∧
    (cascadeZNear scenarioCamera scenarioPercents 1 = 1 / 100 ∧
      cascadeZFar scenarioCamera scenarioPercents 1 = 30) ∧
    (cascadeZNear scenarioCamera scenarioPercents 2 = 3 / 100 ∧
      cascadeZFar scenarioCamera scenarioPercents 2 = 60) ∧
    (cascadeZNear scenarioCamera scenarioPercents 3 = 6 / 100 ∧
      cascadeZFar scenarioCamera scenarioPercents 3 = 100) ∧
    ∀ (self : CSMPipeline 4) (cmd : List Command) (env : Collaborators) (sun : Vec3)
      (dcs : List MeshDrawCommand) (shadowsEnabled : Bool),
      (CSMPipeline.draw { self with percents := scenarioPercents } cmd env scenarioCamera sun
        dcs shadowsEnabled).1.cascadeFarPlaneZs = ![10, 30, 60, 100] := by
  refine ⟨⟨?_, ?_⟩, ⟨?_, ?_⟩, ⟨?_, ?_⟩, ⟨?_, ?_⟩, ?_⟩
  · norm_num [cascadeZNear, scenarioCamera]
  · norm_num [cascadeZFar, scenarioCamera, scenarioPercents]
  · norm_num [cascadeZNear, scenarioCamera, scenarioPercents]
  · norm_num [cascadeZFar, scenarioCamera, scenarioPercents]
  · norm_num [cascadeZNear, scenarioCamera, scenarioPercents]
  · norm_num [cascadeZFar, scenarioCamera, scenarioPercents]
  · norm_num [cascadeZNear, scenarioCamera, scenarioPercents, fin4_val_three]
  · norm_num [cascadeZFar, scenarioCamera, scenarioPercents]
  · intro self cmd env sun dcs b
    rw [draw_fst]
    funext j
    fin_cases j <;> simp [cascadeZFar, scenarioCamera, scenarioPercents] <;> norm_num

/-! ## NBuffer -/

/-- What the staging-buffer loop of `init` does: it appends `n` buffers with fresh
handles, each live with `dataSize` bytes, and leaves older handles alone. -/
theorem createStagingBuffers_spec (usage dataSize : Nat) :
    ∀ (n : Nat) (st : List GPUBuffer × Allocator),
      (createStagingBuffers usage dataSize n st).1.length = st.1.length + n ∧
      (∀ h, h < st.2.nextHandle →
        (createStagingBuffers usage dataSize n st).2.memory h = st.2.memory h) ∧
      (∀ b ∈ (createStagingBuffers usage dataSize n st).1,
        b ∈ st.1 ∨ ∃ bytes,
          (createStagingBuffers usage dataSize n st).2.memory b.buffer = some bytes ∧
          bytes.length = dataSize) := by
  intro n
  induction n with
  | zero =>
    intro st
    refine ⟨rfl, fun _ _ => rfl, fun b hb => Or.inl hb⟩
  | succ n ih =>
    intro st
    have hstep : createStagingBuffers usage dataSize (n + 1) st =
        createStagingBuffers usage dataSize n
          (st.1 ++ [(createBuffer st.2 dataSize (usage ||| VK_BUFFER_USAGE_TRANSFER_SRC_BIT)
              MemoryUsage.autoPreferHost).1],
            (createBuffer st.2 dataSize (usage ||| VK_BUFFER_USAGE_TRANSFER_SRC_BIT)
              MemoryUsage.autoPreferHost).2) := rfl
    rw [hstep]
    obtain ⟨hlen, hmem, hall⟩ := ih
      (st.1 ++ [(createBuffer st.2 dataSize (usage ||| VK_BUFFER_USAGE_TRANSFER_SRC_BIT)
          MemoryUsage.autoPreferHost).1],
        (createBuffer st.2 dataSize (usage ||| VK_BUFFER_USAGE_TRANSFER_SRC_BIT)
          MemoryUsage.autoPreferHost).2)
    refine ⟨?_, ?_, ?_⟩
    · rw [hlen]; simp; omega
    · intro h hh
      rw [hmem h (by simp [createBuffer]; omega)]
      simp only [createBuffer]
      exact Function.update_noteq (Nat.ne_of_lt hh) _ _
    · intro b hb
      rcases hall b hb with hb1 | hb2
      · rcases List.mem_append.1 hb1 with hb0 | hbnew
        · exact Or.inl hb0
        · right
          have hbeq : b = (createBuffer st.2 dataSize
              (usage ||| VK_BUFFER_USAGE_TRANSFER_SRC_BIT) MemoryUsage.autoPreferHost).1 := by
            simpa using hbnew
          refine ⟨(List.range dataSize).map st.2.uninitialised, ?_, by simp⟩
          rw [hbeq, hmem _ (by simp [createBuffer])]
          simp [createBuffer]
      · exact Or.inr hb2

/-- `init` on an object without staging buffers (a default-constructed one, or one that
was cleaned up) passes its assertions for positive arguments and establishes
`Initialised` with the requested capacity and frame count. -/
theorem init_initialised (self : NBuffer) (allocator : Allocator) (usage dataSize
    numFramesInFlight : Nat) (hs : self.stagingBuffers = []) (hN : 0 < numFramesInFlight)
    (hC : 0 < dataSize) :
    (self.init allocator usage dataSize numFramesInFlight).failure = none ∧
    (self.init allocator usage dataSize numFramesInFlight).self.framesInFlight
      = numFramesInFlight ∧
    (self.init allocator usage dataSize numFramesInFlight).self.gpuBufferSize = dataSize ∧
    (self.init allocator usage dataSize numFramesInFlight).self.Initialised
      (self.init allocator usage dataSize numFramesInFlight).allocator.memory := by
  have hN' : ¬ ¬ (numFramesInFlight > 0) := not_not.2 hN
  have hC' : ¬ ¬ (dataSize > 0) := not_not.2 hC
  obtain ⟨hlen, hmem, hall⟩ := createStagingBuffers_spec usage dataSize numFramesInFlight
    (([] : List GPUBuffer),
      (createBuffer allocator dataSize (usage ||| VK_BUFFER_USAGE_TRANSFER_DST_BIT)
        MemoryUsage.autoPreferDevice).2)
  simp only [NBuffer.init, if_neg hN', if_neg hC', hs, NBuffer.Initialised]
  refine ⟨trivial, trivial, trivial, trivial, ?_, ?_, ?_⟩
  · simpa using hlen
  · refine ⟨(List.range dataSize).map allocator.uninitialised, ?_, by simp⟩
    rw [hmem _ (by simp [createBuffer])]
    simp [createBuffer]
  · intro b hb
    rcases hall b hb with h | h
    · simp at h
    · exact h

/-- An accepted upload on an initialised buffer: the staging buffer of the frame exists
and is live, and the call runs to its end, having written the staging buffer and recorded
barrier, copy, barrier. -/
theorem uploadNewData_accepted (self : NBuffer) (memory : Memory) (cmd : List Command)
    (frameIndex : Nat) (newData : List Byte) (dataSize : Nat)
    (hI : self.Initialised memory) (hf : frameIndex < self.framesInFlight)
    (hS : dataSize ≤ self.gpuBufferSize) (hd : dataSize ≤ newData.length) :
    ∃ staging old,
      self.stagingBuffers[frameIndex]? = some staging ∧
      memory staging.buffer = some old ∧ old.length = self.gpuBufferSize ∧
      self.uploadNewData memory cmd frameIndex newData dataSize =
        { failure := none, self := self,
          memory := Function.update memory staging.buffer
            (some (newData.take dataSize ++ old.drop dataSize)),
          cmd := cmd ++ [
            Command.pipelineBarrier2
              { srcStageMask := PipelineStage.allCommands, srcAccessRead := true,
                srcAccessWrite := false, dstStageMask := PipelineStage.transfer,
                dstAccessRead := false, dstAccessWrite := true,
                buffer := self.gpuBuffer.buffer, offset := 0, size := none },
            Command.copyBuffer2 staging.buffer self.gpuBuffer.buffer 0 0 dataSize,
            Command.pipelineBarrier2
              { srcStageMask := PipelineStage.copy, srcAccessRead := false,
                srcAccessWrite := true, dstStageMask := PipelineStage.allCommands,
                dstAccessRead := true, dstAccessWrite := true,
                buffer := self.gpuBuffer.buffer, offset := 0, size := none }] } := by
  obtain ⟨hinit, hlen, _, hstaging⟩ := hI
  have hlt : frameIndex < self.stagingBuffers.length := by omega
  have hget : self.stagingBuffers[frameIndex]? = some (self.stagingBuffers[frameIndex]) :=
    List.getElem?_eq_getElem hlt
  obtain ⟨old, hold, holdlen⟩ := hstaging _ (List.getElem_mem hlt)
  refine ⟨self.stagingBuffers[frameIndex], old, hget, hold, holdlen, ?_⟩
  have hcond : dataSize ≤ old.length ∧ dataSize ≤ newData.length := ⟨by omega, hd⟩
  have hcpy : memcpy memory (self.stagingBuffers[frameIndex]).buffer newData dataSize =
      some (Function.update memory (self.stagingBuffers[frameIndex]).buffer
        (some (newData.take dataSize ++ old.drop dataSize))) := by
    simp only [memcpy, hold, if_pos hcond]
  have h1 : ¬ ¬ (self.initialized = true) := not_not.2 hinit
  have h2 : ¬ ¬ (frameIndex < self.framesInFlight) := not_not.2 hf
  have h3 : ¬ ¬ (dataSize ≤ self.gpuBufferSize) := not_not.2 hS
  simp only [NBuffer.uploadNewData, if_neg h1, if_neg h2, if_neg h3, hget, hcpy]
  simp

/-- C4, counterexample: on an `NBuffer` initialised with capacity 4 and 2 frames, the call
with frame index 2 and `dataSize = 5 > 4` does not fail the size-bound assertion: it
fails the frame-index assertion, which is checked before it. -/
theorem C4_counterexample :
    exampleNBuffer.initialized = true ∧
    5 > exampleNBuffer.gpuBufferSize ∧
    (exampleNBuffer.uploadNewData exampleMemory [] 2 [1, 2, 3, 4, 5] 5).failure
      ≠ some Failure.assertDataSize ∧
    (exampleNBuffer.uploadNewData exampleMemory [] 2 [1, 2, 3, 4, 5] 5).failure
      = some Failure.assertFrameIndex := by
  refine ⟨by decide, by decide, by decide, by decide⟩

/-- C4, amended: for every initialised `NBuffer` and every `dataSize > gpuBufferSize`,
`uploadNewData` fails an assertion with the object, the buffer memory and the command
stream unchanged: the size-bound assertion when `frameIndex < framesInFlight`, and the
frame-index assertion, which is checked first, otherwise. -/
theorem C4_oversize_rejected (self : NBuffer) (memory : Memory) (cmd : List Command)
    (frameIndex : Nat) (newData : List Byte) (dataSize : Nat)
    (hinit : self.initialized = true) (hS : dataSize > self.gpuBufferSize) :
    (self.uploadNewData memory cmd frameIndex newData dataSize).failure =
      some (if frameIndex < self.framesInFlight then Failure.assertDataSize
        else Failure.assertFrameIndex) ∧
    (self.uploadNewData memory cmd frameIndex newData dataSize).self = self ∧
    (self.uploadNewData memory cmd frameIndex newData dataSize).memory = memory ∧
    (self.uploadNewData memory cmd frameIndex newData dataSize).cmd = cmd := by
  have h1 : ¬ ¬ (self.initialized = true) := not_not.2 hinit
  have h3 : ¬ (dataSize ≤ self.gpuBufferSize) := by omega
  by_cases hf : frameIndex < self.framesInFlight
  · have h2 : ¬ ¬ (frameIndex < self.framesInFlight) := not_not.2 hf
    simp only [NBuffer.uploadNewData, if_neg h1, if_neg h2, if_pos h3, if_pos hf]
    exact ⟨trivial, trivial, trivial, trivial⟩
  · simp only [NBuffer.uploadNewData, if_neg h1, if_pos hf, if_neg hf]
    exact ⟨trivial, trivial, trivial, trivial⟩

/-- C4, amended, on the buffer of capacity 4 with frame index 0 and `dataSize = 5`. -/
theorem C4_oversize_rejected_witness :
    exampleNBuffer.initialized = true ∧ 5 > exampleNBuffer.gpuBufferSize ∧
    (exampleNBuffer.uploadNewData exampleMemory [] 0 [1, 2, 3, 4, 5] 5).cmd = [] :=
  ⟨by decide, by decide,
    (C4_oversize_rejected exampleNBuffer exampleMemory [] 0 [1, 2, 3, 4, 5] 5
      (by decide) (by decide)).2.2.2⟩

/-- Executing the three commands of an upload: the two barriers leave buffer memory
alone, the copy replaces the first `size` bytes of the destination buffer. -/
theorem executeCommands_upload (memory : Memory) (srcBuffer dstBuffer size : Nat)
    (src dst : List Byte) (b1 b2 : BufferMemoryBarrier)
    (hs : memory srcBuffer = some src) (hg : memory dstBuffer = some dst)
    (h1 : size ≤ src.length) (h2 : size ≤ dst.length) :
    executeCommands memory [Command.pipelineBarrier2 b1,
        Command.copyBuffer2 srcBuffer dstBuffer 0 0 size, Command.pipelineBarrier2 b2] =
      some (Function.update memory dstBuffer (some (src.take size ++ dst.drop size))) := by
  simp [executeCommands, executeCommand, hs, hg, h1, h2]

/-- C5: on an initialised `NBuffer`, for a frame index below `framesInFlight` and `S`
bytes of data with `S ≤ gpuBufferSize`, `uploadNewData` succeeds, and executing the
commands it recorded leaves the GPU buffer with its size unchanged, its first `S` bytes
equal to the data and its remaining bytes as they were before the call. -/
theorem C5_upload_roundtrip (self : NBuffer) (memory : Memory) (cmd : List Command)
    (frameIndex : Nat) (newData : List Byte) (dataSize : Nat)
    (hI : self.Initialised memory) (hf : frameIndex < self.framesInFlight)
    (hS : dataSize ≤ self.gpuBufferSize) (hd : newData.length = dataSize) :
    (self.uploadNewData memory cmd frameIndex newData dataSize).failure = none ∧
    ∃ before after memory1,
      memory self.gpuBuffer.buffer = some before ∧
      executeCommands (self.uploadNewData memory cmd frameIndex newData dataSize).memory
        ((self.uploadNewData memory cmd frameIndex newData dataSize).cmd.drop cmd.length)
        = some memory1 ∧
      memory1 self.gpuBuffer.buffer = some after ∧
      after.length = self.gpuBufferSize ∧
      after.take dataSize = newData ∧
      after.drop dataSize = before.drop dataSize := by
  obtain ⟨staging, old, _, hold, holdlen, hrun⟩ :=
    uploadNewData_accepted self memory cmd frameIndex newData dataSize hI hf hS (le_of_eq hd.symm)
  obtain ⟨_, _, ⟨before, hbefore, hbeforelen⟩, _⟩ := hI
  have htake : List.take dataSize newData = newData := by
    rw [← hd]; exact List.take_length _
  rw [hrun, htake]
  have hsrc : Function.update memory staging.buffer (some (newData ++ old.drop dataSize))
      staging.buffer = some (newData ++ old.drop dataSize) := Function.update_same _ _ _
  have hdst : ∃ dst, Function.update memory staging.buffer
      (some (newData ++ old.drop dataSize)) self.gpuBuffer.buffer = some dst ∧
      dst.length = self.gpuBufferSize ∧ dst.drop dataSize = before.drop dataSize := by
    by_cases hsame : self.gpuBuffer.buffer = staging.buffer
    · have hob : old = before := by
        rw [hsame, hold] at hbefore
        exact Option.some.inj hbefore
      refine ⟨newData ++ old.drop dataSize, by rw [hsame]; exact hsrc, ?_, ?_⟩
      · simp [hd]; omega
      · simp [hd, hob]
    · exact ⟨before, by rw [Function.update_noteq hsame]; exact hbefore, hbeforelen, rfl⟩
  obtain ⟨dst, hdst, hdstlen, hdstdrop⟩ := hdst
  refine ⟨rfl, before, (newData ++ old.drop dataSize).take dataSize ++ dst.drop dataSize,
    Function.update (Function.update memory staging.buffer
      (some (newData ++ old.drop dataSize))) self.gpuBuffer.buffer
      (some ((newData ++ old.drop dataSize).take dataSize ++ dst.drop dataSize)),
    hbefore, ?_, Function.update_same _ _ _, ?_, ?_, ?_⟩
  · dsimp only
    rw [List.drop_left]
    exact executeCommands_upload _ _ _ _ _ _ _ _ hsrc hdst (by simp [hd]) (by omega)
  · simp [hd]; omega
  · simp [hd]
  · simp [hd, hdstdrop]

/-- C5, on the buffer of capacity 4: uploading the three bytes 1, 2, 3 for frame 1. -/
theorem C5_upload_roundtrip_witness :
    exampleNBuffer.Initialised exampleMemory ∧ 1 < exampleNBuffer.framesInFlight ∧
    3 ≤ exampleNBuffer.gpuBufferSize ∧ ([1, 2, 3] : List Byte).length = 3 ∧
    (exampleNBuffer.uploadNewData exampleMemory [] 1 [1, 2, 3] 3).failure = none :=
  ⟨(init_initialised NBuffer.default exampleAllocator 0 4 2 rfl (by decide) (by decide)).2.2.2,
    by decide, by decide, rfl,
    (C5_upload_roundtrip exampleNBuffer exampleMemory [] 1 [1, 2, 3] 3
      (init_initialised NBuffer.default exampleAllocator 0 4 2 rfl (by decide) (by decide)).2.2.2
      (by decide) (by decide) rfl).1⟩

/-- C6: when the preconditions of `uploadNewData` hold (initialised buffer, frame index
below `framesInFlight`, `dataSize ≤ gpuBufferSize`, at least `dataSize` bytes of data),
the call appends exactly three commands: a barrier on the GPU buffer from prior memory
reads (all commands) to transfer writes, a copy of `dataSize` bytes from offset 0 of
staging buffer `frameIndex` to offset 0 of the GPU buffer, and a barrier on the GPU
buffer from the copy's write to later reads and writes (all commands). -/
theorem C6_recorded_commands (self : NBuffer) (memory : Memory) (cmd : List Command)
    (frameIndex : Nat) (newData : List Byte) (dataSize : Nat)
    (hI : self.Initialised memory) (hf : frameIndex < self.framesInFlight)
    (hS : dataSize ≤ self.gpuBufferSize) (hd : dataSize ≤ newData.length) :
    ∃ staging, self.stagingBuffers[frameIndex]? = some staging ∧
      (self.uploadNewData memory cmd frameIndex newData dataSize).failure = none ∧
      (self.uploadNewData memory cmd frameIndex newData dataSize).cmd =
        cmd ++ [
          Command.pipelineBarrier2
            { srcStageMask := PipelineStage.allCommands, srcAccessRead := true,
              srcAccessWrite := false, dstStageMask := PipelineStage.transfer,
              dstAccessRead := false, dstAccessWrite := true,
              buffer := self.gpuBuffer.buffer, offset := 0, size := none },
          Command.copyBuffer2 staging.buffer self.gpuBuffer.buffer 0 0 dataSize,
          Command.pipelineBarrier2
            { srcStageMask := PipelineStage.copy, srcAccessRead := false,
              srcAccessWrite := true, dstStageMask := PipelineStage.allCommands,
              dstAccessRead := true, dstAccessWrite := true,
              buffer := self.gpuBuffer.buffer, offset := 0, size := none }] := by
  obtain ⟨staging, old, hget, _, _, hrun⟩ :=
    uploadNewData_accepted self memory cmd frameIndex newData dataSize hI hf hS hd
  exact ⟨staging, hget, by rw [hrun], by rw [hrun]⟩

/-- C6, on the buffer of capacity 4: the upload of two bytes for frame 0 is accepted. -/
theorem C6_recorded_commands_witness :
    exampleNBuffer.Initialised exampleMemory ∧ 0 < exampleNBuffer.framesInFlight ∧
    2 ≤ exampleNBuffer.gpuBufferSize ∧ 2 ≤ ([7, 8] : List Byte).length ∧
    ∃ staging, exampleNBuffer.stagingBuffers[0]? = some staging ∧
      (exampleNBuffer.uploadNewData exampleMemory [] 0 [7, 8] 2).failure = none ∧
      (exampleNBuffer.uploadNewData exampleMemory [] 0 [7, 8] 2).cmd =
        [] ++ [
          Command.pipelineBarrier2
            { srcStageMask := PipelineStage.allCommands, srcAccessRead := true,
              srcAccessWrite := false, dstStageMask := PipelineStage.transfer,
              dstAccessRead := false, dstAccessWrite := true,
              buffer := exampleNBuffer.gpuBuffer.buffer, offset := 0, size := none },
          Command.copyBuffer2 staging.buffer exampleNBuffer.gpuBuffer.buffer 0 0 2,
          Command.pipelineBarrier2
            { srcStageMask := PipelineStage.copy, srcAccessRead := false,
              srcAccessWrite := true, dstStageMask := PipelineStage.allCommands,
              dstAccessRead := true, dstAccessWrite := true,
              buffer := exampleNBuffer.gpuBuffer.buffer, offset := 0, size := none }] :=
  ⟨(init_initialised NBuffer.default exampleAllocator 0 4 2 rfl (by decide) (by decide)).2.2.2,
    by decide, by decide, by decide,
    C6_recorded_commands exampleNBuffer exampleMemory [] 0 [7, 8] 2
      (init_initialised NBuffer.default exampleAllocator 0 4 2 rfl (by decide) (by decide)).2.2.2
      (by decide) (by decide) (by decide)⟩

/-- C7: `uploadNewData` fails its `initialized` assertion, whatever its arguments, on a
default-constructed `NBuffer`, on every `NBuffer` whose `initialized` flag is false, and on
an `NBuffer` on which `cleanup` was called after `init`; once `init` is called again (with
positive arguments) an upload with a frame index below the new frame count and at most
the new capacity in bytes is accepted. -/
theorem C7_initialized_assertion (self : NBuffer) (allocator : Allocator)
    (usage dataSize numFramesInFlight usage2 dataSize2 numFramesInFlight2 : Nat)
    (memory : Memory) (cmd : List Command) (frameIndex : Nat) (newData : List Byte) (size : Nat)
    (frameIndex2 : Nat) (newData2 : List Byte) (size2 : Nat)
    (hN : 0 < numFramesInFlight2) (hC : 0 < dataSize2)
    (hf : frameIndex2 < numFramesInFlight2) (hS : size2 ≤ dataSize2)
    (hd : size2 ≤ newData2.length) :
    (NBuffer.default.uploadNewData memory cmd frameIndex newData size).failure
      = some Failure.assertInitialized ∧
    (self.initialized = false →
      (self.uploadNewData memory cmd frameIndex newData size).failure
        = some Failure.assertInitialized) ∧
    (((self.init allocator usage dataSize numFramesInFlight).self.cleanup
        (self.init allocator usage dataSize numFramesInFlight).allocator).1.uploadNewData
        memory cmd frameIndex newData size).failure = some Failure.assertInitialized ∧
    ((((self.init allocator usage dataSize numFramesInFlight).self.cleanup
        (self.init allocator usage dataSize numFramesInFlight).allocator).1.init
      ((self.init allocator usage dataSize numFramesInFlight).self.cleanup
        (self.init allocator usage dataSize numFramesInFlight).allocator).2
      usage2 dataSize2 numFramesInFlight2).self.uploadNewData
      (((self.init allocator usage dataSize numFramesInFlight).self.cleanup
        (self.init allocator usage dataSize numFramesInFlight).allocator).1.init
      ((self.init allocator usage dataSize numFramesInFlight).self.cleanup
        (self.init allocator usage dataSize numFramesInFlight).allocator).2
      usage2 dataSize2 numFramesInFlight2).allocator.memory
      cmd frameIndex2 newData2 size2).failure = none := by
  refine ⟨?_, ?_, ?_, ?_⟩
  · simp [NBuffer.uploadNewData, NBuffer.default]
  · intro h
    simp [NBuffer.uploadNewData, h]
  · simp [NBuffer.uploadNewData, NBuffer.cleanup]
  · obtain ⟨_, hfr, hsz, hI⟩ := init_initialised
      ((self.init allocator usage dataSize numFramesInFlight).self.cleanup
        (self.init allocator usage dataSize numFramesInFlight).allocator).1
      ((self.init allocator usage dataSize numFramesInFlight).self.cleanup
        (self.init allocator usage dataSize numFramesInFlight).allocator).2
      usage2 dataSize2 numFramesInFlight2 rfl hN hC
    obtain ⟨staging, old, _, _, _, hrun⟩ := uploadNewData_accepted _ _ cmd frameIndex2 newData2
      size2 hI (by rw [hfr]; exact hf) (by rw [hsz]; exact hS) hd
    rw [hrun]

/-- C7, from a default-constructed buffer: init with capacity 4 and 2 frames, cleanup,
init with capacity 8 and 3 frames, then an upload of two bytes for frame 2. -/
theorem C7_initialized_assertion_witness :
    (((NBuffer.default.init exampleAllocator 0 4 2).self.cleanup
        (NBuffer.default.init exampleAllocator 0 4 2).allocator).1.uploadNewData
        exampleMemory [] 0 [1] 1).failure = some Failure.assertInitialized :=
  (C7_initialized_assertion NBuffer.default exampleAllocator 0 4 2 0 8 3 exampleMemory []
    0 [1] 1 2 [5, 6] 2 (by decide) (by decide) (by decide) (by decide) (by decide)).2.2.1

/-! ## CSMPipeline::draw: the recorded command stream -/

/-- The loop body does not look at the commands already recorded. -/
theorem drawMeshCommand_append {N : Nat} (env : Collaborators) (self : CSMPipeline N)
    (i : Fin N) (frustum : env.Frustum) (b : Bool) (c : List Command) (p : Nat)
    (dc : MeshDrawCommand) :
    drawMeshCommand env self i frustum b { cmd := c, prevMeshId := p } dc =
      { cmd := c ++ (drawMeshCommand env self i frustum b { cmd := [], prevMeshId := p } dc).cmd,
        prevMeshId :=
          (drawMeshCommand env self i frustum b { cmd := [], prevMeshId := p } dc).prevMeshId } := by
  unfold drawMeshCommand
  split_ifs <;> simp

/-- The loop over the draw commands appends to the command buffer it starts from. -/
theorem foldl_drawMeshCommand_append {N : Nat} (env : Collaborators) (self : CSMPipeline N)
    (i : Fin N) (frustum : env.Frustum) (b : Bool) (dcs : List MeshDrawCommand) :
    ∀ (c : List Command) (p : Nat),
      (dcs.foldl (drawMeshCommand env self i frustum b) { cmd := c, prevMeshId := p }).cmd =
        c ++ (dcs.foldl (drawMeshCommand env self i frustum b)
          { cmd := [], prevMeshId := p }).cmd := by
  induction dcs with
  | nil => intro c p; simp
  | cons dc dcs ih =>
    intro c p
    rw [List.foldl_cons, List.foldl_cons, drawMeshCommand_append env self i frustum b c p dc,
      ih, ih (drawMeshCommand env self i frustum b { cmd := [], prevMeshId := p } dc).cmd]
    simp

/-- The loop body reads only the light-space matrix of its cascade and the pipeline
layout from the pipeline members. -/
theorem drawMeshCommand_congr {N : Nat} (env : Collaborators) (s1 s2 : CSMPipeline N)
    (i : Fin N) (frustum : env.Frustum) (b : Bool)
    (h1 : s1.csmLightSpaceTMs i = s2.csmLightSpaceTMs i)
    (h2 : s1.pipelineLayout = s2.pipelineLayout) :
    drawMeshCommand env s1 i frustum b = drawMeshCommand env s2 i frustum b := by
  funext st dc
  unfold drawMeshCommand
  rw [h1, h2]

/-- What one iteration of the loop over the draw commands records: nothing when the
command fails the shadow-caster filter; otherwise an index-buffer bind if the mesh
changed, then push constants and one indexed draw. -/
theorem drawMeshCommand_cmd {N : Nat} (env : Collaborators) (self : CSMPipeline N)
    (i : Fin N) (frustum : env.Frustum) (b : Bool) (p : Nat) (dc : MeshDrawCommand) :
    (drawMeshCommand env self i frustum b { cmd := [], prevMeshId := p } dc).cmd =
      if passesShadowFilter env frustum b dc then
        (if dc.meshId ≠ p then
          [Command.bindIndexBuffer (env.getMesh dc.meshId).indexBuffer.buffer 0] else []) ++
        [Command.pushConstants self.pipelineLayout
            (self.csmLightSpaceTMs i * dc.transformMatrix)
            (match dc.skinnedMesh with
              | some sm => sm.skinnedVertexBuffer.address
              | none => (env.getMesh dc.meshId).vertexBuffer.address),
          Command.drawIndexed (env.getMesh dc.meshId).numIndices 1 0 0 0]
      else [] := by
  unfold drawMeshCommand passesShadowFilter
  cases b <;> cases hcs : dc.castShadow <;>
    cases hin : env.isInFrustum frustum dc.worldBoundingSphere <;>
    cases hr : dc.worldBoundingSphere.radius.lt (FloatValue.finite 2) <;>
    by_cases hm : dc.meshId = p <;>
    simp [hm]

/-- One cascade iteration, on a state that differs from `self` only in the two
per-cascade arrays: it writes entry `i` of both arrays and appends the pass of
cascade `i`. -/
theorem drawCascade_eq {N : Nat} (env : Collaborators) (camera : Camera) (sun : Vec3)
    (dcs : List MeshDrawCommand) (b : Bool) (self : CSMPipeline N) (f : Fin N → ℚ)
    (g : Fin N → Mat4) (c : List Command) (i : Fin N) :
    drawCascade env camera sun dcs b
        ({ self with cascadeFarPlaneZs := f, csmLightSpaceTMs := g }, c) i =
      ({ self with
          cascadeFarPlaneZs := Function.update f i (cascadeZFar camera self.percents i),
          csmLightSpaceTMs := Function.update g i
            (env.getViewProj (cascadeCSMCamera env self camera sun i)) },
        c ++ (cascadePassHeader self i ++ cascadeBody env self camera sun dcs b i
          ++ [Command.endRendering])) := by
  have hbody : ∀ c0 : List Command,
      (dcs.foldl (drawMeshCommand env
          { self with
            cascadeFarPlaneZs := Function.update f i (cascadeZFar camera self.percents i),
            csmLightSpaceTMs := Function.update g i
              (env.getViewProj (cascadeCSMCamera env self camera sun i)) }
          i (cascadeFrustum env self camera sun i) b)
        { cmd := c0, prevMeshId := NULL_MESH_ID }).cmd =
      c0 ++ cascadeBody env self camera sun dcs b i := by
    intro c0
    rw [foldl_drawMeshCommand_append]
    unfold cascadeBody
    have hc := drawMeshCommand_congr env
      { self with
        cascadeFarPlaneZs := Function.update f i (cascadeZFar camera self.percents i),
        csmLightSpaceTMs := Function.update g i
          (env.getViewProj (cascadeCSMCamera env self camera sun i)) }
      { self with
        csmLightSpaceTMs := Function.update self.csmLightSpaceTMs i
          (env.getViewProj (cascadeCSMCamera env self camera sun i)) }
      i (cascadeFrustum env self camera sun i) b (by simp) rfl
    rw [hc]
  show (_, (dcs.foldl (drawMeshCommand env
          { self with
            cascadeFarPlaneZs := Function.update f i (cascadeZFar camera self.percents i),
            csmLightSpaceTMs := Function.update g i
              (env.getViewProj (cascadeCSMCamera env self camera sun i)) }
          i (cascadeFrustum env self camera sun i) b)
        { cmd := c ++ [Command.beginRendering (toUInt32 self.shadowMapTextureSize)
              (toUInt32 self.shadowMapTextureSize) (self.csmShadowMapViews i) 0]
            ++ [Command.bindPipeline self.pipeline]
            ++ [Command.setViewport 0 0 self.shadowMapTextureSize
              self.shadowMapTextureSize 0 1]
            ++ [Command.setScissor 0 0 (toUInt32 self.shadowMapTextureSize)
              (toUInt32 self.shadowMapTextureSize)],
          prevMeshId := NULL_MESH_ID }).cmd ++ [Command.endRendering]) = (_, _)
  rw [hbody]
  refine Prod.ext rfl ?_
  simp [cascadePassHeader]

/-- The commands recorded by the iterations of a list of cascade indices. -/
theorem foldl_drawCascade_snd {N : Nat} (env : Collaborators) (camera : Camera) (sun : Vec3)
    (dcs : List MeshDrawCommand) (b : Bool) (self : CSMPipeline N) (l : List (Fin N)) :
    ∀ (f : Fin N → ℚ) (g : Fin N → Mat4) (c : List Command),
      ((l.foldl (drawCascade env camera sun dcs b)
          ({ self with cascadeFarPlaneZs := f, csmLightSpaceTMs := g }, c)).2) =
        c ++ l.flatMap (fun i =>
          cascadePassHeader self i ++ cascadeBody env self camera sun dcs b i
            ++ [Command.endRendering]) := by
  induction l with
  | nil => intro f g c; simp
  | cons i l ih =>
    intro f g c
    rw [List.foldl_cons, drawCascade_eq, ih, List.flatMap_cons]
    simp

/-- The command buffer after `CSMPipeline::draw`: the old contents, the transition into
the depth-attachment layout, one pass per cascade in index order, the transition into the
depth-read-only layout. -/
theorem draw_snd {N : Nat} (self : CSMPipeline N) (cmd : List Command) (env : Collaborators)
    (camera : Camera) (sun : Vec3) (dcs : List MeshDrawCommand) (b : Bool) :
    (self.draw cmd env camera sun dcs b).2 =
      cmd ++ (Command.transitionImage (env.getImage self.csmShadowMapID)
          ImageLayout.undefined ImageLayout.depthAttachmentOptimal ::
        ((List.finRange N).flatMap (fun i =>
          cascadePassHeader self i ++ cascadeBody env self camera sun dcs b i
            ++ [Command.endRendering]) ++
        [Command.transitionImage (env.getImage self.csmShadowMapID)
          ImageLayout.depthAttachmentOptimal ImageLayout.depthReadOnlyOptimal])) := by
  have h : ((List.finRange N).foldl (drawCascade env camera sun dcs b)
      (self, cmd ++ [Command.transitionImage (env.getImage self.csmShadowMapID)
        ImageLayout.undefined ImageLayout.depthAttachmentOptimal])).2 =
      (cmd ++ [Command.transitionImage (env.getImage self.csmShadowMapID)
        ImageLayout.undefined ImageLayout.depthAttachmentOptimal]) ++
      (List.finRange N).flatMap (fun i =>
        cascadePassHeader self i ++ cascadeBody env self camera sun dcs b i
          ++ [Command.endRendering]) :=
    foldl_drawCascade_snd env camera sun dcs b self (List.finRange N)
      self.cascadeFarPlaneZs self.csmLightSpaceTMs _
  unfold CSMPipeline.draw
  simp only [h]
  simp

/-- The commands of the loop over the draw commands, from any `prevMeshId`: only
index-buffer binds, push constants and indexed draws; the indexed draws are, in order,
those of the commands passing the shadow-caster filter; nothing is recorded when no
command passes it. -/
theorem meshLoop_spec {N : Nat} (env : Collaborators) (self : CSMPipeline N)
    (i : Fin N) (frustum : env.Frustum) (b : Bool) (dcs : List MeshDrawCommand) :
    ∀ p : Nat,
      (∀ c ∈ (dcs.foldl (drawMeshCommand env self i frustum b)
          { cmd := [], prevMeshId := p }).cmd,
        c.isBeginRendering = false ∧ c.isEndRendering = false ∧
          c.isTransitionImage = false) ∧
      ((dcs.foldl (drawMeshCommand env self i frustum b)
          { cmd := [], prevMeshId := p }).cmd.filter Command.isDrawIndexed =
        (dcs.filter (passesShadowFilter env frustum b)).map
          (fun dc => Command.drawIndexed (env.getMesh dc.meshId).numIndices 1 0 0 0)) ∧
      ((∀ dc ∈ dcs, passesShadowFilter env frustum b dc = false) →
        (dcs.foldl (drawMeshCommand env self i frustum b)
          { cmd := [], prevMeshId := p }).cmd = []) := by
  induction dcs with
  | nil => intro p; simp
  | cons dc dcs ih =>
    intro p
    have happ : (dcs.foldl (drawMeshCommand env self i frustum b)
          (drawMeshCommand env self i frustum b { cmd := [], prevMeshId := p } dc)).cmd =
        (drawMeshCommand env self i frustum b { cmd := [], prevMeshId := p } dc).cmd ++
          (dcs.foldl (drawMeshCommand env self i frustum b)
            { cmd := [],
              prevMeshId := (drawMeshCommand env self i frustum b
                { cmd := [], prevMeshId := p } dc).prevMeshId }).cmd :=
      foldl_drawMeshCommand_append env self i frustum b dcs _ _
    rw [List.foldl_cons, happ, drawMeshCommand_cmd]
    obtain ⟨ih1, ih2, ih3⟩ :=
      ih (drawMeshCommand env self i frustum b { cmd := [], prevMeshId := p } dc).prevMeshId
    refine ⟨?_, ?_, ?_⟩
    · intro c hc
      rcases List.mem_append.1 hc with h | h
      · by_cases hp : passesShadowFilter env frustum b dc = true
        · by_cases hm : dc.meshId = p
          · simp [hp, hm] at h
            rcases h with h | h <;> subst h <;> exact ⟨rfl, rfl, rfl⟩
          · simp [hp, hm] at h
            rcases h with h | h | h <;> subst h <;> exact ⟨rfl, rfl, rfl⟩
        · simp [hp] at h
      · exact ih1 c h
    · rw [List.filter_append, ih2]
      by_cases hp : passesShadowFilter env frustum b dc = true
      · by_cases hm : dc.meshId = p
        · simp [hp, hm, List.filter_cons, Command.isDrawIndexed]
        · simp [hp, hm, List.filter_cons, Command.isDrawIndexed]
      · simp [hp, List.filter_cons]
    · intro hnone
      have h0 : passesShadowFilter env frustum b dc = false := hnone dc (List.mem_cons_self _ _)
      rw [ih3 (fun d hd => hnone d (List.mem_cons_of_mem _ hd))]
      simp [h0]

/-- Counting in a concatenation of blocks that each hold exactly one matching element. -/
theorem countP_flatMap_one {α β : Type} (p : β → Bool) (f : α → List β) (l : List α)
    (h : ∀ a, (f a).countP p = 1) : (l.flatMap f).countP p = l.length := by
  induction l with
  | nil => simp
  | cons a l ih => rw [List.flatMap_cons, List.countP_append, h, ih, List.length_cons]; omega

/-- The loop over the draw commands of cascade `i` records no begin-rendering, no
end-rendering and no image transition. -/
theorem cascadeBody_kinds {N : Nat} (env : Collaborators) (self : CSMPipeline N)
    (camera : Camera) (sun : Vec3) (dcs : List MeshDrawCommand) (b : Bool) (i : Fin N) :
    ∀ c ∈ cascadeBody env self camera sun dcs b i,
      c.isBeginRendering = false ∧ c.isEndRendering = false ∧ c.isTransitionImage = false :=
  (meshLoop_spec env _ i (cascadeFrustum env self camera sun i) b dcs NULL_MESH_ID).1

/-- The pass of cascade `i` holds exactly one begin-rendering, exactly one
end-rendering and no image transition. -/
theorem cascadePass_counts {N : Nat} (env : Collaborators) (self : CSMPipeline N)
    (camera : Camera) (sun : Vec3) (dcs : List MeshDrawCommand) (b : Bool) (i : Fin N) :
    (cascadePassHeader self i ++ cascadeBody env self camera sun dcs b i
        ++ [Command.endRendering]).countP Command.isBeginRendering = 1 ∧
    (cascadePassHeader self i ++ cascadeBody env self camera sun dcs b i
        ++ [Command.endRendering]).countP Command.isEndRendering = 1 ∧
    ∀ c ∈ cascadePassHeader self i ++ cascadeBody env self camera sun dcs b i
        ++ [Command.endRendering], c.isTransitionImage = false := by
  have hk := cascadeBody_kinds env self camera sun dcs b i
  have hb : (cascadeBody env self camera sun dcs b i).countP Command.isBeginRendering = 0 :=
    List.countP_eq_zero.2 (fun c hc => by simp [(hk c hc).1])
  have he : (cascadeBody env self camera sun dcs b i).countP Command.isEndRendering = 0 :=
    List.countP_eq_zero.2 (fun c hc => by simp [(hk c hc).2.1])
  refine ⟨?_, ?_, ?_⟩
  · rw [List.countP_append, List.countP_append, hb]
    simp [cascadePassHeader, List.countP_cons, Command.isBeginRendering]
  · rw [List.countP_append, List.countP_append, he]
    simp [cascadePassHeader, List.countP_cons, Command.isEndRendering]
  · intro c hc
    rcases List.mem_append.1 hc with h | h
    · rcases List.mem_append.1 h with h | h
      · simp [cascadePassHeader] at h
        rcases h with h | h | h | h <;> subst h <;> rfl
      · exact (hk c h).2.2
    · simp at h
      subst h
      rfl

/-- The shadow-caster filter, spelled out. -/
theorem passesShadowFilter_iff (env : Collaborators) (frustum : env.Frustum) (b : Bool)
    (dc : MeshDrawCommand) :
    passesShadowFilter env frustum b dc = true ↔
      (b = true ∧ dc.castShadow = true ∧
        (env.isInFrustum frustum dc.worldBoundingSphere = true ∨
          dc.worldBoundingSphere.radius.lt (FloatValue.finite 2) = false)) := by
  simp [passesShadowFilter, and_assoc]

/-- A float is not below 2 exactly when it is at least 2 or NaN. -/
theorem FloatValue.not_lt_two (r : FloatValue) :
    (!r.lt (FloatValue.finite 2)) = (r.ge (FloatValue.finite 2) || r.isNaN) := by
  cases r with
  | finite value =>
    by_cases h : value < 2
    · simp [FloatValue.lt, FloatValue.ge, FloatValue.isNaN, h]
    · simp [FloatValue.lt, FloatValue.ge, FloatValue.isNaN, h, not_lt.1 h]
  | posInf => rfl
  | negInf => rfl
  | nan => rfl

/-- C8, counterexample: with shadows enabled, a shadow caster whose bounding sphere is
outside the light frustum of cascade 0 and whose radius is NaN is drawn in cascade 0,
although `radius >= 2.0` is false: `radius < 2.f` is false as well, so the command is not
skipped. -/
theorem C8_counterexample :
    exampleNaNCaster.castShadow = true ∧
    exampleEnv.isInFrustum
      (cascadeFrustum exampleEnv examplePipeline scenarioCamera ⟨0, -1, 0⟩ 0)
      exampleNaNCaster.worldBoundingSphere = false ∧
    exampleNaNCaster.worldBoundingSphere.radius.ge (FloatValue.finite 2) = false ∧
    exampleNaNCaster.worldBoundingSphere.radius.lt (FloatValue.finite 2) = false ∧
    (examplePipeline.draw [] exampleEnv scenarioCamera ⟨0, -1, 0⟩ [exampleNaNCaster]
      true).2.filter Command.isDrawIndexed =
      [Command.drawIndexed 18 1 0 0 0, Command.drawIndexed 18 1 0 0 0] ∧
    (cascadeBody exampleEnv examplePipeline scenarioCamera ⟨0, -1, 0⟩ [exampleNaNCaster]
      true 0).filter Command.isDrawIndexed = [Command.drawIndexed 18 1 0 0 0] := by
  refine ⟨rfl, ?_, rfl, rfl, ?_, ?_⟩
  · simp [exampleEnv, exampleNaNCaster]
  · rw [draw_snd]
    simp [List.finRange, List.flatMap, cascadePassHeader, cascadeBody, drawMeshCommand,
      exampleNaNCaster, exampleEnv, FloatValue.lt, Command.isDrawIndexed, List.filter_cons,
      NULL_MESH_ID]
  · simp [cascadeBody, drawMeshCommand, exampleNaNCaster, exampleEnv, FloatValue.lt,
      Command.isDrawIndexed, List.filter_cons, NULL_MESH_ID]

/-- C8, amended: in every cascade `i`, the indexed draws recorded between the
begin-rendering and the end-rendering of the cascade are, in list order, one draw (of the
mesh's index count) for each draw command such that shadowsEnabled is true, `castShadow`
is true, and the bounding sphere is in the cascade's light frustum or its radius is at
least 2 or NaN (that is, `radius < 2.f` is false), and no draw for any other command; a
shadow caster of radius exactly 2 outside the frustum is drawn. -/
theorem C8_shadow_caster_filter {N : Nat} (self : CSMPipeline N) (cmd : List Command)
    (env : Collaborators) (camera : Camera) (sun : Vec3) (dcs : List MeshDrawCommand)
    (shadowsEnabled : Bool) :
    (self.draw cmd env camera sun dcs shadowsEnabled).2 =
      cmd ++ (Command.transitionImage (env.getImage self.csmShadowMapID)
          ImageLayout.undefined ImageLayout.depthAttachmentOptimal ::
        ((List.finRange N).flatMap (fun i =>
          cascadePassHeader self i ++ cascadeBody env self camera sun dcs shadowsEnabled i
            ++ [Command.endRendering]) ++
        [Command.transitionImage (env.getImage self.csmShadowMapID)
          ImageLayout.depthAttachmentOptimal ImageLayout.depthReadOnlyOptimal])) ∧
    (∀ i : Fin N,
      (cascadeBody env self camera sun dcs shadowsEnabled i).filter Command.isDrawIndexed =
        (dcs.filter (fun dc => shadowsEnabled && dc.castShadow &&
            (env.isInFrustum (cascadeFrustum env self camera sun i) dc.worldBoundingSphere
              || (dc.worldBoundingSphere.radius.ge (FloatValue.finite 2)
                || dc.worldBoundingSphere.radius.isNaN)))).map
          (fun dc => Command.drawIndexed (env.getMesh dc.meshId).numIndices 1 0 0 0)) ∧
    (∀ (i : Fin N) (dc : MeshDrawCommand), dc ∈ dcs → shadowsEnabled = true →
      dc.castShadow = true → dc.worldBoundingSphere.radius = FloatValue.finite 2 →
      env.isInFrustum (cascadeFrustum env self camera sun i) dc.worldBoundingSphere = false →
      Command.drawIndexed (env.getMesh dc.meshId).numIndices 1 0 0 0 ∈
        cascadeBody env self camera sun dcs shadowsEnabled i) := by
  have hdraws : ∀ i : Fin N,
      (cascadeBody env self camera sun dcs shadowsEnabled i).filter Command.isDrawIndexed =
        (dcs.filter (passesShadowFilter env (cascadeFrustum env self camera sun i)
            shadowsEnabled)).map
          (fun dc => Command.drawIndexed (env.getMesh dc.meshId).numIndices 1 0 0 0) :=
    fun i => (meshLoop_spec env _ i (cascadeFrustum env self camera sun i) shadowsEnabled dcs
      NULL_MESH_ID).2.1
  have hfilter : ∀ i : Fin N,
      passesShadowFilter env (cascadeFrustum env self camera sun i) shadowsEnabled =
        (fun dc => shadowsEnabled && dc.castShadow &&
            (env.isInFrustum (cascadeFrustum env self camera sun i) dc.worldBoundingSphere
              || (dc.worldBoundingSphere.radius.ge (FloatValue.finite 2)
                || dc.worldBoundingSphere.radius.isNaN))) := by
    intro i
    funext dc
    unfold passesShadowFilter
    rw [FloatValue.not_lt_two]
  refine ⟨draw_snd self cmd env camera sun dcs shadowsEnabled, ?_, ?_⟩
  · intro i
    rw [hdraws i, hfilter i]
  intro i dc hdc hb hcs hr hout
  have hpass : passesShadowFilter env (cascadeFrustum env self camera sun i)
      shadowsEnabled dc = true :=
    (passesShadowFilter_iff env _ shadowsEnabled dc).2
      ⟨hb, hcs, Or.inr (by rw [hr]; simp [FloatValue.lt])⟩
  have hmem : Command.drawIndexed (env.getMesh dc.meshId).numIndices 1 0 0 0 ∈
      (cascadeBody env self camera sun dcs shadowsEnabled i).filter Command.isDrawIndexed := by
    rw [hdraws i]
    exact List.mem_map.2 ⟨dc, List.mem_filter.2 ⟨hdc, hpass⟩, rfl⟩
  exact (List.mem_filter.1 hmem).1

/-- C8, amended, on the example pipeline: a shadow caster of radius exactly 2 outside the
frustum is drawn in cascade 0. -/
theorem C8_shadow_caster_filter_witness :
    Command.drawIndexed (exampleEnv.getMesh exampleBigCaster.meshId).numIndices 1 0 0 0 ∈
      cascadeBody exampleEnv examplePipeline scenarioCamera ⟨0, -1, 0⟩ [exampleBigCaster]
        true 0 :=
  (C8_shadow_caster_filter examplePipeline [] exampleEnv scenarioCamera ⟨0, -1, 0⟩
    [exampleBigCaster] true).2.2 0 exampleBigCaster (List.mem_singleton.2 rfl) rfl rfl rfl
    (by simp [exampleEnv, exampleBigCaster])

/-- C9: for every input, the commands `CSMPipeline::draw` records are the opening
transition, then for each cascade `i` in order a pass made of begin-rendering on depth
view `i` with clear value 0 and the shadow-map extent, pipeline bind, viewport and
scissor of the shadow-map size, the commands of the draw loop, and end-rendering, then
the closing transition; the draw loop records neither begin- nor end-rendering, so there
are exactly `N` begin-renderings and `N` end-renderings; and a pass in which no command
passes the filter (in particular for an empty list, for a list without shadow caster, or
when shadowsEnabled is false) has nothing between its scissor and its end-rendering. -/
theorem C9_render_passes {N : Nat} (self : CSMPipeline N) (cmd : List Command)
    (env : Collaborators) (camera : Camera) (sun : Vec3) (dcs : List MeshDrawCommand)
    (shadowsEnabled : Bool) :
    (self.draw cmd env camera sun dcs shadowsEnabled).2 =
      cmd ++ (Command.transitionImage (env.getImage self.csmShadowMapID)
          ImageLayout.undefined ImageLayout.depthAttachmentOptimal ::
        ((List.finRange N).flatMap (fun i =>
          [Command.beginRendering (toUInt32 self.shadowMapTextureSize)
              (toUInt32 self.shadowMapTextureSize) (self.csmShadowMapViews i) 0,
            Command.bindPipeline self.pipeline,
            Command.setViewport 0 0 self.shadowMapTextureSize self.shadowMapTextureSize 0 1,
            Command.setScissor 0 0 (toUInt32 self.shadowMapTextureSize)
              (toUInt32 self.shadowMapTextureSize)]
            ++ cascadeBody env self camera sun dcs shadowsEnabled i
            ++ [Command.endRendering]) ++
        [Command.transitionImage (env.getImage self.csmShadowMapID)
          ImageLayout.depthAttachmentOptimal ImageLayout.depthReadOnlyOptimal])) ∧
    (∀ (i : Fin N), ∀ c ∈ cascadeBody env self camera sun dcs shadowsEnabled i,
      c.isBeginRendering = false ∧ c.isEndRendering = false) ∧
    ((self.draw cmd env camera sun dcs shadowsEnabled).2.drop cmd.length).countP
      Command.isBeginRendering = N ∧
    ((self.draw cmd env camera sun dcs shadowsEnabled).2.drop cmd.length).countP
      Command.isEndRendering = N ∧
    (∀ i : Fin N,
      (∀ dc ∈ dcs, passesShadowFilter env (cascadeFrustum env self camera sun i)
        shadowsEnabled dc = false) →
      cascadeBody env self camera sun dcs shadowsEnabled i = []) ∧
    ((dcs = [] ∨ shadowsEnabled = false ∨ ∀ dc ∈ dcs, dc.castShadow = false) →
      ∀ i : Fin N, cascadeBody env self camera sun dcs shadowsEnabled i = []) := by
  have hempty : ∀ i : Fin N,
      (∀ dc ∈ dcs, passesShadowFilter env (cascadeFrustum env self camera sun i)
        shadowsEnabled dc = false) →
      cascadeBody env self camera sun dcs shadowsEnabled i = [] :=
    fun i => (meshLoop_spec env _ i (cascadeFrustum env self camera sun i) shadowsEnabled dcs
      NULL_MESH_ID).2.2
  have hsnd := draw_snd self cmd env camera sun dcs shadowsEnabled
  refine ⟨hsnd, fun i c hc => ⟨(cascadeBody_kinds env self camera sun dcs shadowsEnabled i c hc).1,
    (cascadeBody_kinds env self camera sun dcs shadowsEnabled i c hc).2.1⟩, ?_, ?_, hempty, ?_⟩
  · rw [hsnd, List.drop_left, List.countP_cons, List.countP_append,
      countP_flatMap_one _ _ _
        (fun i => (cascadePass_counts env self camera sun dcs shadowsEnabled i).1)]
    simp [Command.isBeginRendering]
  · rw [hsnd, List.drop_left, List.countP_cons, List.countP_append,
      countP_flatMap_one _ _ _
        (fun i => (cascadePass_counts env self camera sun dcs shadowsEnabled i).2.1)]
    simp [Command.isEndRendering]
  · intro h i
    apply hempty
    intro dc hdc
    rcases h with h | h | h
    · rw [h] at hdc; simp at hdc
    · simp [passesShadowFilter, h]
    · simp [passesShadowFilter, h dc hdc]

/-- C9, on the example pipeline with shadows disabled: both passes are empty. -/
theorem C9_render_passes_witness :
    ∀ i : Fin 2, cascadeBody exampleEnv examplePipeline scenarioCamera ⟨0, -1, 0⟩
      [exampleBigCaster] false i = [] :=
  (C9_render_passes examplePipeline [] exampleEnv scenarioCamera ⟨0, -1, 0⟩
    [exampleBigCaster] false).2.2.2.2.2 (Or.inr (Or.inl rfl))

/-- The layout of an image after a command stream that ends with a transition of that
image. -/
theorem layoutAfter_append_transition (image : Nat) (a b : ImageLayout) (l : List Command) :
    ∀ current, layoutAfter image current (l ++ [Command.transitionImage image a b]) = b := by
  induction l with
  | nil => intro current; simp [layoutAfter]
  | cons c l ih =>
    intro current
    cases c <;> simp [layoutAfter, ih]

/-- A command that is no image transition is no transition into the read-only layout. -/
theorem isTransitionToReadOnly_of_not_transition (c : Command)
    (h : c.isTransitionImage = false) : c.isTransitionToReadOnly = false := by
  cases c <;> simp_all [Command.isTransitionImage, Command.isTransitionToReadOnly]

/-- C10: for every input, the first command `CSMPipeline::draw` records is the transition
of the shadow-map image from the undefined layout to the depth-attachment layout and the
last one is its transition from depth-attachment to depth-read-only; no image transition
is recorded between them, so the stream holds exactly one transition into the read-only
layout; all `N` end-renderings come before it; and the layout of the shadow map after the
recorded stream is depth-read-only, whatever it was before. -/
theorem C10_layout_transitions {N : Nat} (self : CSMPipeline N) (cmd : List Command)
    (env : Collaborators) (camera : Camera) (sun : Vec3) (dcs : List MeshDrawCommand)
    (shadowsEnabled : Bool) :
    ∃ mid : List Command,
      (self.draw cmd env camera sun dcs shadowsEnabled).2 =
        cmd ++ (Command.transitionImage (env.getImage self.csmShadowMapID)
            ImageLayout.undefined ImageLayout.depthAttachmentOptimal ::
          (mid ++ [Command.transitionImage (env.getImage self.csmShadowMapID)
            ImageLayout.depthAttachmentOptimal ImageLayout.depthReadOnlyOptimal])) ∧
      (∀ c ∈ mid, c.isTransitionImage = false) ∧
      mid.countP Command.isEndRendering = N ∧
      ((self.draw cmd env camera sun dcs shadowsEnabled).2.drop cmd.length).countP
        Command.isEndRendering = N ∧
      ((self.draw cmd env camera sun dcs shadowsEnabled).2.drop cmd.length).countP
        Command.isTransitionToReadOnly = 1 ∧
      ∀ current, layoutAfter (env.getImage self.csmShadowMapID) current
        ((self.draw cmd env camera sun dcs shadowsEnabled).2.drop cmd.length)
          = ImageLayout.depthReadOnlyOptimal := by
  have hsnd := draw_snd self cmd env camera sun dcs shadowsEnabled
  have hmid : ∀ c ∈ (List.finRange N).flatMap (fun i =>
      cascadePassHeader self i ++ cascadeBody env self camera sun dcs shadowsEnabled i
        ++ [Command.endRendering]), c.isTransitionImage = false := by
    intro c hc
    obtain ⟨i, _, hci⟩ := List.mem_flatMap.1 hc
    exact (cascadePass_counts env self camera sun dcs shadowsEnabled i).2.2 c hci
  have hend : ((List.finRange N).flatMap (fun i =>
      cascadePassHeader self i ++ cascadeBody env self camera sun dcs shadowsEnabled i
        ++ [Command.endRendering])).countP Command.isEndRendering = N := by
    rw [countP_flatMap_one _ _ _
      (fun i => (cascadePass_counts env self camera sun dcs shadowsEnabled i).2.1)]
    simp
  have hro : ((List.finRange N).flatMap (fun i =>
      cascadePassHeader self i ++ cascadeBody env self camera sun dcs shadowsEnabled i
        ++ [Command.endRendering])).countP Command.isTransitionToReadOnly = 0 :=
    List.countP_eq_zero.2 (fun c hc => by
      simp [isTransitionToReadOnly_of_not_transition c (hmid c hc)])
  refine ⟨_, hsnd, hmid, hend, ?_, ?_, ?_⟩
  · rw [hsnd, List.drop_left, List.countP_cons, List.countP_append, hend]
    simp [Command.isEndRendering]
  · rw [hsnd, List.drop_left, List.countP_cons, List.countP_append, hro]
    simp [Command.isTransitionToReadOnly]
  · intro current
    rw [hsnd, List.drop_left, ← List.cons_append]
    exact layoutAfter_append_transition _ _ _ _ _

/-! ## Consecutive cascades (C13) -/

/-- C13: for every camera with `0 < zNear ≤ zFar` and percentages in (0,1], for every
cascade index `i ≥ 1` the near plane of cascade `i` is at most the far plane of cascade
`i - 1`, which is also the value `CSMPipeline::draw` stores in `cascadeFarPlaneZs[i-1]`. -/
theorem C13_no_gap_between_cascades {N : Nat} (self : CSMPipeline N) (cmd : List Command)
    (env : Collaborators) (camera : Camera) (sun : Vec3) (dcs : List MeshDrawCommand)
    (shadowsEnabled : Bool) (i : Fin N)
    (_h0 : 0 < camera.zNear) (h1 : camera.zNear ≤ camera.zFar)
    (hp : ∀ j, 0 < self.percents j ∧ self.percents j ≤ 1) (hi : 1 ≤ i.val) :
    cascadeZNear camera self.percents i
      ≤ cascadeZFar camera self.percents ⟨i.val - 1, by omega⟩ ∧
    cascadeZNear camera self.percents i
      ≤ (self.draw cmd env camera sun dcs shadowsEnabled).1.cascadeFarPlaneZs
          ⟨i.val - 1, by omega⟩ := by
  have hne : ¬ i.val = 0 := by omega
  have hle : cascadeZNear camera self.percents i
      ≤ cascadeZFar camera self.percents ⟨i.val - 1, by omega⟩ := by
    unfold cascadeZNear cascadeZFar
    rw [if_neg hne]
    exact mul_le_mul_of_nonneg_right h1 (le_of_lt (hp _).1)
  refine ⟨hle, ?_⟩
  rw [draw_fst]
  exact hle

/-- C13, on the example pipeline (percentages 0.5 and 1) with `zNear = 0.1`,
`zFar = 100`, cascade 1. -/
theorem C13_no_gap_between_cascades_witness :
    0 < scenarioCamera.zNear ∧ scenarioCamera.zNear ≤ scenarioCamera.zFar ∧
    cascadeZNear scenarioCamera examplePipeline.percents 1
      ≤ cascadeZFar scenarioCamera examplePipeline.percents ⟨(1 : Fin 2).val - 1, by omega⟩ :=
  ⟨by norm_num [scenarioCamera], by norm_num [scenarioCamera],
    (C13_no_gap_between_cascades examplePipeline [] exampleEnv scenarioCamera ⟨0, -1, 0⟩ []
      true 1 (by norm_num [scenarioCamera]) (by norm_num [scenarioCamera])
      (by intro j; fin_cases j <;> norm_num [examplePipeline])
      (by decide)).1⟩

/-! ## The frame effect of an upload (C14) -/

/-- The handles of the buffers the staging-buffer loop appends are the next `n` free
handles, in order. -/
theorem createStagingBuffers_handles (usage dataSize : Nat) :
    ∀ (n : Nat) (st : List GPUBuffer × Allocator),
      (createStagingBuffers usage dataSize n st).1.map (fun b => b.buffer) =
        st.1.map (fun b => b.buffer) ++ List.range' st.2.nextHandle n := by
  intro n
  induction n with
  | zero => intro st; simp [createStagingBuffers]
  | succ n ih =>
    intro st
    have hstep : createStagingBuffers usage dataSize (n + 1) st =
        createStagingBuffers usage dataSize n
          (st.1 ++ [(createBuffer st.2 dataSize (usage ||| VK_BUFFER_USAGE_TRANSFER_SRC_BIT)
              MemoryUsage.autoPreferHost).1],
            (createBuffer st.2 dataSize (usage ||| VK_BUFFER_USAGE_TRANSFER_SRC_BIT)
              MemoryUsage.autoPreferHost).2) := rfl
    rw [hstep, ih]
    simp [createBuffer, List.range'_succ]

/-- `init` on an object without staging buffers hands out pairwise different buffers. -/
theorem init_exclusiveHandles (self : NBuffer) (allocator : Allocator) (usage dataSize
    numFramesInFlight : Nat) (hs : self.stagingBuffers = []) (hN : 0 < numFramesInFlight)
    (hC : 0 < dataSize) :
    (self.init allocator usage dataSize numFramesInFlight).self.ExclusiveHandles := by
  have hN' : ¬ ¬ (numFramesInFlight > 0) := not_not.2 hN
  have hC' : ¬ ¬ (dataSize > 0) := not_not.2 hC
  have hh := createStagingBuffers_handles usage dataSize numFramesInFlight
    (([] : List GPUBuffer),
      (createBuffer allocator dataSize (usage ||| VK_BUFFER_USAGE_TRANSFER_DST_BIT)
        MemoryUsage.autoPreferDevice).2)
  simp only [NBuffer.init, if_neg hN', if_neg hC', hs, NBuffer.ExclusiveHandles]
  rw [hh]
  simp [createBuffer, List.nodup_range']

/-- C14: for every initialised `NBuffer` (one staging buffer per frame, pairwise different
buffers) and every accepted call `uploadNewData(cmd, f, data, S)`, the object itself, and
so `framesInFlight`, `gpuBufferSize` and `initialized`, is unchanged; the call changes
the contents of no buffer other than `stagingBuffers[f]`, in particular of no staging
buffer `g ≠ f`; every buffer copy it records reads from `stagingBuffers[f]` and writes to
the GPU buffer; and executing the recorded commands still leaves every staging buffer
`g ≠ f` with its contents. -/
theorem C14_upload_frame_effect (self : NBuffer) (memory : Memory) (cmd : List Command)
    (frameIndex : Nat) (newData : List Byte) (dataSize : Nat)
    (hI : self.Initialised memory) (hE : self.ExclusiveHandles)
    (hf : frameIndex < self.framesInFlight)
    (hS : dataSize ≤ self.gpuBufferSize) (hd : dataSize ≤ newData.length) :
    (self.uploadNewData memory cmd frameIndex newData dataSize).failure = none ∧
    (self.uploadNewData memory cmd frameIndex newData dataSize).self = self ∧
    ∃ staging, self.stagingBuffers[frameIndex]? = some staging ∧
      (∀ h, h ≠ staging.buffer →
        (self.uploadNewData memory cmd frameIndex newData dataSize).memory h = memory h) ∧
      (∀ g b, g ≠ frameIndex → self.stagingBuffers[g]? = some b →
        (self.uploadNewData memory cmd frameIndex newData dataSize).memory b.buffer
          = memory b.buffer) ∧
      (∀ srcBuffer dstBuffer srcOffset dstOffset size,
        Command.copyBuffer2 srcBuffer dstBuffer srcOffset dstOffset size ∈
          (self.uploadNewData memory cmd frameIndex newData dataSize).cmd.drop cmd.length →
        srcBuffer = staging.buffer ∧ dstBuffer = self.gpuBuffer.buffer) ∧
      ∃ memory1,
        executeCommands (self.uploadNewData memory cmd frameIndex newData dataSize).memory
          ((self.uploadNewData memory cmd frameIndex newData dataSize).cmd.drop cmd.length)
          = some memory1 ∧
        ∀ g b, g ≠ frameIndex → self.stagingBuffers[g]? = some b →
          memory1 b.buffer = memory b.buffer := by
  obtain ⟨staging, old, hget, hold, holdlen, hrun⟩ :=
    uploadNewData_accepted self memory cmd frameIndex newData dataSize hI hf hS hd
  obtain ⟨_, hlen, ⟨before, hbefore, hbeforelen⟩, _⟩ := hI
  obtain ⟨hnodup, hgpu⟩ := hE
  have hother : ∀ g b, g ≠ frameIndex → self.stagingBuffers[g]? = some b →
      b.buffer ≠ staging.buffer ∧ b.buffer ≠ self.gpuBuffer.buffer := by
    intro g b hg hb
    have hgl : g < self.stagingBuffers.length := (List.getElem?_eq_some_iff.1 hb).1
    have hfl : frameIndex < self.stagingBuffers.length :=
      (List.getElem?_eq_some_iff.1 hget).1
    have hbe : self.stagingBuffers[g] = b := (List.getElem?_eq_some_iff.1 hb).2
    have hse : self.stagingBuffers[frameIndex] = staging :=
      (List.getElem?_eq_some_iff.1 hget).2
    constructor
    · intro heq
      have hinj := (List.nodup_iff_injective_get.1 hnodup)
      have hgm : g < (self.stagingBuffers.map (fun b => b.buffer)).length := by simpa using hgl
      have hfm : frameIndex < (self.stagingBuffers.map (fun b => b.buffer)).length := by
        simpa using hfl
      have := @hinj ⟨g, hgm⟩ ⟨frameIndex, hfm⟩ (by simp [hbe, hse, heq])
      exact hg (Fin.mk.inj_iff.1 this)
    · intro heq
      apply hgpu
      rw [← heq]
      exact List.mem_map.2 ⟨b, by rw [← hbe]; exact List.getElem_mem hgl, rfl⟩
  have hsg : staging.buffer ≠ self.gpuBuffer.buffer := by
    intro heq
    apply hgpu
    rw [← heq]
    have hfl : frameIndex < self.stagingBuffers.length :=
      (List.getElem?_eq_some_iff.1 hget).1
    have hse : self.stagingBuffers[frameIndex] = staging :=
      (List.getElem?_eq_some_iff.1 hget).2
    exact List.mem_map.2 ⟨staging, by rw [← hse]; exact List.getElem_mem hfl, rfl⟩
  rw [hrun]
  refine ⟨rfl, rfl, staging, hget, ?_, ?_, ?_, ?_⟩
  · intro h hh
    exact Function.update_noteq hh _ _
  · intro g b hg hb
    exact Function.update_noteq (hother g b hg hb).1 _ _
  · intro srcBuffer dstBuffer srcOffset dstOffset size hmem
    dsimp only at hmem
    rw [List.drop_left] at hmem
    simp at hmem
    exact ⟨hmem.1, hmem.2.1⟩
  · dsimp only
    rw [List.drop_left]
    refine ⟨_, executeCommands_upload _ _ _ _ _ before _ _ (Function.update_same _ _ _)
      (by rw [Function.update_noteq hsg.symm]; exact hbefore) (by simp; omega) (by omega), ?_⟩
    intro g b hg hb
    rw [Function.update_noteq (hother g b hg hb).2, Function.update_noteq (hother g b hg hb).1]

/-- C14, on the buffer of capacity 4 with 2 frames: an upload for frame 0. -/
theorem C14_upload_frame_effect_witness :
    exampleNBuffer.Initialised exampleMemory ∧ exampleNBuffer.ExclusiveHandles ∧
    0 < exampleNBuffer.framesInFlight ∧ 2 ≤ exampleNBuffer.gpuBufferSize ∧
    (exampleNBuffer.uploadNewData exampleMemory [] 0 [7, 8] 2).self = exampleNBuffer :=
  ⟨(init_initialised NBuffer.default exampleAllocator 0 4 2 rfl (by decide) (by decide)).2.2.2,
    init_exclusiveHandles NBuffer.default exampleAllocator 0 4 2 rfl (by decide) (by decide),
    by decide, by decide,
    (C14_upload_frame_effect exampleNBuffer exampleMemory [] 0 [7, 8] 2
      (init_initialised NBuffer.default exampleAllocator 0 4 2 rfl (by decide) (by decide)).2.2.2
      (init_exclusiveHandles NBuffer.default exampleAllocator 0 4 2 rfl (by decide) (by decide))
      (by decide) (by decide) (by decide)).2.1⟩

/-! ## Mesh batching inside a cascade pass (C15, C16) -/

/-- The `prevMeshId` after one iteration of the loop over the draw commands: the mesh of
the command when it is drawn, the old value when it is skipped. -/
theorem drawMeshCommand_prev {N : Nat} (env : Collaborators) (self : CSMPipeline N)
    (i : Fin N) (frustum : env.Frustum) (b : Bool) (p : Nat) (dc : MeshDrawCommand) :
    (drawMeshCommand env self i frustum b { cmd := [], prevMeshId := p } dc).prevMeshId =
      if passesShadowFilter env frustum b dc then dc.meshId else p := by
  unfold drawMeshCommand passesShadowFilter
  cases b <;> cases hcs : dc.castShadow <;>
    cases hin : env.isInFrustum frustum dc.worldBoundingSphere <;>
    cases hr : dc.worldBoundingSphere.radius.lt (FloatValue.finite 2) <;>
    by_cases hm : dc.meshId = p <;>
    simp [hm]

/-- The loop over the draw commands records the batches of the drawn commands. -/
theorem meshLoop_batches {N : Nat} (env : Collaborators) (self : CSMPipeline N)
    (i : Fin N) (frustum : env.Frustum) (b : Bool) (dcs : List MeshDrawCommand) :
    ∀ p : Nat,
      (dcs.foldl (drawMeshCommand env self i frustum b) { cmd := [], prevMeshId := p }).cmd =
        drawBatches env self.pipelineLayout (self.csmLightSpaceTMs i) p
          (dcs.filter (passesShadowFilter env frustum b)) := by
  induction dcs with
  | nil => intro p; simp [drawBatches]
  | cons dc dcs ih =>
    intro p
    have happ : (dcs.foldl (drawMeshCommand env self i frustum b)
          (drawMeshCommand env self i frustum b { cmd := [], prevMeshId := p } dc)).cmd =
        (drawMeshCommand env self i frustum b { cmd := [], prevMeshId := p } dc).cmd ++
          (dcs.foldl (drawMeshCommand env self i frustum b)
            { cmd := [],
              prevMeshId := (drawMeshCommand env self i frustum b
                { cmd := [], prevMeshId := p } dc).prevMeshId }).cmd :=
      foldl_drawMeshCommand_append env self i frustum b dcs _ _
    rw [List.foldl_cons, happ, drawMeshCommand_cmd, drawMeshCommand_prev, ih]
    by_cases hp : passesShadowFilter env frustum b dc = true
    · simp [hp, List.filter_cons, drawBatches]
    · simp [hp, List.filter_cons]

/-- The commands of the draw loop of cascade `i` are the batches of the commands drawn in
that cascade, starting from `prevMeshId = NULL_MESH_ID`, with the light-space matrix of
the cascade. -/
theorem cascadeBody_eq_batches {N : Nat} (env : Collaborators) (self : CSMPipeline N)
    (camera : Camera) (sun : Vec3) (dcs : List MeshDrawCommand) (b : Bool) (i : Fin N) :
    cascadeBody env self camera sun dcs b i =
      drawBatches env self.pipelineLayout
        (env.getViewProj (cascadeCSMCamera env self camera sun i)) NULL_MESH_ID
        (drawnCommands env self camera sun dcs b i) := by
  unfold cascadeBody drawnCommands
  rw [meshLoop_batches]
  simp

/-- A non-empty list has at least one run. -/
theorem runCount_pos : ∀ (l : List Nat) (a : Nat), 1 ≤ runCount (a :: l) := by
  intro l
  induction l with
  | nil => intro a; simp [runCount]
  | cons b l ih =>
    intro a
    have := ih b
    simp only [runCount]
    omega

/-- The index-buffer binds among the batches: one per change of mesh ID along the
sequence that starts with the previously bound mesh. -/
theorem countP_bind_drawBatches (env : Collaborators) (pipelineLayout : Nat)
    (lightSpaceTM : Mat4) (l : List MeshDrawCommand) :
    ∀ prev : Nat,
      (drawBatches env pipelineLayout lightSpaceTM prev l).countP Command.isBindIndexBuffer
        = runCount (prev :: l.map (fun dc => dc.meshId)) - 1 := by
  induction l with
  | nil => intro prev; simp [drawBatches, runCount]
  | cons dc l ih =>
    intro prev
    have hpos : 1 ≤ runCount (dc.meshId :: l.map (fun dc => dc.meshId)) := runCount_pos _ _
    simp only [drawBatches, List.countP_append, ih, List.map_cons, runCount]
    by_cases hm : dc.meshId = prev
    · have hm2 : prev = dc.meshId := hm.symm
      simp [hm2, List.countP_cons, Command.isBindIndexBuffer]
    · have hm2 : ¬ prev = dc.meshId := fun h => hm h.symm
      simp [hm, hm2, List.countP_cons, Command.isBindIndexBuffer]
      omega

/-- C15, counterexample: with shadows enabled and the single shadow caster of radius 2
whose mesh ID is `NULL_MESH_ID`, cascade 0 of the example pipeline draws that command
(one maximal run of mesh IDs) and records an indexed draw but no index-buffer bind. -/
theorem C15_counterexample :
    drawnCommands exampleEnv examplePipeline scenarioCamera ⟨0, -1, 0⟩
        [exampleNullMeshCaster] true 0 = [exampleNullMeshCaster] ∧
    runCount ((drawnCommands exampleEnv examplePipeline scenarioCamera ⟨0, -1, 0⟩
        [exampleNullMeshCaster] true 0).map (fun dc => dc.meshId)) = 1 ∧
    (cascadeBody exampleEnv examplePipeline scenarioCamera ⟨0, -1, 0⟩
        [exampleNullMeshCaster] true 0).countP Command.isBindIndexBuffer = 0 ∧
    (cascadeBody exampleEnv examplePipeline scenarioCamera ⟨0, -1, 0⟩
        [exampleNullMeshCaster] true 0).countP Command.isDrawIndexed = 1 := by
  have hd : drawnCommands exampleEnv examplePipeline scenarioCamera ⟨0, -1, 0⟩
      [exampleNullMeshCaster] true 0 = [exampleNullMeshCaster] := by
    simp [drawnCommands, passesShadowFilter, exampleNullMeshCaster, exampleEnv,
      List.filter_cons]
  refine ⟨hd, ?_, ?_, ?_⟩
  · rw [hd]; rfl
  · rw [cascadeBody_eq_batches, hd]
    simp [drawBatches, exampleNullMeshCaster, List.countP_cons, Command.isBindIndexBuffer]
  · rw [cascadeBody_eq_batches, hd]
    simp [drawBatches, exampleNullMeshCaster, List.countP_cons, Command.isDrawIndexed]

/-- C15, amended: within the pass of every cascade `i`, the draw loop records the batches
of the commands drawn in that cascade (for each drawn command an index-buffer bind
exactly when its mesh ID differs from that of the previously drawn command, the first
drawn command being compared with `NULL_MESH_ID`, then its push constants and draw), and
nothing for skipped commands; so the number of binds is the number of changes of mesh ID
along `NULL_MESH_ID` followed by the drawn mesh IDs, which is the number of maximal runs
of the drawn mesh IDs whenever the first drawn command's mesh ID is not `NULL_MESH_ID`. -/
theorem C15_index_buffer_binds {N : Nat} (self : CSMPipeline N) (cmd : List Command)
    (env : Collaborators) (camera : Camera) (sun : Vec3) (dcs : List MeshDrawCommand)
    (shadowsEnabled : Bool) (i : Fin N) :
    (self.draw cmd env camera sun dcs shadowsEnabled).2 =
      cmd ++ (Command.transitionImage (env.getImage self.csmShadowMapID)
          ImageLayout.undefined ImageLayout.depthAttachmentOptimal ::
        ((List.finRange N).flatMap (fun j =>
          cascadePassHeader self j ++ cascadeBody env self camera sun dcs shadowsEnabled j
            ++ [Command.endRendering]) ++
        [Command.transitionImage (env.getImage self.csmShadowMapID)
          ImageLayout.depthAttachmentOptimal ImageLayout.depthReadOnlyOptimal])) ∧
    cascadeBody env self camera sun dcs shadowsEnabled i =
      drawBatches env self.pipelineLayout
        ((self.draw cmd env camera sun dcs shadowsEnabled).1.csmLightSpaceTMs i) NULL_MESH_ID
        (drawnCommands env self camera sun dcs shadowsEnabled i) ∧
    (cascadeBody env self camera sun dcs shadowsEnabled i).countP Command.isBindIndexBuffer =
      runCount (NULL_MESH_ID ::
        (drawnCommands env self camera sun dcs shadowsEnabled i).map (fun dc => dc.meshId)) - 1 ∧
    ((∀ dc, (drawnCommands env self camera sun dcs shadowsEnabled i).head? = some dc →
        dc.meshId ≠ NULL_MESH_ID) →
      (cascadeBody env self camera sun dcs shadowsEnabled i).countP Command.isBindIndexBuffer =
        runCount ((drawnCommands env self camera sun dcs shadowsEnabled i).map
          (fun dc => dc.meshId))) := by
  have hb := cascadeBody_eq_batches env self camera sun dcs shadowsEnabled i
  have hc : (cascadeBody env self camera sun dcs shadowsEnabled i).countP
      Command.isBindIndexBuffer =
      runCount (NULL_MESH_ID ::
        (drawnCommands env self camera sun dcs shadowsEnabled i).map (fun dc => dc.meshId)) - 1 := by
    rw [hb]
    exact countP_bind_drawBatches _ _ _ _ _
  refine ⟨draw_snd self cmd env camera sun dcs shadowsEnabled, ?_, hc, ?_⟩
  · rw [draw_fst]
    exact hb
  · intro hfirst
    rw [hc]
    cases hl : drawnCommands env self camera sun dcs shadowsEnabled i with
    | nil => simp [runCount]
    | cons dc rest =>
      have hne : ¬ NULL_MESH_ID = dc.meshId := fun h => hfirst dc (by rw [hl]; rfl) h.symm
      simp only [List.map_cons, runCount, if_neg hne]
      omega

/-- C15, amended, on the example draw list (meshes 5, 9, 5, 6 with the second command
casting no shadow): cascade 0 records two binds for the two runs 5, 5 and 6. -/
theorem C15_index_buffer_binds_witness :
    (cascadeBody exampleEnv examplePipeline scenarioCamera ⟨0, -1, 0⟩ exampleDrawList
        true 0).countP Command.isBindIndexBuffer =
      runCount ((drawnCommands exampleEnv examplePipeline scenarioCamera ⟨0, -1, 0⟩
        exampleDrawList true 0).map (fun dc => dc.meshId)) :=
  (C15_index_buffer_binds examplePipeline [] exampleEnv scenarioCamera ⟨0, -1, 0⟩
    exampleDrawList true 0).2.2.2 (by
      intro dc hdc
      have hd : drawnCommands exampleEnv examplePipeline scenarioCamera ⟨0, -1, 0⟩
          exampleDrawList true 0 =
          [exampleSkinnedCaster, exampleBigCaster, exampleOtherCaster] := by
        simp [drawnCommands, passesShadowFilter, exampleDrawList, exampleSkinnedCaster,
          exampleNonCaster, exampleBigCaster, exampleOtherCaster, exampleEnv, List.filter_cons,
          FloatValue.lt]
      rw [hd] at hdc
      simp at hdc
      rw [← hdc]
      simp [exampleSkinnedCaster, NULL_MESH_ID])

/-- The batches without their index-buffer binds: push constants and draw of each
drawn command, in order. -/
theorem filter_not_bind_drawBatches (env : Collaborators) (pipelineLayout : Nat)
    (lightSpaceTM : Mat4) (l : List MeshDrawCommand) :
    ∀ prev : Nat,
      (drawBatches env pipelineLayout lightSpaceTM prev l).filter
          (fun c => !c.isBindIndexBuffer) =
        l.flatMap (fun dc =>
          [Command.pushConstants pipelineLayout (lightSpaceTM * dc.transformMatrix)
              (match dc.skinnedMesh with
                | some sm => sm.skinnedVertexBuffer.address
                | none => (env.getMesh dc.meshId).vertexBuffer.address),
            Command.drawIndexed (env.getMesh dc.meshId).numIndices 1 0 0 0]) := by
  induction l with
  | nil => intro prev; simp [drawBatches]
  | cons dc l ih =>
    intro prev
    simp only [drawBatches, List.filter_append, ih, List.flatMap_cons]
    by_cases hm : dc.meshId = prev <;>
      simp [hm, List.filter_cons, Command.isBindIndexBuffer]

/-- In the batches, the push constants of every drawn command are immediately followed
by its indexed draw. -/
theorem infix_drawBatches (env : Collaborators) (pipelineLayout : Nat)
    (lightSpaceTM : Mat4) (l : List MeshDrawCommand) :
    ∀ prev : Nat, ∀ dc ∈ l,
      [Command.pushConstants pipelineLayout (lightSpaceTM * dc.transformMatrix)
          (match dc.skinnedMesh with
            | some sm => sm.skinnedVertexBuffer.address
            | none => (env.getMesh dc.meshId).vertexBuffer.address),
        Command.drawIndexed (env.getMesh dc.meshId).numIndices 1 0 0 0]
        <:+: drawBatches env pipelineLayout lightSpaceTM prev l := by
  induction l with
  | nil => intro prev dc hdc; simp at hdc
  | cons d l ih =>
    intro prev dc hdc
    rcases List.mem_cons.1 hdc with h | h
    · subst h
      exact ⟨(if dc.meshId ≠ prev then
          [Command.bindIndexBuffer (env.getMesh dc.meshId).indexBuffer.buffer 0] else []),
        drawBatches env pipelineLayout lightSpaceTM dc.meshId l, by
        simp only [drawBatches]⟩
    · obtain ⟨s, t, hst⟩ := ih d.meshId dc h
      refine ⟨(if d.meshId ≠ prev then
          [Command.bindIndexBuffer (env.getMesh d.meshId).indexBuffer.buffer 0] else []) ++
        [Command.pushConstants pipelineLayout (lightSpaceTM * d.transformMatrix)
            (match d.skinnedMesh with
              | some sm => sm.skinnedVertexBuffer.address
              | none => (env.getMesh d.meshId).vertexBuffer.address),
          Command.drawIndexed (env.getMesh d.meshId).numIndices 1 0 0 0] ++ s, t, ?_⟩
      simp only [drawBatches, ← hst, List.append_assoc]

/-- C16: for every cascade `i`, the commands of its draw loop other than index-buffer
binds are, for each drawn command `dc` in order, the push constants with
`mvp = csmLightSpaceTMs[i] * dc.transformMatrix` and the vertex-buffer address of the
skinned vertex buffer when `dc.skinnedMesh` is present and of the mesh's vertex buffer
otherwise, and the indexed draw with the index count of mesh `dc.meshId`; and in the
recorded pass these push constants are immediately followed by that draw. -/
theorem C16_push_constants {N : Nat} (self : CSMPipeline N) (cmd : List Command)
    (env : Collaborators) (camera : Camera) (sun : Vec3) (dcs : List MeshDrawCommand)
    (shadowsEnabled : Bool) (i : Fin N) :
    (self.draw cmd env camera sun dcs shadowsEnabled).2 =
      cmd ++ (Command.transitionImage (env.getImage self.csmShadowMapID)
          ImageLayout.undefined ImageLayout.depthAttachmentOptimal ::
        ((List.finRange N).flatMap (fun j =>
          cascadePassHeader self j ++ cascadeBody env self camera sun dcs shadowsEnabled j
            ++ [Command.endRendering]) ++
        [Command.transitionImage (env.getImage self.csmShadowMapID)
          ImageLayout.depthAttachmentOptimal ImageLayout.depthReadOnlyOptimal])) ∧
    (cascadeBody env self camera sun dcs shadowsEnabled i).filter
        (fun c => !c.isBindIndexBuffer) =
      (drawnCommands env self camera sun dcs shadowsEnabled i).flatMap (fun dc =>
        [Command.pushConstants self.pipelineLayout
            ((self.draw cmd env camera sun dcs shadowsEnabled).1.csmLightSpaceTMs i
              * dc.transformMatrix)
            (match dc.skinnedMesh with
              | some sm => sm.skinnedVertexBuffer.address
              | none => (env.getMesh dc.meshId).vertexBuffer.address),
          Command.drawIndexed (env.getMesh dc.meshId).numIndices 1 0 0 0]) ∧
    ∀ dc ∈ drawnCommands env self camera sun dcs shadowsEnabled i,
      [Command.pushConstants self.pipelineLayout
          ((self.draw cmd env camera sun dcs shadowsEnabled).1.csmLightSpaceTMs i
            * dc.transformMatrix)
          (match dc.skinnedMesh with
            | some sm => sm.skinnedVertexBuffer.address
            | none => (env.getMesh dc.meshId).vertexBuffer.address),
        Command.drawIndexed (env.getMesh dc.meshId).numIndices 1 0 0 0]
        <:+: cascadeBody env self camera sun dcs shadowsEnabled i := by
  have hb := cascadeBody_eq_batches env self camera sun dcs shadowsEnabled i
  have htm : (self.draw cmd env camera sun dcs shadowsEnabled).1.csmLightSpaceTMs i =
      env.getViewProj (cascadeCSMCamera env self camera sun i) := by
    rw [draw_fst]
  refine ⟨draw_snd self cmd env camera sun dcs shadowsEnabled, ?_, ?_⟩
  · rw [hb, htm]
    exact filter_not_bind_drawBatches _ _ _ _ _
  · intro dc hdc
    rw [hb, htm]
    exact infix_drawBatches _ _ _ _ _ dc hdc

/-- C16, on the example draw list: the skinned caster is drawn in cascade 0 with its
skinned vertex buffer address 77 and the index count 18 of mesh 5. -/
theorem C16_push_constants_witness :
    [Command.pushConstants examplePipeline.pipelineLayout
        ((examplePipeline.draw [] exampleEnv scenarioCamera ⟨0, -1, 0⟩ exampleDrawList
          true).1.csmLightSpaceTMs 0 * exampleSkinnedCaster.transformMatrix) 77,
      Command.drawIndexed 18 1 0 0 0]
      <:+: cascadeBody exampleEnv examplePipeline scenarioCamera ⟨0, -1, 0⟩ exampleDrawList
        true 0 :=
  (C16_push_constants examplePipeline [] exampleEnv scenarioCamera ⟨0, -1, 0⟩
    exampleDrawList true 0).2.2 exampleSkinnedCaster (by
      simp [drawnCommands, passesShadowFilter, exampleDrawList, exampleSkinnedCaster,
        exampleNonCaster, exampleBigCaster, exampleOtherCaster, exampleEnv, List.filter_cons])

/-! ## SkyboxPipeline::draw (C17) -/

/-- C17: `SkyboxPipeline::draw` leaves the command buffer as it is when the current
skybox image ID is `NULL_IMAGE_ID`, for instance after `setSkyboxImage(NULL_IMAGE_ID)`;
for every other ID set by `setSkyboxImage` it appends exactly four commands, in this
order: the pipeline bind, the bindless descriptor-set bind, the push constants carrying
`(std::uint32_t)` of that ID, which is the ID itself for every ID below 2^32, and a draw
of 3 vertices. -/
theorem C17_skybox_draw (self : SkyboxPipeline) (cmd : List Command)
    (env : SkyboxCollaborators) (camera : Camera) :
    (self.skyboxTextureId = env.NULL_IMAGE_ID → self.draw cmd env camera = cmd) ∧
    (self.setSkyboxImage env.NULL_IMAGE_ID).draw cmd env camera = cmd ∧
    (∀ skyboxId, skyboxId ≠ env.NULL_IMAGE_ID →
      (self.setSkyboxImage skyboxId).draw cmd env camera =
        cmd ++ [Command.bindPipeline self.pipeline,
          Command.bindBindlessDescSet self.pipelineLayout,
          Command.pushSkyboxConstants self.pipelineLayout
            (env.inverse (env.getViewProj camera))
            (camera.position.x, camera.position.y, camera.position.z, 1)
            (skyboxId % 2 ^ 32),
          Command.draw 3 1 0 0]) ∧
    (∀ skyboxId, skyboxId ≠ env.NULL_IMAGE_ID → skyboxId < 2 ^ 32 →
      (self.setSkyboxImage skyboxId).draw cmd env camera =
        cmd ++ [Command.bindPipeline self.pipeline,
          Command.bindBindlessDescSet self.pipelineLayout,
          Command.pushSkyboxConstants self.pipelineLayout
            (env.inverse (env.getViewProj camera))
            (camera.position.x, camera.position.y, camera.position.z, 1)
            skyboxId,
          Command.draw 3 1 0 0]) := by
  have hdraw : ∀ skyboxId, skyboxId ≠ env.NULL_IMAGE_ID →
      (self.setSkyboxImage skyboxId).draw cmd env camera =
        cmd ++ [Command.bindPipeline self.pipeline,
          Command.bindBindlessDescSet self.pipelineLayout,
          Command.pushSkyboxConstants self.pipelineLayout
            (env.inverse (env.getViewProj camera))
            (camera.position.x, camera.position.y, camera.position.z, 1)
            (skyboxId % 2 ^ 32),
          Command.draw 3 1 0 0] := by
    intro skyboxId hne
    simp [SkyboxPipeline.draw, SkyboxPipeline.setSkyboxImage, bindBindlessDescSet, hne]
  refine ⟨?_, ?_, hdraw, ?_⟩
  · intro h
    simp [SkyboxPipeline.draw, h]
  · simp [SkyboxPipeline.draw, SkyboxPipeline.setSkyboxImage]
  · intro skyboxId hne hlt
    rw [hdraw skyboxId hne, Nat.mod_eq_of_lt hlt]

/-- C17, on the example pipeline: setting image 12 and drawing records the four
commands with ID 12. -/
theorem C17_skybox_draw_witness :
    (12 : Nat) ≠ exampleSkyboxEnv.NULL_IMAGE_ID ∧ (12 : Nat) < 2 ^ 32 ∧
    (exampleSkybox.setSkyboxImage 12).draw [] exampleSkyboxEnv scenarioCamera =
      [] ++ [Command.bindPipeline exampleSkybox.pipeline,
        Command.bindBindlessDescSet exampleSkybox.pipelineLayout,
        Command.pushSkyboxConstants exampleSkybox.pipelineLayout
          (exampleSkyboxEnv.inverse (exampleSkyboxEnv.getViewProj scenarioCamera))
          (scenarioCamera.position.x, scenarioCamera.position.y, scenarioCamera.position.z, 1)
          12,
        Command.draw 3 1 0 0] :=
  ⟨by decide, by decide,
    (C17_skybox_draw exampleSkybox [] exampleSkyboxEnv scenarioCamera).2.2.2 12
      (by decide) (by decide)⟩

/-! ## graphics::loadCubemap (C11, C12) -/

/-- On C `int`s the conversion to `std::uint32_t` is injective. -/
theorem int32ToUInt32_inj (a b : Int) (ha : isInt32 a) (hb : isInt32 b) :
    int32ToUInt32 a = int32ToUInt32 b ↔ a = b := by
  unfold isInt32 at ha hb
  unfold int32ToUInt32
  constructor
  · intro h
    omega
  · intro h
    rw [h]

/-- One iteration of the loop once the image exists, on a face with 4 channels and
non-null pixels: the size check decides between the upload and the failure. -/
theorem loadCubemapFace_created (loadImage : String → ImageData) (imagesDir : String)
    (st : CubemapState) (p : String) (hc : st.imageCreated = true)
    (hch : (loadImage (joinPath imagesDir p)).channels = 4)
    (hpx : (loadImage (joinPath imagesDir p)).pixels ≠ none) :
    loadCubemapFace loadImage imagesDir st p =
      if st.img.extent.width = int32ToUInt32 (loadImage (joinPath imagesDir p)).width ∧
          st.img.extent.height = int32ToUInt32 (loadImage (joinPath imagesDir p)).height then
        (none, uploadFace st (loadImage (joinPath imagesDir p)))
      else (some CubemapFailure.assertSameSize, st) := by
  unfold loadCubemapFace
  simp only [hch, hpx, hc, not_true_eq_false, if_false, Bool.true_eq_false]
  split_ifs <;> simp_all

/-- The loop once the image exists, on faces with 4 channels and non-null pixels: it
fails the equal-size assertion exactly when some remaining face differs in size from the
image, and it fails in no other way. -/
theorem loadCubemapLoop_created (loadImage : String → ImageData) (imagesDir : String)
    (rest : List String) :
    ∀ st : CubemapState, st.imageCreated = true →
      (∀ p ∈ rest, (loadImage (joinPath imagesDir p)).channels = 4 ∧
        (loadImage (joinPath imagesDir p)).pixels ≠ none) →
      ((loadCubemapLoop loadImage imagesDir rest st).1 = some CubemapFailure.assertSameSize ↔
        ∃ p ∈ rest,
          ¬ (st.img.extent.width = int32ToUInt32 (loadImage (joinPath imagesDir p)).width ∧
            st.img.extent.height = int32ToUInt32 (loadImage (joinPath imagesDir p)).height)) ∧
      ((loadCubemapLoop loadImage imagesDir rest st).1 = none ∨
        (loadCubemapLoop loadImage imagesDir rest st).1
          = some CubemapFailure.assertSameSize) := by
  induction rest with
  | nil => intro st _ _; simp [loadCubemapLoop]
  | cons p rest ih =>
    intro st hc hgood
    have hp := hgood p (List.mem_cons_self _ _)
    have hrest : ∀ q ∈ rest, (loadImage (joinPath imagesDir q)).channels = 4 ∧
        (loadImage (joinPath imagesDir q)).pixels ≠ none :=
      fun q hq => hgood q (List.mem_cons_of_mem _ hq)
    have hstep := loadCubemapFace_created loadImage imagesDir st p hc hp.1 hp.2
    by_cases hsame :
        st.img.extent.width = int32ToUInt32 (loadImage (joinPath imagesDir p)).width ∧
        st.img.extent.height = int32ToUInt32 (loadImage (joinPath imagesDir p)).height
    · rw [if_pos hsame] at hstep
      have hloop : loadCubemapLoop loadImage imagesDir (p :: rest) st =
          loadCubemapLoop loadImage imagesDir rest
            (uploadFace st (loadImage (joinPath imagesDir p))) := by
        simp only [loadCubemapLoop, hstep]
      obtain ⟨ih1, ih2⟩ := ih (uploadFace st (loadImage (joinPath imagesDir p))) hc hrest
      rw [hloop]
      refine ⟨?_, ih2⟩
      rw [ih1]
      constructor
      · rintro ⟨q, hq, hne⟩
        exact ⟨q, List.mem_cons_of_mem _ hq, hne⟩
      · rintro ⟨q, hq, hne⟩
        rcases List.mem_cons.1 hq with h | h
        · subst h
          exact absurd hsame hne
        · exact ⟨q, h, hne⟩
    · rw [if_neg hsame] at hstep
      have hloop : loadCubemapLoop loadImage imagesDir (p :: rest) st =
          (some CubemapFailure.assertSameSize, st) := by
        simp only [loadCubemapLoop, hstep]
      rw [hloop]
      exact ⟨⟨fun _ => ⟨p, List.mem_cons_self _ _, hsame⟩, fun _ => rfl⟩, Or.inr rfl⟩

/-- The failure of `loadCubemap` is the failure of its loop. -/
theorem loadCubemap_failure (renderer : Renderer) (loadImage : String → ImageData)
    (imagesDir : String) :
    (loadCubemap renderer loadImage imagesDir).failure =
      (loadCubemapLoop loadImage imagesDir cubemapPaths
        { img := AllocatedImage.default, face := 0, imageCreated := false,
          renderer := renderer }).1 := by
  unfold loadCubemap
  cases h : (loadCubemapLoop loadImage imagesDir cubemapPaths
      { img := AllocatedImage.default, face := 0, imageCreated := false,
        renderer := renderer }).1 <;> simp [h]

/-- The first iteration of the loop on a face with 4 channels and non-null pixels:
the image is created with the size of that face and the face is uploaded. -/
theorem loadCubemapFace_first (renderer : Renderer) (loadImage : String → ImageData)
    (imagesDir : String) (p : String)
    (hch : (loadImage (joinPath imagesDir p)).channels = 4)
    (hpx : (loadImage (joinPath imagesDir p)).pixels ≠ none) :
    loadCubemapFace loadImage imagesDir
        { img := AllocatedImage.default, face := 0, imageCreated := false,
          renderer := renderer } p =
      (none, cubemapStateAfterFirst renderer (loadImage (joinPath imagesDir p))) := by
  unfold loadCubemapFace
  simp [hch, hpx, Renderer.createImage, cubemapStateAfterFirst, cubemapImage,
    cubemapCreateInfo, uploadFace, Renderer.uploadImageData]

/-- C11: when the six decoded faces have 4 channels, non-null pixels and C `int` sizes,
`loadCubemap` fails its equal-size assertion if and only if one of left, top, bottom,
front, back has a width or a height different from that of right.jpg, and otherwise it
does not fail at all; in particular a top.jpg whose width differs from that of right.jpg
makes it fail. -/
theorem C11_cubemap_size_check (renderer : Renderer) (loadImage : String → ImageData)
    (imagesDir : String)
    (hgood : ∀ p ∈ cubemapPaths, (loadImage (joinPath imagesDir p)).channels = 4 ∧
      (loadImage (joinPath imagesDir p)).pixels ≠ none)
    (hint : ∀ p ∈ cubemapPaths, isInt32 (loadImage (joinPath imagesDir p)).width ∧
      isInt32 (loadImage (joinPath imagesDir p)).height) :
    ((loadCubemap renderer loadImage imagesDir).failure = some CubemapFailure.assertSameSize ↔
      ∃ p ∈ ["left.jpg", "top.jpg", "bottom.jpg", "front.jpg", "back.jpg"],
        (loadImage (joinPath imagesDir p)).width
            ≠ (loadImage (joinPath imagesDir "right.jpg")).width ∨
        (loadImage (joinPath imagesDir p)).height
            ≠ (loadImage (joinPath imagesDir "right.jpg")).height) ∧
    ((loadCubemap renderer loadImage imagesDir).failure = none ∨
      (loadCubemap renderer loadImage imagesDir).failure
        = some CubemapFailure.assertSameSize) ∧
    ((loadImage (joinPath imagesDir "top.jpg")).width
        ≠ (loadImage (joinPath imagesDir "right.jpg")).width →
      (loadCubemap renderer loadImage imagesDir).failure
        = some CubemapFailure.assertSameSize) := by
  have h0 := hgood "right.jpg" (by simp [cubemapPaths])
  have hi0 := hint "right.jpg" (by simp [cubemapPaths])
  have htail : ∀ p ∈ ["left.jpg", "top.jpg", "bottom.jpg", "front.jpg", "back.jpg"],
      p ∈ cubemapPaths := by
    intro p hp
    simp only [cubemapPaths]
    exact List.mem_cons_of_mem _ hp
  have hfirst := loadCubemapFace_first renderer loadImage imagesDir "right.jpg" h0.1 h0.2
  have hloop : loadCubemapLoop loadImage imagesDir cubemapPaths
      { img := AllocatedImage.default, face := 0, imageCreated := false,
        renderer := renderer } =
      loadCubemapLoop loadImage imagesDir
        ["left.jpg", "top.jpg", "bottom.jpg", "front.jpg", "back.jpg"]
        (cubemapStateAfterFirst renderer (loadImage (joinPath imagesDir "right.jpg"))) := by
    simp only [cubemapPaths, loadCubemapLoop, hfirst]
  obtain ⟨hiff, hor⟩ := loadCubemapLoop_created loadImage imagesDir
    ["left.jpg", "top.jpg", "bottom.jpg", "front.jpg", "back.jpg"]
    (cubemapStateAfterFirst renderer (loadImage (joinPath imagesDir "right.jpg")))
    rfl (fun p hp => hgood p (htail p hp))
  rw [loadCubemap_failure, hloop]
  have hmain : (loadCubemapLoop loadImage imagesDir
        ["left.jpg", "top.jpg", "bottom.jpg", "front.jpg", "back.jpg"]
        (cubemapStateAfterFirst renderer (loadImage (joinPath imagesDir "right.jpg")))).1
        = some CubemapFailure.assertSameSize ↔
      ∃ p ∈ ["left.jpg", "top.jpg", "bottom.jpg", "front.jpg", "back.jpg"],
        (loadImage (joinPath imagesDir p)).width
            ≠ (loadImage (joinPath imagesDir "right.jpg")).width ∨
        (loadImage (joinPath imagesDir p)).height
            ≠ (loadImage (joinPath imagesDir "right.jpg")).height := by
    rw [hiff]
    constructor
    · rintro ⟨p, hp, hne⟩
      refine ⟨p, hp, ?_⟩
      have hip := hint p (htail p hp)
      by_contra hcon
      push_neg at hcon
      apply hne
      simp only [cubemapStateAfterFirst, cubemapImage]
      rw [hcon.1, hcon.2]
      exact ⟨rfl, rfl⟩
    · rintro ⟨p, hp, hne⟩
      refine ⟨p, hp, ?_⟩
      have hip := hint p (htail p hp)
      simp only [cubemapStateAfterFirst, cubemapImage]
      intro hcon
      rcases hne with hw | hh
      · exact hw ((int32ToUInt32_inj _ _ hip.1 hi0.1).1 hcon.1.symm)
      · exact hh ((int32ToUInt32_inj _ _ hip.2 hi0.2).1 hcon.2.symm)
  refine ⟨hmain, hor, ?_⟩
  intro htop
  exact hmain.2 ⟨"top.jpg", by simp, Or.inl htop⟩

/-- C11, on a directory whose faces are 2 by 2 except a top.jpg that is 3 wide:
`loadCubemap` fails its equal-size assertion. -/
theorem C11_cubemap_size_check_witness :
    (∀ p ∈ cubemapPaths, (exampleFacesWideTop (joinPath "sky" p)).channels = 4 ∧
      (exampleFacesWideTop (joinPath "sky" p)).pixels ≠ none) ∧
    (∀ p ∈ cubemapPaths, isInt32 (exampleFacesWideTop (joinPath "sky" p)).width ∧
      isInt32 (exampleFacesWideTop (joinPath "sky" p)).height) ∧
    (loadCubemap exampleRenderer exampleFacesWideTop "sky").failure
      = some CubemapFailure.assertSameSize :=
  ⟨by decide, by decide,
    (C11_cubemap_size_check exampleRenderer exampleFacesWideTop "sky" (by decide)
      (by decide)).2.2 (by decide)⟩

/-- A successful iteration of the loop once the image exists uploads the face. -/
theorem loadCubemapFace_success_created (loadImage : String → ImageData)
    (imagesDir : String) (st : CubemapState) (p : String) (hc : st.imageCreated = true)
    (hok : (loadCubemapFace loadImage imagesDir st p).1 = none) :
    (loadCubemapFace loadImage imagesDir st p).2 =
      uploadFace st (loadImage (joinPath imagesDir p)) := by
  unfold loadCubemapFace at hok ⊢
  simp only [hc, Bool.true_eq_false, if_false] at hok ⊢
  split_ifs at hok ⊢
  all_goals simp_all

/-- A successful first iteration of the loop creates the image and uploads the face. -/
theorem loadCubemapFace_success_first (renderer : Renderer)
    (loadImage : String → ImageData) (imagesDir : String) (p : String)
    (hok : (loadCubemapFace loadImage imagesDir
        { img := AllocatedImage.default, face := 0, imageCreated := false,
          renderer := renderer } p).1 = none) :
    (loadCubemapFace loadImage imagesDir
        { img := AllocatedImage.default, face := 0, imageCreated := false,
          renderer := renderer } p).2 =
      cubemapStateAfterFirst renderer (loadImage (joinPath imagesDir p)) := by
  by_cases hch : (loadImage (joinPath imagesDir p)).channels = 4
  · by_cases hpx : (loadImage (joinPath imagesDir p)).pixels = none
    · simp [loadCubemapFace, hch, hpx] at hok
    · rw [loadCubemapFace_first renderer loadImage imagesDir p hch hpx]
  · simp [loadCubemapFace, hch] at hok

/-- A successful run of the loop once the image exists keeps the image and appends one
upload per remaining file, into consecutive layers. -/
theorem loadCubemapLoop_success (loadImage : String → ImageData) (imagesDir : String)
    (rest : List String) :
    ∀ st : CubemapState, st.imageCreated = true →
      (loadCubemapLoop loadImage imagesDir rest st).1 = none →
      (loadCubemapLoop loadImage imagesDir rest st).2.img = st.img ∧
      (loadCubemapLoop loadImage imagesDir rest st).2.renderer.calls =
        st.renderer.calls ++ uploadCalls st.img st.face
          (rest.map (fun p => (loadImage (joinPath imagesDir p)).pixels)) := by
  induction rest with
  | nil => intro st _ _; simp [loadCubemapLoop, uploadCalls]
  | cons p rest ih =>
    intro st hc hok
    cases hstep : loadCubemapFace loadImage imagesDir st p with
    | mk e st1 =>
      cases e with
      | some e => simp [loadCubemapLoop, hstep] at hok
      | none =>
        have hst1 : st1 = uploadFace st (loadImage (joinPath imagesDir p)) := by
          have := loadCubemapFace_success_created loadImage imagesDir st p hc (by rw [hstep])
          rw [hstep] at this
          exact this
        have hloop : loadCubemapLoop loadImage imagesDir (p :: rest) st =
            loadCubemapLoop loadImage imagesDir rest st1 := by
          simp only [loadCubemapLoop, hstep]
        rw [hloop] at hok ⊢
        subst hst1
        obtain ⟨ih1, ih2⟩ := ih (uploadFace st (loadImage (joinPath imagesDir p))) hc hok
        refine ⟨ih1, ?_⟩
        rw [ih2]
        simp [uploadFace, Renderer.uploadImageData, uploadCalls]

/-- C12: for every run of `loadCubemap` that does not fail, the renderer receives, after
the calls it had before, exactly one image creation (format R8G8B8A8_SRGB, cube
compatible, cubemap flag set, 6 layers, extent of the first face right.jpg with depth 1),
then exactly six uploads into that image, the k-th one passing the pixels of the k-th
file of right, left, top, bottom, front, back into array layer k, then the debug label;
the returned image is the created one. -/
theorem C12_cubemap_calls (renderer : Renderer) (loadImage : String → ImageData)
    (imagesDir : String)
    (hok : (loadCubemap renderer loadImage imagesDir).failure = none) :
    (loadCubemap renderer loadImage imagesDir).img =
      { image := renderer.nextImage, format := VK_FORMAT_R8G8B8A8_SRGB,
        usage := VK_IMAGE_USAGE_SAMPLED_BIT ||| VK_IMAGE_USAGE_TRANSFER_DST_BIT,
        extent :=
          { width := int32ToUInt32 (loadImage (joinPath imagesDir "right.jpg")).width,
            height := int32ToUInt32 (loadImage (joinPath imagesDir "right.jpg")).height,
            depth := 1 },
        numLayers := 6, isCubemap := true } ∧
    (loadCubemap renderer loadImage imagesDir).renderer.calls =
      renderer.calls ++
        [RendererCall.createImage
            { format := VK_FORMAT_R8G8B8A8_SRGB,
              usage := VK_IMAGE_USAGE_SAMPLED_BIT ||| VK_IMAGE_USAGE_TRANSFER_DST_BIT,
              flags := VK_IMAGE_CREATE_CUBE_COMPATIBLE_BIT,
              extent :=
                { width := int32ToUInt32 (loadImage (joinPath imagesDir "right.jpg")).width,
                  height := int32ToUInt32 (loadImage (joinPath imagesDir "right.jpg")).height,
                  depth := 1 },
              numLayers := 6, isCubemap := true }
            (loadCubemap renderer loadImage imagesDir).img,
          RendererCall.uploadImageData (loadCubemap renderer loadImage imagesDir).img
            (loadImage (joinPath imagesDir "right.jpg")).pixels 0,
          RendererCall.uploadImageData (loadCubemap renderer loadImage imagesDir).img
            (loadImage (joinPath imagesDir "left.jpg")).pixels 1,
          RendererCall.uploadImageData (loadCubemap renderer loadImage imagesDir).img
            (loadImage (joinPath imagesDir "top.jpg")).pixels 2,
          RendererCall.uploadImageData (loadCubemap renderer loadImage imagesDir).img
            (loadImage (joinPath imagesDir "bottom.jpg")).pixels 3,
          RendererCall.uploadImageData (loadCubemap renderer loadImage imagesDir).img
            (loadImage (joinPath imagesDir "front.jpg")).pixels 4,
          RendererCall.uploadImageData (loadCubemap renderer loadImage imagesDir).img
            (loadImage (joinPath imagesDir "back.jpg")).pixels 5,
          RendererCall.addDebugLabel renderer.nextImage ("cubemap, dir=" ++ imagesDir)] := by
  rw [loadCubemap_failure] at hok
  cases hstep : loadCubemapFace loadImage imagesDir
      { img := AllocatedImage.default, face := 0, imageCreated := false,
        renderer := renderer } "right.jpg" with
  | mk e st1 =>
    cases e with
    | some e => simp [cubemapPaths, loadCubemapLoop, hstep] at hok
    | none =>
      have hst1 : st1 = cubemapStateAfterFirst renderer
          (loadImage (joinPath imagesDir "right.jpg")) := by
        have := loadCubemapFace_success_first renderer loadImage imagesDir "right.jpg"
          (by rw [hstep])
        rw [hstep] at this
        exact this
      subst hst1
      have hloop : loadCubemapLoop loadImage imagesDir cubemapPaths
          { img := AllocatedImage.default, face := 0, imageCreated := false,
            renderer := renderer } =
          loadCubemapLoop loadImage imagesDir
            ["left.jpg", "top.jpg", "bottom.jpg", "front.jpg", "back.jpg"]
            (cubemapStateAfterFirst renderer
              (loadImage (joinPath imagesDir "right.jpg"))) := by
        simp only [cubemapPaths, loadCubemapLoop, hstep]
      rw [hloop] at hok
      obtain ⟨himg, hcalls⟩ := loadCubemapLoop_success loadImage imagesDir
        ["left.jpg", "top.jpg", "bottom.jpg", "front.jpg", "back.jpg"]
        (cubemapStateAfterFirst renderer (loadImage (joinPath imagesDir "right.jpg")))
        rfl hok
      have hres : loadCubemap renderer loadImage imagesDir =
          { failure := none,
            img := (loadCubemapLoop loadImage imagesDir
              ["left.jpg", "top.jpg", "bottom.jpg", "front.jpg", "back.jpg"]
              (cubemapStateAfterFirst renderer
                (loadImage (joinPath imagesDir "right.jpg")))).2.img,
            renderer :=
              { (loadCubemapLoop loadImage imagesDir
                  ["left.jpg", "top.jpg", "bottom.jpg", "front.jpg", "back.jpg"]
                  (cubemapStateAfterFirst renderer
                    (loadImage (joinPath imagesDir "right.jpg")))).2.renderer with
                calls := (loadCubemapLoop loadImage imagesDir
                  ["left.jpg", "top.jpg", "bottom.jpg", "front.jpg", "back.jpg"]
                  (cubemapStateAfterFirst renderer
                    (loadImage (joinPath imagesDir "right.jpg")))).2.renderer.calls
                  ++ [RendererCall.addDebugLabel (loadCubemapLoop loadImage imagesDir
                    ["left.jpg", "top.jpg", "bottom.jpg", "front.jpg", "back.jpg"]
                    (cubemapStateAfterFirst renderer
                      (loadImage (joinPath imagesDir "right.jpg")))).2.img.image
                    ("cubemap, dir=" ++ imagesDir)] } } := by
        unfold loadCubemap
        rw [hloop]
        simp only [hok]
      rw [hres]
      dsimp only
      rw [himg, hcalls]
      simp [cubemapStateAfterFirst, cubemapImage, cubemapCreateInfo, uploadCalls]

/-- C12, on a directory whose six faces are 2 by 2: the run does not fail and returns
an image of extent 2 by 2 by 1. -/
theorem C12_cubemap_calls_witness :
    (loadCubemap exampleRenderer exampleFaces "sky").failure = none ∧
    (loadCubemap exampleRenderer exampleFaces "sky").img =
      { image := exampleRenderer.nextImage, format := VK_FORMAT_R8G8B8A8_SRGB,
        usage := VK_IMAGE_USAGE_SAMPLED_BIT ||| VK_IMAGE_USAGE_TRANSFER_DST_BIT,
        extent :=
          { width := int32ToUInt32 (exampleFaces (joinPath "sky" "right.jpg")).width,
            height := int32ToUInt32 (exampleFaces (joinPath "sky" "right.jpg")).height,
            depth := 1 },
        numLayers := 6, isCubemap := true } :=
  ⟨by decide, (C12_cubemap_calls exampleRenderer exampleFaces "sky" (by decide)).1⟩

/-! ## EntityFactory (C18, C19, C20) -/

/-- C18: for every factory and every `prefabName` that is neither a key of the
prefab-name mapping nor a registered prefab, `createEntity` throws 'Prefab with name
`prefabName` was not registered', returns no entity, and leaves the registry and the
observed events as they were: no entity is created and neither callback is called. -/
theorem C18_unregistered_prefab_throws {env : EcsCollaborators} (self : EntityFactory env)
    (world : EcsWorld env) (prefabName sceneNodeName : String)
    (hmap : self.prefabNameMapping prefabName = none)
    (hreg : self.loadedPrefabFiles prefabName = none) :
    (self.createEntity world prefabName sceneNodeName).outcome
      = Outcome.threw (FactoryError.prefabNotRegistered prefabName) ∧
    (self.createEntity world prefabName sceneNodeName).entity = none ∧
    (self.createEntity world prefabName sceneNodeName).world.registry = world.registry ∧
    (self.createEntity world prefabName sceneNodeName).world.events = world.events := by
  have hmapped : self.getMappedPrefabName prefabName = "" := by
    simp [EntityFactory.getMappedPrefabName, EntityFactory.prefabExists, hmap, hreg]
  have hloader : self.getPrefabDataLoader prefabName
      = Except.error (FactoryError.prefabNotRegistered prefabName) := by
    simp [EntityFactory.getPrefabDataLoader, hreg]
  simp [EntityFactory.createEntity, hmapped, hloader]

/-- C18, on the empty example factory: creating an entity of the unknown prefab `dog`
throws. -/
theorem C18_unregistered_prefab_throws_witness :
    (EntityFactory.empty exampleEcs).prefabNameMapping "dog" = none ∧
    (EntityFactory.empty exampleEcs).loadedPrefabFiles "dog" = none ∧
    ((EntityFactory.empty exampleEcs).createEntity { registry := [], events := [] }
      "dog" "node").outcome = Outcome.threw (FactoryError.prefabNotRegistered "dog") :=
  ⟨rfl, rfl,
    (C18_unregistered_prefab_throws (EntityFactory.empty exampleEcs)
      { registry := [], events := [] } "dog" "node" rfl rfl).1⟩

/-- C19, counterexample: with a file for which `isGood()` is false, `addPrefabFile` stops
at `assert(file.isGood())` before the emplace: on the example factory, where the empty
name is registered and `cat` is not, the call with the registered name does not throw
'was already registered', and the call with `cat` registers nothing, so
`prefabExists("cat")` is still false. -/
theorem C19_counterexample :
    exampleBadFile.isGood = false ∧
    (exampleFactory.loadedPrefabFiles "").isSome = true ∧
    (exampleFactory.addPrefabFile "" exampleBadFile).outcome = Outcome.assertionFailed ∧
    (exampleFactory.addPrefabFile "" exampleBadFile).outcome
      ≠ Outcome.threw FactoryError.prefabAlreadyRegistered ∧
    exampleFactory.loadedPrefabFiles "cat" = none ∧
    (exampleFactory.addPrefabFile "cat" exampleBadFile).outcome = Outcome.assertionFailed ∧
    (exampleFactory.addPrefabFile "cat" exampleBadFile).self.prefabExists "cat" = false := by
  refine ⟨rfl, by decide, rfl, ?_, rfl, rfl, rfl⟩
  intro h
  cases h

/-- C19, amended: for every factory and every good file (one for which `isGood()` is
true), `addPrefabFile` with a name already present in `loadedPrefabFiles` throws 'Prefab
with name ... was already registered' and leaves both maps, hence the registered prefabs
and the file stored under that name, unchanged; with a name not yet present it returns,
stores the file under that name, so that `prefabExists(name)` is true, and leaves every
other entry and the mapping unchanged. -/
theorem C19_addPrefabFile {env : EcsCollaborators} (self : EntityFactory env)
    (prefabName : String) (file : JsonFile env.Json) (hgood : file.isGood = true) :
    ((self.loadedPrefabFiles prefabName).isSome = true →
      (self.addPrefabFile prefabName file).outcome
        = Outcome.threw FactoryError.prefabAlreadyRegistered ∧
      (self.addPrefabFile prefabName file).self.loadedPrefabFiles = self.loadedPrefabFiles ∧
      (self.addPrefabFile prefabName file).self.prefabNameMapping
        = self.prefabNameMapping) ∧
    (self.loadedPrefabFiles prefabName = none →
      (self.addPrefabFile prefabName file).outcome = Outcome.returned ∧
      (self.addPrefabFile prefabName file).self.loadedPrefabFiles prefabName = some file ∧
      (self.addPrefabFile prefabName file).self.prefabExists prefabName = true ∧
      (∀ other, other ≠ prefabName →
        (self.addPrefabFile prefabName file).self.loadedPrefabFiles other
          = self.loadedPrefabFiles other) ∧
      (self.addPrefabFile prefabName file).self.prefabNameMapping
        = self.prefabNameMapping) := by
  constructor
  · intro hsome
    obtain ⟨old, hold⟩ := Option.isSome_iff_exists.1 hsome
    simp [EntityFactory.addPrefabFile, hgood, mapEmplace, hold]
  · intro hnone
    simp [EntityFactory.addPrefabFile, hgood, mapEmplace, hnone, EntityFactory.prefabExists]
    intro other hother
    exact Function.update_noteq hother _ _

/-- C19, amended, on the example factory, where the empty name is registered: with a good
file, registering it again throws, registering `cat` succeeds. -/
theorem C19_addPrefabFile_witness :
    exampleFile.isGood = true ∧
    (exampleFactory.loadedPrefabFiles "").isSome = true ∧
    (exampleFactory.addPrefabFile "" exampleFile).outcome
      = Outcome.threw FactoryError.prefabAlreadyRegistered ∧
    exampleFactory.loadedPrefabFiles "cat" = none ∧
    (exampleFactory.addPrefabFile "cat" exampleFile).outcome = Outcome.returned :=
  ⟨rfl, by decide,
    ((C19_addPrefabFile exampleFactory "" exampleFile rfl).1 (by decide)).1,
    rfl,
    ((C19_addPrefabFile exampleFactory "cat" exampleFile rfl).2 rfl).1⟩

/-- C20, counterexample: in the factory reached by registering a prefab under the empty
name and mapping `a` to it, `a` is a key of the mapping, `b` is not, and `a` is no
registered prefab; yet `addMappedPrefabName("b", "a")` throws 'Prefab with name a was not
registered' and adds no entry for `b`. -/
theorem C20_counterexample :
    "b" ≠ "a" ∧
    exampleFactory.prefabNameMapping "b" = none ∧
    exampleFactory.prefabNameMapping "a" = some "" ∧
    exampleFactory.prefabExists "a" = false ∧
    (exampleFactory.addMappedPrefabName "b" "a").outcome
      = Outcome.threw (FactoryError.prefabNotRegistered "a") ∧
    (exampleFactory.addMappedPrefabName "b" "a").self.prefabNameMapping "b" = none := by
  refine ⟨by decide, by decide, by decide, by decide, by decide, by decide⟩

/-- C20, amended: for every factory and names `from ≠ to`, `addMappedPrefabName(from, to)`
throws and leaves the mapping unchanged when `from` is already a key of the mapping, or
when `to` is no registered prefab and is either no key of the mapping or a key mapped to
the empty name; otherwise it returns having added exactly one entry, `from -> to` when
`to` is a registered prefab and `from -> mapping[to]` when it is not, and changed no other
entry; with `from = to` the mapping is left unchanged; the registered prefabs are never
changed. -/
theorem C20_addMappedPrefabName {env : EcsCollaborators} (self : EntityFactory env)
    (fromName toName : String) :
    (fromName = toName →
      (self.addMappedPrefabName fromName toName).self.prefabNameMapping
        = self.prefabNameMapping) ∧
    (fromName ≠ toName → (self.prefabNameMapping fromName).isSome = true →
      (self.addMappedPrefabName fromName toName).outcome
        = Outcome.threw (FactoryError.mappingAlreadyAdded fromName toName) ∧
      (self.addMappedPrefabName fromName toName).self.prefabNameMapping
        = self.prefabNameMapping) ∧
    (fromName ≠ toName → self.prefabNameMapping fromName = none →
      self.loadedPrefabFiles toName = none →
      (self.prefabNameMapping toName = none ∨ self.prefabNameMapping toName = some "") →
      (self.addMappedPrefabName fromName toName).outcome
        = Outcome.threw (FactoryError.prefabNotRegistered toName) ∧
      (self.addMappedPrefabName fromName toName).self.prefabNameMapping
        = self.prefabNameMapping) ∧
    (fromName ≠ toName → self.prefabNameMapping fromName = none →
      (self.loadedPrefabFiles toName).isSome = true →
      (self.addMappedPrefabName fromName toName).outcome = Outcome.returned ∧
      (self.addMappedPrefabName fromName toName).self.prefabNameMapping fromName
        = some toName ∧
      ∀ other, other ≠ fromName →
        (self.addMappedPrefabName fromName toName).self.prefabNameMapping other
          = self.prefabNameMapping other) ∧
    (fromName ≠ toName → self.prefabNameMapping fromName = none →
      self.loadedPrefabFiles toName = none →
      ∀ mapped, self.prefabNameMapping toName = some mapped → mapped ≠ "" →
        (self.addMappedPrefabName fromName toName).outcome = Outcome.returned ∧
        (self.addMappedPrefabName fromName toName).self.prefabNameMapping fromName
          = some mapped ∧
        ∀ other, other ≠ fromName →
          (self.addMappedPrefabName fromName toName).self.prefabNameMapping other
            = self.prefabNameMapping other) ∧
    (self.addMappedPrefabName fromName toName).self.loadedPrefabFiles
      = self.loadedPrefabFiles := by
  refine ⟨?_, ?_, ?_, ?_, ?_, ?_⟩
  · intro h
    simp [EntityFactory.addMappedPrefabName, h]
  · intro hne hsome
    simp [EntityFactory.addMappedPrefabName, hne, hsome]
  · intro hne hfrom hto hmapped
    rcases hmapped with hm | hm <;>
      simp [EntityFactory.addMappedPrefabName, EntityFactory.getMappedPrefabName,
        EntityFactory.prefabExists, hne, hfrom, hto, hm]
  · intro hne hfrom hto
    simp only [EntityFactory.addMappedPrefabName, EntityFactory.prefabExists, if_neg hne,
      hfrom, hto, mapEmplace]
    refine ⟨by simp, by simp, ?_⟩
    intro other hother
    simp [Function.update_noteq hother]
  · intro hne hfrom hto mapped hmapped hnonempty
    simp only [EntityFactory.addMappedPrefabName, EntityFactory.getMappedPrefabName,
      EntityFactory.prefabExists, if_neg hne, hfrom, hto, hmapped, mapEmplace]
    refine ⟨by simp [hnonempty], by simp [hnonempty], ?_⟩
    intro other hother
    simp [hnonempty, Function.update_noteq hother]
  · unfold EntityFactory.addMappedPrefabName
    dsimp only
    split_ifs
    all_goals rfl

/-- C20, amended, on the example factory: mapping `c` to the registered empty name adds
the entry; mapping `a` again throws. -/
theorem C20_addMappedPrefabName_witness :
    ("c" ≠ "" ∧ exampleFactory.prefabNameMapping "c" = none ∧
      (exampleFactory.loadedPrefabFiles "").isSome = true ∧
      (exampleFactory.addMappedPrefabName "c" "").outcome = Outcome.returned) ∧
    ("a" ≠ "" ∧ (exampleFactory.prefabNameMapping "a").isSome = true ∧
      (exampleFactory.addMappedPrefabName "a" "").outcome
        = Outcome.threw (FactoryError.mappingAlreadyAdded "a" "")) :=
  ⟨⟨by decide, by decide, by decide,
      ((C20_addMappedPrefabName exampleFactory "c" "").2.2.2.1 (by decide) (by decide)
        (by decide)).1⟩,
    ⟨by decide, by decide,
      ((C20_addMappedPrefabName exampleFactory "a" "").2.1 (by decide) (by decide)).1⟩⟩

/-! ## Near and far plane of one cascade (C23) -/

/-- Rounding to an integer does not go below the floor. -/
theorem floor_le_roundHalfEven (x : ℚ) : ⌊x⌋ ≤ roundHalfEven x := by
  unfold roundHalfEven
  split_ifs <;> omega

/-- Rounding to an integer does not go above the floor plus one. -/
theorem roundHalfEven_le_floor_add_one (x : ℚ) : roundHalfEven x ≤ ⌊x⌋ + 1 := by
  unfold roundHalfEven
  split_ifs <;> omega

/-- An integer below `x` is below the rounding of `x`. -/
theorem le_roundHalfEven (a : ℤ) (x : ℚ) (h : (a : ℚ) ≤ x) : a ≤ roundHalfEven x :=
  le_trans (Int.le_floor.2 h) (floor_le_roundHalfEven x)

/-- An integer above `x` is above the rounding of `x`. -/
theorem roundHalfEven_le (a : ℤ) (x : ℚ) (h : x ≤ (a : ℚ)) : roundHalfEven x ≤ a := by
  have hf : ⌊x⌋ ≤ a := Int.cast_le.1 (le_trans (Int.floor_le x) h)
  rcases lt_or_eq_of_le hf with hlt | heq
  · exact le_trans (roundHalfEven_le_floor_add_one x) (by omega)
  · have hx : x = (⌊x⌋ : ℚ) := le_antisymm (by rw [heq]; exact h) (Int.floor_le x)
    unfold roundHalfEven
    rw [if_pos (by rw [← hx]; norm_num)]
    exact hf

/-- Rounding to the nearest integer, ties to even, is monotone. -/
theorem roundHalfEven_mono (x y : ℚ) (h : x ≤ y) : roundHalfEven x ≤ roundHalfEven y := by
  have hf : ⌊x⌋ ≤ ⌊y⌋ := Int.floor_mono h
  rcases lt_or_eq_of_le hf with hlt | heq
  · exact le_trans (roundHalfEven_le_floor_add_one x)
      (le_trans (by omega) (floor_le_roundHalfEven y))
  · unfold roundHalfEven
    rw [← heq]
    split_ifs <;> first | omega | linarith

/-- A positive `x` lies below the end of its binade, and from its start on when it is
not subnormal. -/
theorem binary32Exponent_spec (x : ℚ) (hx : 0 < x) :
    x < 2 ^ (binary32Exponent x + 24) ∧
    (-149 < binary32Exponent x → (2 : ℚ) ^ (binary32Exponent x + 23) ≤ x) ∧
    -149 ≤ binary32Exponent x := by
  have habs : |x| = x := abs_of_pos hx
  have h1 := Int.lt_zpow_succ_log_self (R := ℚ) (b := 2) (by norm_num) x
  have h2 := Int.zpow_log_le_self (R := ℚ) (b := 2) (r := x) (by norm_num) hx
  simp only [Nat.cast_ofNat] at h1 h2
  unfold binary32Exponent
  rw [habs]
  refine ⟨?_, ?_, ?_⟩
  · refine lt_of_lt_of_le h1 (zpow_le_zpow_right₀ (by norm_num) ?_)
    have := le_max_left (Int.log 2 x) (-126)
    omega
  · intro hlt
    have hmax : max (Int.log 2 x) (-126) = Int.log 2 x := by
      rcases max_choice (Int.log 2 x) (-126) with h | h
      · exact h
      · rw [h] at hlt; omega
    rw [hmax]
    have : Int.log 2 x - 23 + 23 = Int.log 2 x := by omega
    rw [this]
    exact h2
  · have := le_max_right (Int.log 2 x) (-126)
    omega

/-- The spacing exponent is monotone on positive numbers. -/
theorem binary32Exponent_mono (x y : ℚ) (hx : 0 < x) (h : x ≤ y) :
    binary32Exponent x ≤ binary32Exponent y := by
  unfold binary32Exponent
  rw [abs_of_pos hx, abs_of_pos (lt_of_lt_of_le hx h)]
  have := Int.log_mono_right (b := 2) hx h
  have := max_le_max_right (-126) this
  omega

/-- The rounding of a positive `x` stays inside the closed binade of `x`. -/
theorem roundBinary32_bounds (x : ℚ) (hx : 0 < x) :
    roundBinary32 x ≤ 2 ^ (binary32Exponent x + 24) ∧
    (-149 < binary32Exponent x → (2 : ℚ) ^ (binary32Exponent x + 23) ≤ roundBinary32 x) := by
  obtain ⟨h1, h2, _⟩ := binary32Exponent_spec x hx
  have hq : (0 : ℚ) < 2 ^ binary32Exponent x := zpow_pos (by norm_num) _
  have e24 : (2 : ℚ) ^ (binary32Exponent x + 24) = ((2 ^ 24 : ℤ) : ℚ) * 2 ^ binary32Exponent x := by
    rw [zpow_add₀ (by norm_num)]
    push_cast
    rw [mul_comm]
    norm_num
  have e23 : (2 : ℚ) ^ (binary32Exponent x + 23) = ((2 ^ 23 : ℤ) : ℚ) * 2 ^ binary32Exponent x := by
    rw [zpow_add₀ (by norm_num)]
    push_cast
    rw [mul_comm]
    norm_num
  unfold roundBinary32
  constructor
  · rw [e24]
    apply mul_le_mul_of_nonneg_right _ hq.le
    have : roundHalfEven (x / 2 ^ binary32Exponent x) ≤ 2 ^ 24 := by
      apply roundHalfEven_le
      rw [div_le_iff₀ hq, ← e24]
      exact h1.le
    exact_mod_cast this
  · intro hlt
    rw [e23]
    apply mul_le_mul_of_nonneg_right _ hq.le
    have : (2 ^ 23 : ℤ) ≤ roundHalfEven (x / 2 ^ binary32Exponent x) := by
      apply le_roundHalfEven
      rw [le_div_iff₀ hq, ← e23]
      exact h2 hlt
    exact_mod_cast this

/-- Rounding to binary32 is monotone on positive numbers. -/
theorem roundBinary32_mono (x y : ℚ) (hx : 0 < x) (h : x ≤ y) :
    roundBinary32 x ≤ roundBinary32 y := by
  have hy : 0 < y := lt_of_lt_of_le hx h
  have hE := binary32Exponent_mono x y hx h
  rcases lt_or_eq_of_le hE with hlt | heq
  · have hx1 := (roundBinary32_bounds x hx).1
    have hy1 := (roundBinary32_bounds y hy).2 (by
      have := (binary32Exponent_spec x hx).2.2
      omega)
    refine le_trans hx1 (le_trans (zpow_le_zpow_right₀ (by norm_num) ?_) hy1)
    omega
  · unfold roundBinary32
    rw [← heq]
    have hq : (0 : ℚ) < 2 ^ binary32Exponent x := zpow_pos (by norm_num) _
    apply mul_le_mul_of_nonneg_right _ hq.le
    have := roundHalfEven_mono (x / 2 ^ binary32Exponent x) (y / 2 ^ binary32Exponent x)
      (div_le_div_of_nonneg_right h hq.le)
    exact_mod_cast this

/-- Underflow: positive values up to 2^-150 round to 0. -/
theorem roundBinary32_underflow (x : ℚ) (hx : 0 < x) (h : x ≤ 1 / 2 ^ 150) :
    roundBinary32 x = 0 := by
  have hlog : Int.log 2 x ≤ -150 := by
    have h1 := Int.log_mono_right (b := 2) hx h
    have h2 : (1 / 2 ^ 150 : ℚ) = ((2 : ℕ) : ℚ) ^ (-150 : ℤ) := by
      rw [zpow_neg]
      norm_num
    rw [h2, Int.log_zpow (by norm_num)] at h1
    exact h1
  have hE : binary32Exponent x = -149 := by
    unfold binary32Exponent
    rw [abs_of_pos hx, max_eq_right (by omega)]
    norm_num
  have hq : (2 : ℚ) ^ (-149 : ℤ) = 1 / 2 ^ 149 := by
    rw [zpow_neg]
    norm_num
  unfold roundBinary32
  rw [hE, hq]
  have hn0 : 0 < x / (1 / 2 ^ 149) := by positivity
  have hn1 : x / (1 / 2 ^ 149) ≤ 1 / 2 := by
    rw [div_le_iff₀ (by positivity)]
    refine le_trans h ?_
    norm_num
  have hfloor : ⌊x / (1 / 2 ^ 149)⌋ = 0 := by
    rw [Int.floor_eq_iff]
    constructor
    · simpa using hn0.le
    · simp only [Int.cast_zero, zero_add]
      linarith
  have hr : roundHalfEven (x / (1 / 2 ^ 149)) = 0 := by
    unfold roundHalfEven
    rw [hfloor]
    simp only [Int.cast_zero, sub_zero]
    split_ifs with h1 h2
    · rfl
    · exact absurd h2 (not_lt.2 hn1)
    · rfl
    · rename_i h3
      exact absurd (by decide) h3
  rw [hr]
  simp

/-- C23, counterexample: for `zNear = 0.1`, `zFar = 100` and the strictly increasing
percentages `[0.0001, 0.3, 0.6, 1.0]` in (0,1], the sub-frustum camera of cascade 0 is
initialised with near plane 0.1 and far plane 0.01; and for `zNear = 2 ^ (-149)`,
`zFar = 2 ^ (-148)` and the percentages `[0.125, 0.25, 0.5, 1.0]`, the two `float`
products of cascade 1 both round to 0, so its near plane is not below its far plane
although the exact products are in strict order. -/
theorem C23_counterexample :
    ((0 < scenarioCamera.zNear ∧ scenarioCamera.zNear < scenarioCamera.zFar) ∧
    (∀ i j : Fin 4, i < j → tinyFirstPercents i < tinyFirstPercents j) ∧
    (∀ i : Fin 4, 0 < tinyFirstPercents i ∧ tinyFirstPercents i ≤ 1) ∧
    (subFrustumCamera scenarioCamera (cascadeZNear scenarioCamera tinyFirstPercents 0)
      (cascadeZFar scenarioCamera tinyFirstPercents 0)).zNear = 1 / 10 ∧
    (subFrustumCamera scenarioCamera (cascadeZNear scenarioCamera tinyFirstPercents 0)
      (cascadeZFar scenarioCamera tinyFirstPercents 0)).zFar = 1 / 100 ∧
    ¬ (cascadeZNear scenarioCamera tinyFirstPercents 0
      < cascadeZFar scenarioCamera tinyFirstPercents 0)) ∧
    ((0 < subnormalCamera.zNear ∧ subnormalCamera.zNear < subnormalCamera.zFar) ∧
    (∀ i j : Fin 4, i < j → binaryPercents i < binaryPercents j) ∧
    (∀ i : Fin 4, 0 < binaryPercents i ∧ binaryPercents i ≤ 1) ∧
    cascadeZNear subnormalCamera binaryPercents 1
      < cascadeZFar subnormalCamera binaryPercents 1 ∧
    (subFrustumCamera subnormalCamera (cascadeZNearBinary32 subnormalCamera binaryPercents 1)
      (cascadeZFarBinary32 subnormalCamera binaryPercents 1)).zNear = 0 ∧
    (subFrustumCamera subnormalCamera (cascadeZNearBinary32 subnormalCamera binaryPercents 1)
      (cascadeZFarBinary32 subnormalCamera binaryPercents 1)).zFar = 0 ∧
    ¬ (cascadeZNearBinary32 subnormalCamera binaryPercents 1
      < cascadeZFarBinary32 subnormalCamera binaryPercents 1)) := by
  have hnear : cascadeZNearBinary32 subnormalCamera binaryPercents 1 = 0 := by
    have h : cascadeZNearBinary32 subnormalCamera binaryPercents 1
        = roundBinary32 (1 / 2 ^ 149 * (1 / 8)) := by
      simp [cascadeZNearBinary32, subnormalCamera, binaryPercents]
    rw [h]
    exact roundBinary32_underflow _ (by norm_num) (by norm_num)
  have hfar : cascadeZFarBinary32 subnormalCamera binaryPercents 1 = 0 := by
    have h : cascadeZFarBinary32 subnormalCamera binaryPercents 1
        = roundBinary32 (1 / 2 ^ 148 * (1 / 4)) := by
      simp [cascadeZFarBinary32, subnormalCamera, binaryPercents]
    rw [h]
    exact roundBinary32_underflow _ (by norm_num) (by norm_num)
  refine ⟨⟨?_, ?_, ?_, ?_, ?_, ?_⟩, ⟨?_, ?_, ?_, ?_, ?_, ?_, ?_⟩⟩
  · norm_num [scenarioCamera]
  · intro i j hij
    fin_cases i <;> fin_cases j <;> simp [tinyFirstPercents] at hij ⊢ <;> norm_num
  · intro i
    fin_cases i <;> simp [tinyFirstPercents] <;> norm_num
  · norm_num [subFrustumCamera, Camera.init, cascadeZNear, scenarioCamera]
  · norm_num [subFrustumCamera, Camera.init, cascadeZFar, scenarioCamera, tinyFirstPercents]
  · norm_num [cascadeZNear, cascadeZFar, scenarioCamera, tinyFirstPercents]
  · norm_num [subnormalCamera]
  · intro i j hij
    fin_cases i <;> fin_cases j <;> simp [binaryPercents] at hij ⊢ <;> norm_num
  · intro i
    fin_cases i <;> simp [binaryPercents] <;> norm_num
  · norm_num [cascadeZNear, cascadeZFar, subnormalCamera, binaryPercents]
  · rw [hnear, hfar]
    rfl
  · rw [hnear, hfar]
    rfl
  · rw [hnear, hfar]
    exact lt_irrefl 0

/-- C23, amended: for every camera with `0 < zNear < zFar` and strictly increasing
percentages in (0,1], the sub-frustum camera of every cascade `i ≥ 1` is initialised
with a near plane not larger than its far plane, and strictly smaller when the two
products `camera.zNear * percents[i-1]` and `camera.zFar * percents[i]` are exact (not
changed by the rounding of the `float` multiplication); that of cascade 0, whose planes
are `camera.zNear` and `camera.zFar * percents[0]`, has its near plane strictly smaller
exactly when `camera.zNear` is smaller than the value computed for
`camera.zFar * percents[0]`. -/
theorem C23_near_below_far {N : Nat} (camera : Camera) (p : Fin N → ℚ) (i : Fin N)
    (h0 : 0 < camera.zNear) (h1 : camera.zNear < camera.zFar)
    (hp : ∀ j, 0 < p j ∧ p j ≤ 1) (hmono : ∀ j k : Fin N, j < k → p j < p k) :
    (subFrustumCamera camera (cascadeZNear camera p i) (cascadeZFar camera p i)).zNear
      = cascadeZNear camera p i ∧
    (subFrustumCamera camera (cascadeZNear camera p i) (cascadeZFar camera p i)).zFar
      = cascadeZFar camera p i ∧
    (1 ≤ i.val → cascadeZNear camera p i < cascadeZFar camera p i) ∧
    (i.val = 0 →
      (cascadeZNear camera p i < cascadeZFar camera p i ↔
        camera.zNear < camera.zFar * p i)) ∧
    (subFrustumCamera camera (cascadeZNearBinary32 camera p i)
        (cascadeZFarBinary32 camera p i)).zNear = cascadeZNearBinary32 camera p i ∧
    (subFrustumCamera camera (cascadeZNearBinary32 camera p i)
        (cascadeZFarBinary32 camera p i)).zFar = cascadeZFarBinary32 camera p i ∧
    (1 ≤ i.val → cascadeZNearBinary32 camera p i ≤ cascadeZFarBinary32 camera p i) ∧
    (1 ≤ i.val → cascadeZNearBinary32 camera p i = cascadeZNear camera p i →
      cascadeZFarBinary32 camera p i = cascadeZFar camera p i →
      cascadeZNearBinary32 camera p i < cascadeZFarBinary32 camera p i) ∧
    (i.val = 0 →
      (cascadeZNearBinary32 camera p i < cascadeZFarBinary32 camera p i ↔
        camera.zNear < roundBinary32 (camera.zFar * p i))) := by
  have hexact : 1 ≤ i.val → cascadeZNear camera p i < cascadeZFar camera p i := by
    intro hi
    have hne : ¬ i.val = 0 := by omega
    have hlt : p ⟨i.val - 1, by omega⟩ < p i := hmono _ _ (by
      rw [Fin.lt_def]
      show i.val - 1 < i.val
      omega)
    have hpos := (hp ⟨i.val - 1, by omega⟩).1
    unfold cascadeZNear cascadeZFar
    rw [if_neg hne]
    nlinarith
  refine ⟨rfl, rfl, hexact, ?_, rfl, rfl, ?_, ?_, ?_⟩
  · intro hi
    unfold cascadeZNear cascadeZFar
    rw [if_pos hi]
  · intro hi
    have hne : ¬ i.val = 0 := by omega
    have hlt := hexact hi
    unfold cascadeZNear cascadeZFar at hlt
    rw [if_neg hne] at hlt
    unfold cascadeZNearBinary32 cascadeZFarBinary32
    rw [if_neg hne]
    exact roundBinary32_mono _ _ (mul_pos h0 (hp _).1) hlt.le
  · intro hi hn hf
    rw [hn, hf]
    exact hexact hi
  · intro hi
    unfold cascadeZNearBinary32 cascadeZFarBinary32
    rw [if_pos hi]

/-- C23, amended, at `zNear = 0.1`, `zFar = 100`, percentages `[0.1, 0.3, 0.6, 1.0]`,
cascade 1: the exact planes are in strict order, the rounded ones in order. -/
theorem C23_near_below_far_witness :
    0 < scenarioCamera.zNear ∧ scenarioCamera.zNear < scenarioCamera.zFar ∧
    cascadeZNear scenarioCamera scenarioPercents 1
      < cascadeZFar scenarioCamera scenarioPercents 1 ∧
    cascadeZNearBinary32 scenarioCamera scenarioPercents 1
      ≤ cascadeZFarBinary32 scenarioCamera scenarioPercents 1 :=
  ⟨by norm_num [scenarioCamera], by norm_num [scenarioCamera],
    (C23_near_below_far scenarioCamera scenarioPercents 1
      (by norm_num [scenarioCamera]) (by norm_num [scenarioCamera])
      (by intro i; fin_cases i <;> simp [scenarioPercents] <;> norm_num)
      (by intro i j hij
          fin_cases i <;> fin_cases j <;> simp [scenarioPercents] at hij ⊢ <;> norm_num)).2.2.1
      (by decide),
    (C23_near_below_far scenarioCamera scenarioPercents 1
      (by norm_num [scenarioCamera]) (by norm_num [scenarioCamera])
      (by intro i; fin_cases i <;> simp [scenarioPercents] <;> norm_num)
      (by intro i j hij
          fin_cases i <;> fin_cases j <;> simp [scenarioPercents] at hij ⊢
            <;> norm_num)).2.2.2.2.2.2.1
      (by decide)⟩

/-! ## Every draw has its index buffer bound (C24) -/

/-- In the batches, every draw runs with the index buffer of its mesh bound, provided
the buffer bound before the batches is that of the previous mesh or no command of the
batches has the previous mesh ID. -/
theorem boundAtDraws_drawBatches (env : Collaborators) (pipelineLayout : Nat)
    (lightSpaceTM : Mat4) (l : List MeshDrawCommand) :
    ∀ (prev : Nat) (bound : Option Nat),
      (bound = some (env.getMesh prev).indexBuffer.buffer ∨ ∀ dc ∈ l, dc.meshId ≠ prev) →
      boundAtDraws bound (drawBatches env pipelineLayout lightSpaceTM prev l) =
        l.map (fun dc => some (env.getMesh dc.meshId).indexBuffer.buffer) := by
  induction l with
  | nil => intro prev bound _; simp [drawBatches, boundAtDraws]
  | cons dc l ih =>
    intro prev bound h
    by_cases hm : dc.meshId = prev
    · have hb : bound = some (env.getMesh prev).indexBuffer.buffer := by
        rcases h with h | h
        · exact h
        · exact absurd hm (h dc (List.mem_cons_self _ _))
      have hrest := ih dc.meshId bound (Or.inl (by rw [hb, hm]))
      simp only [drawBatches, hm, ne_eq, not_true_eq_false, if_false, List.nil_append,
        List.cons_append, boundAtDraws, List.map_cons]
      rw [hm] at hrest
      rw [hrest, hb]
    · have hrest := ih dc.meshId (some (env.getMesh dc.meshId).indexBuffer.buffer)
        (Or.inl rfl)
      simp only [drawBatches, hm, ne_eq, not_false_eq_true, if_true, List.cons_append,
        List.nil_append, boundAtDraws, List.map_cons]
      rw [hrest]

/-- C24: for every draw-command list whose mesh IDs are all different from
`NULL_MESH_ID`, in the pass of every cascade, which starts with no index buffer bound,
each indexed draw runs with the index buffer of the mesh of its draw command bound: the
latest bind before the draw, inside the pass, is that of the mesh being drawn. -/
theorem C24_draws_have_index_buffer {N : Nat} (self : CSMPipeline N) (cmd : List Command)
    (env : Collaborators) (camera : Camera) (sun : Vec3) (dcs : List MeshDrawCommand)
    (shadowsEnabled : Bool) (i : Fin N)
    (hids : ∀ dc ∈ dcs, dc.meshId ≠ NULL_MESH_ID) :
    (self.draw cmd env camera sun dcs shadowsEnabled).2 =
      cmd ++ (Command.transitionImage (env.getImage self.csmShadowMapID)
          ImageLayout.undefined ImageLayout.depthAttachmentOptimal ::
        ((List.finRange N).flatMap (fun j =>
          cascadePassHeader self j ++ cascadeBody env self camera sun dcs shadowsEnabled j
            ++ [Command.endRendering]) ++
        [Command.transitionImage (env.getImage self.csmShadowMapID)
          ImageLayout.depthAttachmentOptimal ImageLayout.depthReadOnlyOptimal])) ∧
    (cascadeBody env self camera sun dcs shadowsEnabled i).filter Command.isDrawIndexed =
      (drawnCommands env self camera sun dcs shadowsEnabled i).map
        (fun dc => Command.drawIndexed (env.getMesh dc.meshId).numIndices 1 0 0 0) ∧
    boundAtDraws none
        (cascadePassHeader self i ++ cascadeBody env self camera sun dcs shadowsEnabled i
          ++ [Command.endRendering]) =
      (drawnCommands env self camera sun dcs shadowsEnabled i).map
        (fun dc => some (env.getMesh dc.meshId).indexBuffer.buffer) := by
  refine ⟨draw_snd self cmd env camera sun dcs shadowsEnabled,
    (meshLoop_spec env _ i (cascadeFrustum env self camera sun i) shadowsEnabled dcs
      NULL_MESH_ID).2.1, ?_⟩
  have hdrawn : ∀ dc ∈ drawnCommands env self camera sun dcs shadowsEnabled i,
      dc.meshId ≠ NULL_MESH_ID := fun dc hdc => hids dc (List.mem_filter.1 hdc).1
  have hbody := boundAtDraws_drawBatches env self.pipelineLayout
    (env.getViewProj (cascadeCSMCamera env self camera sun i))
    (drawnCommands env self camera sun dcs shadowsEnabled i) NULL_MESH_ID none
    (Or.inr hdrawn)
  have happ : ∀ (l : List Command) (bound : Option Nat),
      boundAtDraws bound (l ++ [Command.endRendering]) = boundAtDraws bound l := by
    intro l
    induction l with
    | nil => intro bound; simp [boundAtDraws]
    | cons c l ih => intro bound; cases c <;> simp [boundAtDraws, ih]
  rw [happ, cascadeBody_eq_batches]
  simp only [cascadePassHeader, List.cons_append, List.nil_append, boundAtDraws]
  exact hbody

/-- C24, on the example draw list (meshes 5, 9, 5, 6, none of them `NULL_MESH_ID`), in
cascade 0 of the example pipeline. -/
theorem C24_draws_have_index_buffer_witness :
    (∀ dc ∈ exampleDrawList, dc.meshId ≠ NULL_MESH_ID) ∧
    boundAtDraws none
        (cascadePassHeader examplePipeline 0 ++
          cascadeBody exampleEnv examplePipeline scenarioCamera ⟨0, -1, 0⟩ exampleDrawList
            true 0 ++ [Command.endRendering]) =
      (drawnCommands exampleEnv examplePipeline scenarioCamera ⟨0, -1, 0⟩ exampleDrawList
        true 0).map (fun dc => some (exampleEnv.getMesh dc.meshId).indexBuffer.buffer) :=
  ⟨by simp [exampleDrawList, exampleSkinnedCaster, exampleNonCaster, exampleBigCaster,
      exampleOtherCaster, NULL_MESH_ID],
    (C24_draws_have_index_buffer examplePipeline [] exampleEnv scenarioCamera ⟨0, -1, 0⟩
      exampleDrawList true 0 (by
        simp [exampleDrawList, exampleSkinnedCaster, exampleNonCaster, exampleBigCaster,
          exampleOtherCaster, NULL_MESH_ID])).2.2⟩

/-! ## Collision layers (C27) -/

/-- C27: for all object layers `a`, `b` among NON_MOVING and MOVING, the broad-phase
filter applied to `a` and the broad-phase layer of `b` answers as the object-pair filter
applied to `a` and `b`, without reaching an assertion; the pair filter is symmetric on
these layers, and its table is: NON_MOVING with NON_MOVING no, NON_MOVING with MOVING
yes, MOVING with NON_MOVING yes, MOVING with MOVING yes. -/
theorem C27_layer_filters_agree (a b : Nat)
    (ha : a = Layers.NON_MOVING ∨ a = Layers.MOVING)
    (hb : b = Layers.NON_MOVING ∨ b = Layers.MOVING) :
    (BPLayerInterfaceImpl.construct.GetBroadPhaseLayer b).bind
        (ObjectVsBroadPhaseLayerFilterImpl.ShouldCollide a)
      = ObjectLayerPairFilterImpl.ShouldCollide a b ∧
    ObjectLayerPairFilterImpl.ShouldCollide a b ≠ none ∧
    ObjectLayerPairFilterImpl.ShouldCollide a b
      = ObjectLayerPairFilterImpl.ShouldCollide b a ∧
    ObjectLayerPairFilterImpl.ShouldCollide Layers.NON_MOVING b
      = some (decide (b = Layers.MOVING)) ∧
    ObjectLayerPairFilterImpl.ShouldCollide Layers.MOVING b = some true ∧
    (ObjectLayerPairFilterImpl.ShouldCollide a b = some true ↔
      (a = Layers.MOVING ∨ b = Layers.MOVING)) := by
  rcases ha with ha | ha <;> rcases hb with hb | hb <;> subst ha <;> subst hb <;> decide

/-- C27, for `a` = NON_MOVING and `b` = MOVING: both filters answer yes. -/
theorem C27_layer_filters_agree_witness :
    (Layers.NON_MOVING = Layers.NON_MOVING ∨ Layers.NON_MOVING = Layers.MOVING) ∧
    (Layers.MOVING = Layers.NON_MOVING ∨ Layers.MOVING = Layers.MOVING) ∧
    (BPLayerInterfaceImpl.construct.GetBroadPhaseLayer Layers.MOVING).bind
        (ObjectVsBroadPhaseLayerFilterImpl.ShouldCollide Layers.NON_MOVING)
      = ObjectLayerPairFilterImpl.ShouldCollide Layers.NON_MOVING Layers.MOVING :=
  ⟨Or.inl rfl, Or.inr rfl,
    (C27_layer_filters_agree Layers.NON_MOVING Layers.MOVING (Or.inl rfl) (Or.inr rfl)).1⟩

/-! ## Reachable states of the EntityFactory (C25, C26) -/

/-- One call keeps every registered prefab registered. -/
theorem FactoryCall.run_registered {env : EcsCollaborators} (call : FactoryCall env)
    (self : EntityFactory env) (name : String)
    (h : (self.loadedPrefabFiles name).isSome = true) :
    ((call.run self).loadedPrefabFiles name).isSome = true := by
  cases call with
  | addPrefabFile prefabName file =>
    simp only [FactoryCall.run, EntityFactory.addPrefabFile, mapEmplace]
    by_cases hgood : file.isGood = true
    · cases hold : self.loadedPrefabFiles prefabName with
      | some old => simp [hgood, h]
      | none =>
        simp only [hgood, not_true_eq_false, if_false]
        by_cases hn : name = prefabName
        · subst hn; simp
        · simp [Function.update_noteq hn, h]
    · simp [hgood, h]
  | addMappedPrefabName fromName toName =>
    simp only [FactoryCall.run, EntityFactory.addMappedPrefabName]
    split_ifs <;> exact h

/-- One call keeps the invariant that every value of the prefab-name mapping is the name
of a registered prefab. -/
theorem FactoryCall.run_mapping_registered {env : EcsCollaborators} (call : FactoryCall env)
    (self : EntityFactory env)
    (hinv : ∀ k v, self.prefabNameMapping k = some v →
      (self.loadedPrefabFiles v).isSome = true) :
    ∀ k v, (call.run self).prefabNameMapping k = some v →
      ((call.run self).loadedPrefabFiles v).isSome = true := by
  intro k v hkv
  cases call with
  | addPrefabFile prefabName file =>
    have hmap : ((FactoryCall.addPrefabFile prefabName file).run self).prefabNameMapping
        = self.prefabNameMapping := by
      simp only [FactoryCall.run, EntityFactory.addPrefabFile]
      split_ifs <;> rfl
    rw [hmap] at hkv
    exact FactoryCall.run_registered _ self v (hinv k v hkv)
  | addMappedPrefabName fromName toName =>
    have hfiles : ((FactoryCall.addMappedPrefabName fromName toName).run self).loadedPrefabFiles
        = self.loadedPrefabFiles := by
      simp only [FactoryCall.run, EntityFactory.addMappedPrefabName]
      split_ifs <;> rfl
    rw [hfiles]
    simp only [FactoryCall.run, EntityFactory.addMappedPrefabName] at hkv
    split_ifs at hkv with h1 h2 h3 h4
    · exact hinv k v hkv
    · exact hinv k v hkv
    · have hnone : self.prefabNameMapping fromName = none := by
        cases hm : self.prefabNameMapping fromName <;> simp_all
      simp only [mapEmplace, hnone] at hkv
      by_cases hk : k = fromName
      · subst hk
        simp at hkv
        subst hkv
        exact h3
      · rw [Function.update_noteq hk] at hkv
        exact hinv k v hkv
    · exact hinv k v hkv
    · have hnone : self.prefabNameMapping fromName = none := by
        cases hm : self.prefabNameMapping fromName <;> simp_all
      simp only [mapEmplace, hnone] at hkv
      by_cases hk : k = fromName
      · subst hk
        simp at hkv
        subst hkv
        have hex : self.prefabExists toName = false := by
          cases hx : self.prefabExists toName <;> simp_all
        cases hto : self.prefabNameMapping toName with
        | none =>
          simp [EntityFactory.getMappedPrefabName, hto, hex] at h4
        | some m =>
          simp only [EntityFactory.getMappedPrefabName, hto]
          exact hinv toName m hto
      · rw [Function.update_noteq hk] at hkv
        exact hinv k v hkv

/-- In every factory reached from one without prefabs and mappings by a sequence of
`addPrefabFile` and `addMappedPrefabName` calls, every value stored in the prefab-name
mapping is the name of a registered prefab. -/
theorem runFactoryCalls_mapping_registered {env : EcsCollaborators}
    (calls : List (FactoryCall env)) :
    ∀ self : EntityFactory env,
      (∀ k v, self.prefabNameMapping k = some v →
        (self.loadedPrefabFiles v).isSome = true) →
      ∀ k v, (runFactoryCalls calls self).prefabNameMapping k = some v →
        ((runFactoryCalls calls self).loadedPrefabFiles v).isSome = true := by
  induction calls with
  | nil => intro self hinv; exact hinv
  | cons call calls ih =>
    intro self hinv
    exact ih (call.run self) (FactoryCall.run_mapping_registered call self hinv)

/-- C25, counterexample: in the factory reached from the empty one by
`addPrefabFile("", file)` and `addMappedPrefabName("a", "")`, the name `a` is mapped (to
the registered empty name), and `createEntity` called with `a` throws 'Prefab with name a
was not registered'. -/
theorem C25_counterexample :
    exampleFactory =
      runFactoryCalls
        [FactoryCall.addPrefabFile "" exampleFile, FactoryCall.addMappedPrefabName "a" ""]
        (EntityFactory.empty exampleEcs) ∧
    exampleFactory.prefabNameMapping "a" = some "" ∧
    exampleFactory.prefabExists "" = true ∧
    (exampleFactory.createEntity { registry := [], events := [] } "a" "node").outcome
      = Outcome.threw (FactoryError.prefabNotRegistered "a") := by
  refine ⟨rfl, by decide, by decide, by decide⟩

/-- The invariant in every factory reached from an empty one. -/
theorem reachable_mapping_registered {env : EcsCollaborators}
    (calls : List (FactoryCall env))
    (createDefaultEntityFunc : Option (env.Registry → Nat × env.Registry))
    (postInitEntityFunc : Option (Nat → env.Registry → env.Registry)) :
    ∀ k v,
      (runFactoryCalls calls
        (EntityFactory.emptyWith env createDefaultEntityFunc postInitEntityFunc)
        ).prefabNameMapping k = some v →
      ((runFactoryCalls calls
        (EntityFactory.emptyWith env createDefaultEntityFunc postInitEntityFunc)
        ).loadedPrefabFiles v).isSome = true :=
  runFactoryCalls_mapping_registered calls _ (by
    intro k v h
    simp [EntityFactory.emptyWith] at h)

/-- What `createEntity` does with a name whose prefab is registered under the resolved
name: it returns. -/
theorem createEntity_returned {env : EcsCollaborators} (self : EntityFactory env)
    (world : EcsWorld env) (prefabName sceneNodeName : String)
    (h : (self.loadedPrefabFiles (self.actualPrefabName prefabName)).isSome = true) :
    (self.createEntity world prefabName sceneNodeName).outcome = Outcome.returned := by
  obtain ⟨file, hfile⟩ := Option.isSome_iff_exists.1 h
  have hloader : self.getPrefabDataLoader (self.actualPrefabName prefabName)
      = Except.ok (env.getLoader file) := by
    simp [EntityFactory.getPrefabDataLoader, hfile]
  unfold EntityFactory.actualPrefabName at hloader
  simp only [EntityFactory.createEntity, hloader]

/-- C25, amended: in every factory reached from the empty factory by a sequence of
`addPrefabFile` and `addMappedPrefabName` calls (calls that throw included), every value
stored in `prefabNameMapping` is the name of a registered prefab; consequently
`createEntity` called with a mapped name whose stored value is not the empty string
returns, and so never throws 'was not registered'. -/
theorem C25_mapped_values_registered {env : EcsCollaborators}
    (calls : List (FactoryCall env))
    (createDefaultEntityFunc : Option (env.Registry → Nat × env.Registry))
    (postInitEntityFunc : Option (Nat → env.Registry → env.Registry)) :
    (∀ k v,
      (runFactoryCalls calls
        (EntityFactory.emptyWith env createDefaultEntityFunc postInitEntityFunc)
        ).prefabNameMapping k = some v →
      ((runFactoryCalls calls
        (EntityFactory.emptyWith env createDefaultEntityFunc postInitEntityFunc)
        ).loadedPrefabFiles v).isSome = true) ∧
    (∀ (world : EcsWorld env) (k v sceneNodeName : String),
      (runFactoryCalls calls
        (EntityFactory.emptyWith env createDefaultEntityFunc postInitEntityFunc)
        ).prefabNameMapping k = some v →
      v ≠ "" →
      ((runFactoryCalls calls
        (EntityFactory.emptyWith env createDefaultEntityFunc postInitEntityFunc)
        ).createEntity world k sceneNodeName).outcome = Outcome.returned) := by
  have hinv := reachable_mapping_registered calls createDefaultEntityFunc postInitEntityFunc
  refine ⟨hinv, ?_⟩
  intro world k v sceneNodeName hkv hv
  apply createEntity_returned
  have hmapped : (runFactoryCalls calls
      (EntityFactory.emptyWith env createDefaultEntityFunc postInitEntityFunc)
      ).getMappedPrefabName k = v := by
    simp [EntityFactory.getMappedPrefabName, hkv]
  simp only [EntityFactory.actualPrefabName, hmapped, hv, not_false_eq_true, if_true]
  exact hinv k v hkv

/-- C25, amended, on the chain example: `kitty` is mapped to the registered prefab `cat`,
and creating an entity of `kitty` returns. -/
theorem C25_mapped_values_registered_witness :
    exampleChainFactory.prefabNameMapping "kitty" = some "cat" ∧ "cat" ≠ "" ∧
    (exampleChainFactory.createEntity { registry := [], events := [] } "kitty"
      "node").outcome = Outcome.returned :=
  ⟨by decide, by decide,
    (C25_mapped_values_registered
      [FactoryCall.addPrefabFile "cat" exampleFile,
        FactoryCall.addPrefabFile "dog" exampleFile,
        FactoryCall.addMappedPrefabName "kitty" "cat",
        FactoryCall.addMappedPrefabName "cat" "dog"] none none).2
      { registry := [], events := [] } "kitty" "cat" "node" (by decide) (by decide)⟩

/-- C22, counterexample: `init` (capacity 4, 2 frames) followed by `init` (capacity 8,
3 frames) passes all assertions and reaches a state with `initialized` true, 5 staging
buffers for `framesInFlight = 3`, and a first staging buffer of 4 bytes for
`gpuBufferSize = 8`; there the upload of 8 bytes for frame 0 passes its three assertions
and copies past the end of the staging buffer. -/
theorem C22_counterexample :
    runNBufferCalls [NBufferCall.init 0 4 2, NBufferCall.init 0 8 3]
      (NBuffer.default, exampleAllocator) = some exampleDoubleInit ∧
    exampleDoubleInit.1.initialized = true ∧
    exampleDoubleInit.1.stagingBuffers.length = 5 ∧
    exampleDoubleInit.1.framesInFlight = 3 ∧
    exampleDoubleInit.1.gpuBufferSize = 8 ∧
    ((exampleDoubleInit.1.stagingBuffers[0]?).bind
      (fun b => exampleDoubleInit.2.memory b.buffer)).map List.length = some 4 ∧
    (0 < exampleDoubleInit.1.framesInFlight ∧ 8 ≤ exampleDoubleInit.1.gpuBufferSize) ∧
    (exampleDoubleInit.1.uploadNewData exampleDoubleInit.2.memory [] 0
      [1, 2, 3, 4, 5, 6, 7, 8] 8).failure = some Failure.outOfBounds := by
  refine ⟨rfl, by decide, by decide, by decide, by decide, by decide, by decide, by decide⟩

/-- A call of `init` that passes its assertions had positive arguments. -/
theorem init_failure_none (self : NBuffer) (allocator : Allocator) (usage dataSize
    numFramesInFlight : Nat)
    (h : (self.init allocator usage dataSize numFramesInFlight).failure = none) :
    0 < numFramesInFlight ∧ 0 < dataSize := by
  unfold NBuffer.init at h
  by_cases hN : numFramesInFlight > 0
  · by_cases hC : dataSize > 0
    · exact ⟨hN, hC⟩
    · simp [hN, hC] at h
  · simp [hN] at h

/-- The method uploadNewData writes no member of the object. -/
theorem uploadNewData_self (self : NBuffer) (memory : Memory) (cmd : List Command)
    (frameIndex : Nat) (newData : List Byte) (dataSize : Nat) :
    (self.uploadNewData memory cmd frameIndex newData dataSize).self = self := by
  unfold NBuffer.uploadNewData
  split_ifs
  · dsimp only
    split
    · rfl
    · split <;> rfl
  · rfl
  · rfl
  · rfl

/-- An upload that runs to its end keeps every buffer of an initialised object live with
its size. -/
theorem uploadNewData_initialised (self : NBuffer) (memory : Memory) (cmd : List Command)
    (frameIndex : Nat) (newData : List Byte) (dataSize : Nat)
    (hI : self.Initialised memory)
    (hok : (self.uploadNewData memory cmd frameIndex newData dataSize).failure = none) :
    self.Initialised (self.uploadNewData memory cmd frameIndex newData dataSize).memory := by
  have hf : frameIndex < self.framesInFlight := by
    by_contra hcon
    simp [NBuffer.uploadNewData, hI.1, hcon] at hok
  have hS : dataSize ≤ self.gpuBufferSize := by
    by_contra hcon
    simp [NBuffer.uploadNewData, hI.1, hf, hcon] at hok
  obtain ⟨hinit, hlen, ⟨gbytes, hg, hglen⟩, hstaging⟩ := hI
  have hlt : frameIndex < self.stagingBuffers.length := by omega
  have hget : self.stagingBuffers[frameIndex]? = some (self.stagingBuffers[frameIndex]) :=
    List.getElem?_eq_getElem hlt
  obtain ⟨old, hold, holdlen⟩ := hstaging _ (List.getElem_mem hlt)
  have hd : dataSize ≤ newData.length := by
    by_contra hcon
    simp [NBuffer.uploadNewData, hinit, hf, hS, hget, memcpy, hold, hcon] at hok
  have hmem : (self.uploadNewData memory cmd frameIndex newData dataSize).memory =
      Function.update memory (self.stagingBuffers[frameIndex]).buffer
        (some (newData.take dataSize ++ old.drop dataSize)) := by
    have hcond : dataSize ≤ old.length ∧ dataSize ≤ newData.length := ⟨by omega, hd⟩
    simp [NBuffer.uploadNewData, hinit, hf, hS, hget, memcpy, hold, hcond]
  have hnewlen : (newData.take dataSize ++ old.drop dataSize).length = self.gpuBufferSize := by
    simp
    omega
  have hlive : ∀ h bytes, memory h = some bytes → bytes.length = self.gpuBufferSize →
      ∃ bytes1, Function.update memory (self.stagingBuffers[frameIndex]).buffer
        (some (newData.take dataSize ++ old.drop dataSize)) h = some bytes1 ∧
        bytes1.length = self.gpuBufferSize := by
    intro h bytes hb hbl
    by_cases hh : h = (self.stagingBuffers[frameIndex]).buffer
    · subst hh
      exact ⟨_, Function.update_same _ _ _, hnewlen⟩
    · exact ⟨bytes, by rw [Function.update_noteq hh]; exact hb, hbl⟩
  rw [hmem]
  refine ⟨hinit, hlen, hlive _ gbytes hg hglen, ?_⟩
  intro b hb
  obtain ⟨bytes, hbm, hbl⟩ := hstaging b hb
  exact hlive _ bytes hbm hbl

/-- One call that runs to its end, `init` being called only on an object that is not
initialised, keeps the invariant: an object that is not initialised has no staging
buffer, an initialised one is in the state `init` establishes. -/
theorem NBufferCall.run_invariant (call : NBufferCall) (st st1 : NBuffer × Allocator)
    (hinv : (st.1.initialized = false → st.1.stagingBuffers = []) ∧
      (st.1.initialized = true → st.1.Initialised st.2.memory))
    (hguard : ¬ (call.isInit = true ∧ st.1.initialized = true))
    (hrun : call.run st = some st1) :
    (st1.1.initialized = false → st1.1.stagingBuffers = []) ∧
    (st1.1.initialized = true → st1.1.Initialised st1.2.memory) := by
  cases call with
  | init usage dataSize numFramesInFlight =>
    have hnot : st.1.initialized = false := by
      cases h : st.1.initialized
      · rfl
      · exact absurd ⟨rfl, h⟩ hguard
    by_cases hok : (st.1.init st.2 usage dataSize numFramesInFlight).failure = none
    · simp only [NBufferCall.run, hok, if_true, Option.some.injEq] at hrun
      obtain ⟨hN, hC⟩ := init_failure_none _ _ _ _ _ hok
      obtain ⟨_, _, _, hI⟩ := init_initialised st.1 st.2 usage dataSize numFramesInFlight
        (hinv.1 hnot) hN hC
      subst hrun
      refine ⟨?_, fun _ => hI⟩
      intro hfalse
      rw [hI.1] at hfalse
      exact absurd hfalse (by decide)
    · simp [NBufferCall.run, hok] at hrun
  | cleanup =>
    simp only [NBufferCall.run, Option.some.injEq] at hrun
    subst hrun
    exact ⟨fun _ => rfl, fun h => by simp [NBuffer.cleanup] at h⟩
  | uploadNewData frameIndex newData dataSize =>
    by_cases hok : (st.1.uploadNewData st.2.memory [] frameIndex newData dataSize).failure
        = none
    · simp only [NBufferCall.run, hok, if_true, Option.some.injEq] at hrun
      subst hrun
      simp only [uploadNewData_self]
      exact ⟨hinv.1, fun h => uploadNewData_initialised _ _ _ _ _ _ (hinv.2 h) hok⟩
    · simp [NBufferCall.run, hok] at hrun

/-- The invariant holds after every sequence of calls that run to their end, `init`
being called only on an object that is not initialised. -/
theorem runNBufferCallsInitOnce_invariant (calls : List NBufferCall) :
    ∀ (st st1 : NBuffer × Allocator),
      ((st.1.initialized = false → st.1.stagingBuffers = []) ∧
        (st.1.initialized = true → st.1.Initialised st.2.memory)) →
      runNBufferCallsInitOnce calls st = some st1 →
      (st1.1.initialized = false → st1.1.stagingBuffers = []) ∧
      (st1.1.initialized = true → st1.1.Initialised st1.2.memory) := by
  induction calls with
  | nil =>
    intro st st1 hinv hrun
    simp only [runNBufferCallsInitOnce, Option.some.injEq] at hrun
    subst hrun
    exact hinv
  | cons call calls ih =>
    intro st st1 hinv hrun
    by_cases hguard : call.isInit = true ∧ st.1.initialized = true
    · simp [runNBufferCallsInitOnce, hguard] at hrun
    · cases hstep : call.run st with
      | none => simp [runNBufferCallsInitOnce, hguard, hstep] at hrun
      | some st2 =>
        simp only [runNBufferCallsInitOnce, hguard, if_false, hstep] at hrun
        exact ih st2 st1 (NBufferCall.run_invariant call st st2 hinv hguard hstep) hrun

/-- C22, amended: in every state reached from a default-constructed `NBuffer` by a
sequence of `init`, `cleanup` and `uploadNewData` calls that run to their end and in
which `init` is only called while `initialized` is false, whenever `initialized` is true
the number of staging buffers equals `framesInFlight` and every staging buffer is live
with `gpuBufferSize` bytes; hence for every upload whose assertions pass the staging
buffer `stagingBuffers[frameIndex]` exists and holds at least `dataSize` bytes. -/
theorem C22_reachable_invariant (calls : List NBufferCall) (allocator : Allocator)
    (self : NBuffer) (allocator1 : Allocator)
    (hrun : runNBufferCallsInitOnce calls (NBuffer.default, allocator)
      = some (self, allocator1))
    (hinit : self.initialized = true) :
    self.stagingBuffers.length = self.framesInFlight ∧
    (∀ b ∈ self.stagingBuffers,
      ∃ bytes, allocator1.memory b.buffer = some bytes ∧
        bytes.length = self.gpuBufferSize) ∧
    ∀ frameIndex dataSize, frameIndex < self.framesInFlight →
      dataSize ≤ self.gpuBufferSize →
      ∃ staging bytes, self.stagingBuffers[frameIndex]? = some staging ∧
        allocator1.memory staging.buffer = some bytes ∧ dataSize ≤ bytes.length := by
  have hinv := runNBufferCallsInitOnce_invariant calls (NBuffer.default, allocator)
    (self, allocator1) ⟨fun _ => rfl, fun h => by simp [NBuffer.default] at h⟩ hrun
  have hI : self.Initialised allocator1.memory := hinv.2 hinit
  obtain ⟨_, hlen, _, hstaging⟩ := hI
  refine ⟨hlen, hstaging, ?_⟩
  intro frameIndex dataSize hf hS
  have hlt : frameIndex < self.stagingBuffers.length := by omega
  obtain ⟨bytes, hb, hbl⟩ := hstaging _ (List.getElem_mem hlt)
  exact ⟨self.stagingBuffers[frameIndex], bytes, List.getElem?_eq_getElem hlt, hb, by omega⟩

/-- C22, amended, on the sequence `init` (capacity 4, 2 frames), `cleanup`, `init`
(capacity 8, 3 frames): the object has 3 staging buffers. -/
theorem C22_reachable_invariant_witness :
    runNBufferCallsInitOnce
      [NBufferCall.init 0 4 2, NBufferCall.cleanup, NBufferCall.init 0 8 3]
      (NBuffer.default, exampleAllocator) = some (exampleReinit.1, exampleReinit.2) ∧
    exampleReinit.1.initialized = true ∧
    exampleReinit.1.stagingBuffers.length = exampleReinit.1.framesInFlight :=
  ⟨rfl, by decide,
    (C22_reachable_invariant
      [NBufferCall.init 0 4 2, NBufferCall.cleanup, NBufferCall.init 0 8 3]
      exampleAllocator exampleReinit.1 exampleReinit.2 rfl (by decide)).1⟩

/-! ## SceneCache::loadScene (C21) -/

/-- A call on a cached path returns the cached scene and changes neither the cache nor
the world. -/
theorem loadScene_hit {env : SceneCollaborators} (self : SceneCache env)
    (world : SceneWorld env) (path : String) (scene : env.Scene)
    (h : self.sceneCache path = some scene) :
    self.loadScene world path =
      { assertionFailed := false, scene := some scene, self := self, world := world } := by
  simp only [SceneCache.loadScene, h]

/-- A call on a path that is not cached passes its assertion, prints, calls the loader
once on that path with the renderer, registers the animations of the loaded scene when
there are some, stores the loaded scene under the path without touching other entries,
and returns the stored scene. -/
theorem loadScene_miss {env : SceneCollaborators} (self : SceneCache env)
    (world : SceneWorld env) (path : String) (h : self.sceneCache path = none) :
    (self.loadScene world path).assertionFailed = false ∧
    (self.loadScene world path).scene = some (env.loadGltfFile world.renderer path).1 ∧
    (self.loadScene world path).self.sceneCache =
      Function.update self.sceneCache path (some (env.loadGltfFile world.renderer path).1) ∧
    (self.loadScene world path).world.renderer = (env.loadGltfFile world.renderer path).2 ∧
    (self.loadScene world path).world.events =
      world.events ++ ([SceneEvent.printedLoading path, SceneEvent.loadGltfFile path] ++
        if (env.animations (env.loadGltfFile world.renderer path).1).isEmpty = true then []
        else [SceneEvent.addAnimations path
          (env.animations (env.loadGltfFile world.renderer path).1)]) := by
  by_cases hanim : (env.animations (env.loadGltfFile world.renderer path).1).isEmpty = true
  · refine ⟨?_, ?_, ?_, ?_, ?_⟩ <;> simp [SceneCache.loadScene, h, mapEmplace, hanim]
  · refine ⟨?_, ?_, ?_, ?_, ?_⟩ <;> simp [SceneCache.loadScene, h, mapEmplace, hanim]

/-- The events of a call on a path that is not cached contain exactly one call of the
loader, on that path. -/
theorem loadScene_miss_count {env : SceneCollaborators} (path : String)
    (animations : List (SceneEvent env)) (hanim : ∀ e ∈ animations, ∀ p,
      SceneEvent.isLoadOf p e = false) (p : String) :
    ([SceneEvent.printedLoading path, SceneEvent.loadGltfFile path] ++ animations).countP
      (SceneEvent.isLoadOf p) = if path = p then 1 else 0 := by
  have h0 : animations.countP (SceneEvent.isLoadOf p) = 0 := by
    rw [List.countP_eq_zero]
    intro e he
    simp [hanim e he p]
  rw [List.countP_append, h0]
  by_cases hp : path = p <;> simp [List.countP_cons, SceneEvent.isLoadOf, hp]

/-- After any call the path is cached with the returned scene, and the call removes or
replaces no cached scene and adds no entry for another path. -/
theorem loadScene_cached {env : SceneCollaborators} (self : SceneCache env)
    (world : SceneWorld env) (path : String) :
    (self.loadScene world path).assertionFailed = false ∧
    (∃ scene, (self.loadScene world path).scene = some scene ∧
      (self.loadScene world path).self.sceneCache path = some scene) ∧
    (∀ q s, self.sceneCache q = some s →
      (self.loadScene world path).self.sceneCache q = some s) ∧
    ∀ q, q ≠ path → (self.loadScene world path).self.sceneCache q = self.sceneCache q := by
  cases h : self.sceneCache path with
  | some scene =>
    rw [loadScene_hit self world path scene h]
    exact ⟨rfl, ⟨scene, rfl, h⟩, fun q s hq => hq, fun q _ => rfl⟩
  | none =>
    obtain ⟨hok, hscene, hcache, _, _⟩ := loadScene_miss self world path h
    refine ⟨hok, ⟨_, hscene, by rw [hcache]; exact Function.update_same _ _ _⟩, ?_, ?_⟩
    · intro q s hq
      have hne : q ≠ path := by
        intro heq
        rw [heq, h] at hq
        exact absurd hq (by simp)
      rw [hcache, Function.update_noteq hne]
      exact hq
    · intro q hne
      rw [hcache, Function.update_noteq hne]

/-- Every sequence of calls runs to its end; it keeps every cached scene, leaves every
path of the sequence cached and adds no entry for a path outside the sequence; among the
events it adds, the loader is called exactly once on each path string of the sequence
that was not cached before, and on no other path string. -/
theorem loadScenes_spec {env : SceneCollaborators} (paths : List String) :
    ∀ st : SceneCache env × SceneWorld env,
      ∃ st1 added, loadScenes paths st = some st1 ∧
        (∀ q s, st.1.sceneCache q = some s → st1.1.sceneCache q = some s) ∧
        (∀ p ∈ paths, (st1.1.sceneCache p).isSome = true) ∧
        (∀ q, q ∉ paths → st1.1.sceneCache q = st.1.sceneCache q) ∧
        st1.2.events = st.2.events ++ added ∧
        ∀ p, added.countP (SceneEvent.isLoadOf p) =
          if (st.1.sceneCache p).isSome = true then 0 else if p ∈ paths then 1 else 0 := by
  induction paths with
  | nil =>
    intro st
    exact ⟨st, [], rfl, fun q s h => h, by simp, fun q _ => rfl, by simp, fun p => by simp⟩
  | cons path rest ih =>
    intro st
    obtain ⟨hok, ⟨scene, _, hstored⟩, hmono, hother⟩ := loadScene_cached st.1 st.2 path
    obtain ⟨st1, added1, hrun, hmono1, hall1, hout1, hev1, hcount1⟩ :=
      ih ((st.1.loadScene st.2 path).self, (st.1.loadScene st.2 path).world)
    have hstep : loadScenes (path :: rest) st = some st1 := by
      simp only [loadScenes, hok, Bool.false_eq_true, if_false]
      exact hrun
    have hall : ∀ p ∈ path :: rest, (st1.1.sceneCache p).isSome = true := by
      intro p hp
      rcases List.mem_cons.1 hp with hp | hp
      · subst hp
        simp [hmono1 p scene hstored]
      · exact hall1 p hp
    have hout : ∀ q, q ∉ path :: rest → st1.1.sceneCache q = st.1.sceneCache q := by
      intro q hq
      have hq1 : q ≠ path := fun h => hq (by simp [h])
      have hq2 : q ∉ rest := fun h => hq (List.mem_cons_of_mem _ h)
      rw [hout1 q hq2]
      exact hother q hq1
    cases h : st.1.sceneCache path with
    | some cached =>
      have hhit := loadScene_hit st.1 st.2 path cached h
      rw [hhit] at hmono1 hev1 hcount1
      refine ⟨st1, added1, hstep, hmono1, hall, hout, hev1, ?_⟩
      intro p
      rw [hcount1 p]
      by_cases hp : p = path
      · subst hp
        simp [h]
      · simp [List.mem_cons, hp]
    | none =>
      obtain ⟨_, _, hcache, _, hev0⟩ := loadScene_miss st.1 st.2 path h
      refine ⟨st1, ([SceneEvent.printedLoading path, SceneEvent.loadGltfFile path] ++
          if (env.animations (env.loadGltfFile st.2.renderer path).1).isEmpty = true then []
          else [SceneEvent.addAnimations path
            (env.animations (env.loadGltfFile st.2.renderer path).1)]) ++ added1,
        hstep, ?_, hall, hout, ?_, ?_⟩
      · intro q s hq
        exact hmono1 q s (hmono q s hq)
      · rw [hev1]
        show (st.1.loadScene st.2 path).world.events ++ added1 = _
        rw [hev0, List.append_assoc]
      · intro p
        rw [List.countP_append, loadScene_miss_count path _ (by
          intro e he q
          split_ifs at he
          · simp at he
          · simp at he
            subst he
            rfl) p, hcount1 p]
        by_cases hp : path = p
        · subst hp
          simp [hstored, h]
        · have hp1 : p ≠ path := fun h1 => hp h1.symm
          have hsame : (st.1.loadScene st.2 path).self.sceneCache p = st.1.sceneCache p :=
            hother p hp1
          simp only [hp, if_false, Nat.zero_add, List.mem_cons, hp1, false_or]
          show (if ((st.1.loadScene st.2 path).self.sceneCache p).isSome = true then 0
            else if p ∈ rest then 1 else 0) = _
          rw [hsame]

/-- On the example, loading `walk.gltf`, `a.gltf` and `walk.gltf` again from the empty
cache calls the loader twice, once per path string, and leaves both scenes cached. -/
theorem loadScenes_example :
    (loadScenes ["walk.gltf", "a.gltf", "walk.gltf"]
      (({ sceneCache := fun _ => none } : SceneCache exampleSceneEnv),
        ({ renderer := (0 : Nat), events := [] } : SceneWorld exampleSceneEnv))).map
      (fun st => (st.2.renderer, st.2.events.length,
        st.2.events.countP (SceneEvent.isLoadOf "walk.gltf"),
        st.2.events.countP (SceneEvent.isLoadOf "a.gltf"),
        st.1.sceneCache "walk.gltf", st.1.sceneCache "a.gltf", st.1.sceneCache "b.gltf"))
      = some ((2 : Nat), 5, 1, 1, some ("walk.gltf", [1]), some ("a.gltf", []), none) :=
  rfl

/-- C21: a `loadScene` call never fails `assert(inserted)`; on a cached path string it
returns the cached scene and changes nothing; on a path string that is not cached it
calls the glTF loader once, on that path, stores the loaded scene under the path string
and returns it, and calls `addAnimations` when the scene has animations. Every sequence
of calls, from any cache, runs to its end and leaves every path of the sequence cached;
among its events the loader is called exactly once on each path string of the sequence
that was not cached before, and on no other. A call on a path string that was passed to
an earlier call returns the scene that earlier call returned and stored (the loaded one
when the path was not cached then), and changes neither the cache nor the world: no
loader call and no `addAnimations` call. -/
theorem C21_scene_cache {env : SceneCollaborators} (cache : SceneCache env)
    (world : SceneWorld env) (paths : List String) :
    (∀ path, (cache.loadScene world path).assertionFailed = false ∧
      (∀ scene, cache.sceneCache path = some scene →
        cache.loadScene world path =
          { assertionFailed := false, scene := some scene, self := cache, world := world }) ∧
      (cache.sceneCache path = none →
        (cache.loadScene world path).scene = some (env.loadGltfFile world.renderer path).1 ∧
        (cache.loadScene world path).self.sceneCache =
          Function.update cache.sceneCache path
            (some (env.loadGltfFile world.renderer path).1) ∧
        (cache.loadScene world path).world.renderer
          = (env.loadGltfFile world.renderer path).2 ∧
        (cache.loadScene world path).world.events =
          world.events ++ ([SceneEvent.printedLoading path, SceneEvent.loadGltfFile path] ++
            if (env.animations (env.loadGltfFile world.renderer path).1).isEmpty = true
            then []
            else [SceneEvent.addAnimations path
              (env.animations (env.loadGltfFile world.renderer path).1)]))) ∧
    (∃ st1 added, loadScenes paths (cache, world) = some st1 ∧
      (∀ p ∈ paths, (st1.1.sceneCache p).isSome = true) ∧
      (∀ q, q ∉ paths → st1.1.sceneCache q = cache.sceneCache q) ∧
      st1.2.events = world.events ++ added ∧
      ∀ p, added.countP (SceneEvent.isLoadOf p) =
        if (cache.sceneCache p).isSome = true then 0 else if p ∈ paths then 1 else 0) ∧
    (∀ (before between : List String) (path : String),
      ∃ st1 st2 scene, loadScenes before (cache, world) = some st1 ∧
        (st1.1.loadScene st1.2 path).assertionFailed = false ∧
        (st1.1.loadScene st1.2 path).scene = some scene ∧
        (st1.1.loadScene st1.2 path).self.sceneCache path = some scene ∧
        (st1.1.sceneCache path = none →
          scene = (env.loadGltfFile st1.2.renderer path).1) ∧
        loadScenes between ((st1.1.loadScene st1.2 path).self,
          (st1.1.loadScene st1.2 path).world) = some st2 ∧
        st2.1.loadScene st2.2 path =
          { assertionFailed := false, scene := some scene, self := st2.1,
            world := st2.2 }) := by
  refine ⟨fun path => ⟨(loadScene_cached cache world path).1,
    fun scene h => loadScene_hit cache world path scene h, fun h => ?_⟩, ?_, ?_⟩
  · obtain ⟨_, hscene, hcache, hrend, hev⟩ := loadScene_miss cache world path h
    exact ⟨hscene, hcache, hrend, hev⟩
  · obtain ⟨st1, added, hrun, _, hall, hout, hev, hcount⟩ :=
      loadScenes_spec paths (cache, world)
    exact ⟨st1, added, hrun, hall, hout, hev, hcount⟩
  · intro before between path
    obtain ⟨st1, _, hrun1, _, _, _, _, _⟩ := loadScenes_spec before (cache, world)
    obtain ⟨hok, ⟨scene, hscene, hstored⟩, _, _⟩ := loadScene_cached st1.1 st1.2 path
    obtain ⟨st2, _, hrun2, hmono2, _, _, _, _⟩ := loadScenes_spec between
      ((st1.1.loadScene st1.2 path).self, (st1.1.loadScene st1.2 path).world)
    refine ⟨st1, st2, scene, hrun1, hok, hscene, hstored, ?_, hrun2,
      loadScene_hit st2.1 st2.2 path scene (hmono2 path scene hstored)⟩
    intro hnone
    have hloaded := (loadScene_miss st1.1 st1.2 path hnone).2.1
    rw [hscene] at hloaded
    exact Option.some.inj hloaded

/-- C21, on the example: from the empty cache, after `walk.gltf` and `a.gltf` were
loaded, a second call on `walk.gltf` returns the scene of the first call, which is the
scene the loader gave, and the whole sequence calls the loader once on `walk.gltf`. -/
theorem C21_scene_cache_witness :
    ∃ st1 added,
      loadScenes ["walk.gltf", "a.gltf", "walk.gltf"]
        (({ sceneCache := fun _ => none } : SceneCache exampleSceneEnv),
          ({ renderer := (0 : Nat), events := [] } : SceneWorld exampleSceneEnv))
        = some st1 ∧
      (∀ p ∈ ["walk.gltf", "a.gltf", "walk.gltf"], (st1.1.sceneCache p).isSome = true) ∧
      (∀ q, q ∉ ["walk.gltf", "a.gltf", "walk.gltf"] → st1.1.sceneCache q = none) ∧
      st1.2.events = [] ++ added ∧
      ∀ p, added.countP (SceneEvent.isLoadOf p) =
        if (none : Option exampleSceneEnv.Scene).isSome = true then 0
        else if p ∈ ["walk.gltf", "a.gltf", "walk.gltf"] then 1 else 0 :=
  (C21_scene_cache ({ sceneCache := fun _ => none } : SceneCache exampleSceneEnv)
    ({ renderer := (0 : Nat), events := [] } : SceneWorld exampleSceneEnv)
    ["walk.gltf", "a.gltf", "walk.gltf"]).2.1

end Edbr
